import Mathlib

set_option linter.unusedVariables false

/-!
# FMT-Firmware: module drivers over the uMCN bus

A shallow embedding of the three module drivers

* `src/module/control/base_controller/control_interface.c`
* `src/module/fms/base_fms/fms_interface.c`
* `src/module/plant/multicopter/plant_interface.c`

together with the bus (`mcn_*`) and the rate-limit gate (`check_timetag`) they
call.  The drivers are translated statement by statement; each step function
is the sequence of its phases (read the inputs, run the model and publish,
log), which are contiguous line ranges of the source.  The bus and the gate are
not among the sources; they are modelled from the specification and marked as
such.  The generated numeric models (`Controller_step`, `FMS_step`,
`Plant_step`, ...) and the record types of the generated headers are
parameters of the development.

Every call the drivers make to a collaborator is recorded, in program order, in
the `trace` field of the global state, so that statements such as "is called
exactly once" or "only after the gate fired" are statements about lists.

Times and timestamps (`uint32_t` in the sources) are natural numbers; no
arithmetic is done on them but the subtraction inside `check_timetag`, and wrap
around of the clock is not modelled.
-/

namespace FMT

/-! ## The uMCN bus -/

/-- Result of `mcn_copy`. -/
inductive Status where
  | OK
  | Stale
  deriving DecidableEq, Repr

/-- Echo callbacks handed to `mcn_advertise` in the sources. -/
inductive EchoCb where
  | control_out_echo
  deriving DecidableEq, Repr

/-- Modelled from the spec: the Topic Hub of the uMCN core, which is not among
the sources.  A hub owns one payload record of type `α` (the payload size is
fixed by the type), a version counter starting at 0, and an optional echo
callback.  `advertised` tells whether `mcn_advertise` has registered the hub
(`MCN_DEFINE` only reserves it); `payload = none` means that nothing has been
published yet. -/
structure McnHub (α : Type) where
  advertised : Bool
  version : Nat
  payload : Option α
  echo : Option EchoCb

/-- Modelled from the spec: a Subscriber Node, the cursor of one consumer: the
version it last copied.  The topic a node belongs to is passed next to the
node wherever the node is used. -/
structure McnNode where
  last_read : Nat
  deriving DecidableEq, Repr

/-- A `McnNode_t` is a pointer: `none` is `NULL`. -/
abbrev McnNode_t := Option McnNode

/-- The hub reserved by `MCN_DEFINE(name, size)`, before any advertise. -/
def MCN_DEFINE (α : Type) : McnHub α :=
  { advertised := false, version := 0, payload := none, echo := none }

/-- Modelled from the spec: `advertise(name, payload_size, echo_callback?)`
registers a new topic, or returns the existing hub when it is registered
already.  (The payload size is the type `α`, so a size mismatch cannot be
written.) -/
def mcn_advertise {α : Type} (hub : McnHub α) (echo : Option EchoCb) : McnHub α :=
  if hub.advertised then hub
  else { advertised := true, version := 0, payload := none, echo := echo }

/-- Modelled from the spec: `publish(handle, data)` copies `data` into the
topic's buffer and increments the version counter.  (The echo callback is run
by the caller, see `run_echo`.) -/
def mcn_publish {α : Type} (hub : McnHub α) (data : α) : McnHub α :=
  { hub with payload := some data, version := hub.version + 1 }

/-- Modelled from the spec: `subscribe(handle, callback?, filter?)` creates a
node whose last-read version is the topic's version at subscription.  It fails
(`NULL`) on a topic that was never advertised (`NotFound`). -/
def mcn_subscribe {α : Type} (hub : McnHub α) : McnNode_t :=
  if hub.advertised then some { last_read := hub.version } else none

/-- Modelled from the spec: `poll(node)` is true iff the topic's current
version is strictly greater than the node's last-read version.  It does not
change the node. -/
def mcn_poll {α : Type} (hub : McnHub α) (node : McnNode) : Bool :=
  decide (hub.version > node.last_read)

/-- Modelled from the spec: `copy(node, out_buffer)` copies the topic's current
payload into the buffer and advances the node's last-read version to the
topic's version.  It returns `Stale`, leaving buffer and node as they were,
when the topic has never been published to. -/
def mcn_copy {α : Type} (hub : McnHub α) (node : McnNode) (buffer : α) :
    Status × McnNode × α :=
  match hub.payload with
  | none => (Status.Stale, node, buffer)
  | some data => (Status.OK, { last_read := hub.version }, data)

/-- Modelled from the spec, by analogy with `copy`: `mcn_copy_from_hub` reads
the hub's payload without a node; it succeeds once something was published. -/
def mcn_copy_from_hub {α : Type} (hub : McnHub α) : Option α :=
  hub.payload

/-! ## The rate-limit gate -/

/-- Modelled from the spec: a Rate-Limit Gate, the (period, last-fired-time)
pair behind `DEFINE_TIMETAG`. -/
structure TimeTag where
  tag : Nat
  period : Nat
  deriving DecidableEq, Repr

/-- Modelled from the spec: `check_timetag(gate)`: if
`now - last_fired ≥ gate.period`, set `last_fired = now` and return true; else
return false.  `now` is the system clock at the call. -/
def check_timetag (now : Nat) (gate : TimeTag) : Bool × TimeTag :=
  if now - gate.tag ≥ gate.period then (true, { gate with tag := now })
  else (false, gate)

/-! ## Record types of the generated headers -/

/-- The record types declared in the generated headers (`Controller_types.h`,
`FMS_types.h`, `Plant_types.h`) and `real32_T`; the headers declaring them are
not among the sources, so they are parameters.  `Pilot_Cmd_Fields` and
`GCS_Cmd_Fields` stand for the fields of `Pilot_Cmd_Bus` and `GCS_Cmd_Bus`
other than `timestamp`. -/
structure BusTypes where
  FMS_Out_Bus : Type
  INS_Out_Bus : Type
  Control_Out_Bus : Type
  Pilot_Cmd_Fields : Type
  GCS_Cmd_Fields : Type
  Plant_States_Bus : Type
  real32_T : Type
  DW_Controller_T : Type
  DW_FMS_T : Type
  DW_Plant_T : Type

/-- The bus `Pilot_Cmd_Bus`: a `timestamp` and the remaining fields. -/
structure Pilot_Cmd_Bus (T : BusTypes) where
  timestamp : Nat
  fields : T.Pilot_Cmd_Fields

/-- The bus `GCS_Cmd_Bus`: a `timestamp` and the remaining fields. -/
structure GCS_Cmd_Bus (T : BusTypes) where
  timestamp : Nat
  fields : T.GCS_Cmd_Fields

/-- External inputs of the controller model (`Controller.h`). -/
structure ExtU_Controller_T (T : BusTypes) where
  FMS_Out : T.FMS_Out_Bus
  INS_Out : T.INS_Out_Bus

/-- External outputs of the controller model (`Controller.h`). -/
structure ExtY_Controller_T (T : BusTypes) where
  Control_Out : T.Control_Out_Bus

/-- External inputs of the FMS model, as used by `fms_interface.c`. -/
structure ExtU_FMS_T (T : BusTypes) where
  Pilot_Cmd : Pilot_Cmd_Bus T
  GCS_Cmd : GCS_Cmd_Bus T
  INS_Out : T.INS_Out_Bus
  Control_Out : T.Control_Out_Bus

/-- External outputs of the FMS model, as used by `fms_interface.c`. -/
structure ExtY_FMS_T (T : BusTypes) where
  FMS_Out : T.FMS_Out_Bus

/-- External inputs of the plant model, as used by `plant_interface.c`. -/
structure ExtU_Plant_T (T : BusTypes) where
  Control_Out : T.Control_Out_Bus

/-- The field `Plant_Y.IMU`. -/
structure IMU_Bus (T : BusTypes) where
  timestamp : Nat
  gyr_x : T.real32_T
  gyr_y : T.real32_T
  gyr_z : T.real32_T
  acc_x : T.real32_T
  acc_y : T.real32_T
  acc_z : T.real32_T

/-- The field `Plant_Y.MAG`. -/
structure MAG_Bus (T : BusTypes) where
  timestamp : Nat
  mag_x : T.real32_T
  mag_y : T.real32_T
  mag_z : T.real32_T

/-- The field `Plant_Y.Barometer`. -/
structure Barometer_Bus (T : BusTypes) where
  timestamp : Nat
  temperature : T.real32_T
  pressure : T.real32_T

/-- The field `Plant_Y.GPS`. -/
structure GPS_Bus where
  timestamp : Nat
  fixType : Int
  numSV : Int
  lon : Int
  lat : Int
  height : Int
  hAcc : Int
  vAcc : Int
  velN : Int
  velE : Int
  velD : Int
  sAcc : Int

/-- External outputs of the plant model, as used by `plant_interface.c`. -/
structure ExtY_Plant_T (T : BusTypes) where
  Plant_States : T.Plant_States_Bus
  IMU : IMU_Bus T
  MAG : MAG_Bus T
  Barometer : Barometer_Bus T
  GPS : GPS_Bus

/-- The sensor report `imu_data_t` (`sensor_hub.h`), as filled by the plant
driver. -/
structure imu_data_t (T : BusTypes) where
  timestamp_ms : Nat
  gyr_B_radDs : T.real32_T × T.real32_T × T.real32_T
  acc_B_mDs2 : T.real32_T × T.real32_T × T.real32_T

/-- The sensor report `mag_data_t`. -/
structure mag_data_t (T : BusTypes) where
  timestamp_ms : Nat
  mag_B_gauss : T.real32_T × T.real32_T × T.real32_T

/-- The sensor report `baro_data_t`. -/
structure baro_data_t (T : BusTypes) where
  timestamp_ms : Nat
  temperature_deg : T.real32_T
  pressure_pa : T.real32_T

/-- The sensor report `gps_data_t`. -/
structure gps_data_t (T : BusTypes) where
  timestamp_ms : Nat
  fixType : Int
  numSV : Int
  lon : Int
  lat : Int
  height : Int
  hAcc : T.real32_T
  vAcc : T.real32_T
  velN : T.real32_T
  velE : T.real32_T
  velD : T.real32_T
  sAcc : T.real32_T

/-- The record `fmt_model_info_t`. -/
structure fmt_model_info_t where
  period : Nat
  info : String
  deriving DecidableEq, Repr

/-- The records `CONTROL_EXPORT`, `FMS_EXPORT`, `PLANT_EXPORT`. -/
structure EXPORT_T where
  period : Nat
  model_info : String
  deriving DecidableEq, Repr

/-- The generated models and the build configuration: the numeric `step`
functions (each consumes the tunable parameters, the input record, the previous
output record and the block states, and produces the output record and the
block states), the values the `init` functions give to the three records, the
exported constants, the sizes of the logged records and the compile-time
options.  `scale_1e_3` stands for the floating-point expression
`(float)x * 1e-3`. -/
structure Generated (T : BusTypes) where
  FMT_ONLINE_PARAM_TUNING : Bool
  CONTROL_EXPORT : EXPORT_T
  FMS_EXPORT : EXPORT_T
  PLANT_EXPORT : EXPORT_T
  Controller_init : ExtU_Controller_T T × ExtY_Controller_T T × T.DW_Controller_T
  Controller_step : (String → T.real32_T) → ExtU_Controller_T T → ExtY_Controller_T T →
    T.DW_Controller_T → ExtY_Controller_T T × T.DW_Controller_T
  FMS_init : ExtU_FMS_T T × ExtY_FMS_T T × T.DW_FMS_T
  FMS_step : (String → T.real32_T) → ExtU_FMS_T T → ExtY_FMS_T T → T.DW_FMS_T →
    ExtY_FMS_T T × T.DW_FMS_T
  Plant_init : ExtU_Plant_T T × ExtY_Plant_T T × T.DW_Plant_T
  Plant_step : ExtU_Plant_T T → ExtY_Plant_T T → T.DW_Plant_T →
    ExtY_Plant_T T × T.DW_Plant_T
  scale_1e_3 : Int → T.real32_T
  sizeof_Control_Out_Bus : Nat
  sizeof_FMS_Out_Bus : Nat
  sizeof_Pilot_Cmd_Bus : Nat
  sizeof_GCS_Cmd_Bus : Nat
  sizeof_Plant_States_Bus : Nat

/-! ## Calls to collaborators -/

/-- The topics the drivers name with `MCN_HUB`. -/
inductive Topic where
  | pilot_cmd
  | gcs_cmd
  | ins_output
  | fms_output
  | control_output
  | sensor_imu0
  | sensor_mag0
  | sensor_baro
  | sensor_gps
  deriving DecidableEq, Repr

/-- The subscriber nodes (file-static variables) of the three drivers. -/
inductive Node where
  | controller_fms_out_nod
  | controller_ins_out_nod
  | fms_pilot_cmd_nod
  | fms_gcs_cmd_nod
  | fms_ins_out_nod
  | fms_control_out_nod
  | plant_control_out_nod
  deriving DecidableEq, Repr

/-- The gates the drivers declare with `DEFINE_TIMETAG`. -/
inductive Gate where
  | control_output
  | fms_output
  | plant_output
  deriving DecidableEq, Repr

/-- The message ids handed to `mlog_push_msg`. -/
inductive MsgId where
  | MLOG_PILOT_CMD_ID
  | MLOG_GCS_CMD_ID
  | MLOG_FMS_OUT_ID
  | MLOG_CONTROL_OUT_ID
  | MLOG_PLANT_STATE_ID
  deriving DecidableEq, Repr

/-- Callbacks registered with `mlog_register_callback(MLOG_CB_START, _)`. -/
inductive StartCb where
  | fms_mlog_start_cb
  deriving DecidableEq, Repr

/-- The records that travel over the bus or to the logger. -/
inductive Payload (T : BusTypes) where
  | pilot_cmd (v : Pilot_Cmd_Bus T)
  | gcs_cmd (v : GCS_Cmd_Bus T)
  | ins_out (v : T.INS_Out_Bus)
  | fms_out (v : T.FMS_Out_Bus)
  | control_out (v : T.Control_Out_Bus)
  | plant_states (v : T.Plant_States_Bus)
  | imu (v : imu_data_t T)
  | mag (v : mag_data_t T)
  | baro (v : baro_data_t T)
  | gps (v : gps_data_t T)

/-- One call from a driver to a collaborator, with the values that matter:
the outcome of a poll, a copy or a gate check, the record published or logged,
the inputs a numeric model is stepped with.  `workqueue_schedule_work` is the
call that registers a Work Item with a work queue (`board/led.c` makes it for
its LED items). -/
inductive Event (T : BusTypes) where
  | mcn_advertise (hub : Topic)
  | mcn_subscribe (hub : Topic) (node : Node) (ok : Bool)
  | mcn_poll (node : Node) (dirty : Bool)
  | mcn_copy (hub : Topic) (node : Node) (status : Status)
  | mcn_publish (hub : Topic) (data : Payload T)
  | console_printf (data : Payload T)
  | check_timetag (gate : Gate) (period : Nat) (fired : Bool)
  | mlog_push_msg (data : Payload T) (msg_id : MsgId) (len : Nat)
  | mlog_register_callback (cb : StartCb)
  | ulog_e (tag : String) (msg : String)
  | workqueue_schedule_work (queue : String) (item : String) (period : Nat)
  | Controller_init
  | Controller_step (u : ExtU_Controller_T T)
  | FMS_init
  | FMS_step (u : ExtU_FMS_T T)
  | Plant_init
  | Plant_step (u : ExtU_Plant_T T)

/-! ## Global state -/

/-- The hubs behind `MCN_HUB(name)`, for the topics the three drivers publish
to or subscribe to.  (`fms_interface.c` also defines a hub `auto_cmd`, which no
function of these sources touches.) -/
structure Bus (T : BusTypes) where
  pilot_cmd : McnHub (Pilot_Cmd_Bus T)
  gcs_cmd : McnHub (GCS_Cmd_Bus T)
  ins_output : McnHub T.INS_Out_Bus
  fms_output : McnHub T.FMS_Out_Bus
  control_output : McnHub T.Control_Out_Bus
  sensor_imu0 : McnHub (imu_data_t T)
  sensor_mag0 : McnHub (mag_data_t T)
  sensor_baro : McnHub (baro_data_t T)
  sensor_gps : McnHub (gps_data_t T)

/-- File-static and model variables of `control_interface.c`.
`timetag_control_output` is the gate of `DEFINE_TIMETAG(control_output, 100)`;
`CONTROL_PARAM` is indexed by field name. -/
structure ControllerVars (T : BusTypes) where
  fms_out_nod : McnNode_t
  ins_out_nod : McnNode_t
  control_model_info : fmt_model_info_t
  Controller_U : ExtU_Controller_T T
  Controller_Y : ExtY_Controller_T T
  Controller_DW : T.DW_Controller_T
  CONTROL_PARAM : String → T.real32_T
  timetag_control_output : TimeTag

/-- File-static and model variables of `fms_interface.c`.
`timetag_fms_output` is the gate of `DEFINE_TIMETAG(fms_output, 100)`. -/
structure FmsVars (T : BusTypes) where
  pilot_cmd_nod : McnNode_t
  gcs_cmd_nod : McnNode_t
  ins_out_nod : McnNode_t
  control_out_nod : McnNode_t
  pilot_cmd_updated : Nat
  gcs_cmd_updated : Nat
  fms_model_info : fmt_model_info_t
  FMS_U : ExtU_FMS_T T
  FMS_Y : ExtY_FMS_T T
  FMS_DW : T.DW_FMS_T
  FMS_PARAM : String → T.real32_T
  timetag_fms_output : TimeTag

/-- File-static and model variables of `plant_interface.c`.
`timetag_plant_output` is the gate of `DEFINE_TIMETAG(plant_output, 100)`. -/
structure PlantVars (T : BusTypes) where
  control_out_nod : McnNode_t
  imu_timestamp : Nat
  mag_timestamp : Nat
  baro_timestamp : Nat
  gps_timestamp : Nat
  plant_model_info : fmt_model_info_t
  Plant_U : ExtU_Plant_T T
  Plant_Y : ExtY_Plant_T T
  Plant_DW : T.DW_Plant_T
  timetag_plant_output : TimeTag

/-- The global state: the system clock read by `check_timetag`, the parameter
store read by `PARAM_GET_FLOAT(group, name)`, the start callbacks registered
with the logger, the bus, the variables of the three drivers, and the calls
made so far. -/
structure World (T : BusTypes) where
  systime : Nat
  param_store : String → String → T.real32_T
  mlog_start_cbs : List StartCb
  bus : Bus T
  controller : ControllerVars T
  fms : FmsVars T
  plant : PlantVars T
  trace : List (Event T)

/-- Record one call. -/
def World.emit {T : BusTypes} (w : World T) (e : Event T) : World T :=
  { w with trace := w.trace ++ [e] }

/-- The calls made between state `w` and a later state `w1`. -/
def call_events {T : BusTypes} (w w1 : World T) : List (Event T) :=
  w1.trace.drop w.trace.length

/-! ## control_interface.c -/

/-- The function `control_out_echo(param)`: print the hub's record when
`mcn_copy_from_hub` succeeds. -/
def control_out_echo {T : BusTypes} (w : World T) : World T :=
  match mcn_copy_from_hub w.bus.control_output with
  | some control_out => w.emit (Event.console_printf (Payload.control_out control_out))
  | none => w

/-- Modelled from the spec: after a publish the bus invokes the topic's echo
callback, if any. -/
def run_echo {T : BusTypes} (echo : Option EchoCb) (w : World T) : World T :=
  match echo with
  | some EchoCb.control_out_echo => control_out_echo w
  | none => w

/-- The fields of `CONTROL_PARAM` assigned by `update_parameter`. -/
def CONTROL_PARAM_names : List String :=
  ["VEL_XY_P", "VEL_XY_I", "VEL_XY_D", "VEL_Z_P", "VEL_Z_I", "VEL_Z_D",
   "VEL_XY_I_MIN", "VEL_XY_I_MAX", "VEL_XY_D_MIN", "VEL_XY_D_MAX",
   "VEL_Z_I_MIN", "VEL_Z_I_MAX", "VEL_Z_D_MIN", "VEL_Z_D_MAX",
   "ROLL_P", "PITCH_P", "ROLL_PITCH_CMD_LIM",
   "ROLL_RATE_P", "PITCH_RATE_P", "YAW_RATE_P",
   "ROLL_RATE_I", "PITCH_RATE_I", "YAW_RATE_I",
   "ROLL_RATE_D", "PITCH_RATE_D", "YAW_RATE_D",
   "RATE_I_MIN", "RATE_I_MAX", "RATE_D_MIN", "RATE_D_MAX",
   "P_Q_CMD_LIM", "R_CMD_LIM"]

/-- The function `update_parameter` of `control_interface.c`:
`CONTROL_PARAM.X = PARAM_GET_FLOAT(CONTROL, X)` for each listed field. -/
def control_update_parameter {T : BusTypes} (w : World T) : World T :=
  { w with controller := { w.controller with
      CONTROL_PARAM := fun f =>
        if f ∈ CONTROL_PARAM_names then w.param_store "CONTROL" f
        else w.controller.CONTROL_PARAM f } }

/-- Lines 86-92 of `control_interface_step`: poll each input node and copy
when dirty.  The result is `none` when a `NULL` node is handed to the bus. -/
def control_read_inputs {T : BusTypes} (w : World T) : Option (World T) := do
  -- if (mcn_poll(fms_out_nod)) mcn_copy(MCN_HUB(fms_output), fms_out_nod, &Controller_U.FMS_Out);
  let fms_out_nod ← w.controller.fms_out_nod
  let dirty := mcn_poll w.bus.fms_output fms_out_nod
  let w := w.emit (Event.mcn_poll Node.controller_fms_out_nod dirty)
  let w :=
    if dirty then
      let r := mcn_copy w.bus.fms_output fms_out_nod w.controller.Controller_U.FMS_Out
      World.emit
        { w with controller := { w.controller with
            fms_out_nod := some r.2.1,
            Controller_U := { w.controller.Controller_U with FMS_Out := r.2.2 } } }
        (Event.mcn_copy Topic.fms_output Node.controller_fms_out_nod r.1)
    else w
  -- if (mcn_poll(ins_out_nod)) mcn_copy(MCN_HUB(ins_output), ins_out_nod, &Controller_U.INS_Out);
  let ins_out_nod ← w.controller.ins_out_nod
  let dirty := mcn_poll w.bus.ins_output ins_out_nod
  let w := w.emit (Event.mcn_poll Node.controller_ins_out_nod dirty)
  let w :=
    if dirty then
      let r := mcn_copy w.bus.ins_output ins_out_nod w.controller.Controller_U.INS_Out
      World.emit
        { w with controller := { w.controller with
            ins_out_nod := some r.2.1,
            Controller_U := { w.controller.Controller_U with INS_Out := r.2.2 } } }
        (Event.mcn_copy Topic.ins_output Node.controller_ins_out_nod r.1)
    else w
  pure w

/-- Lines 94-96 of `control_interface_step`: run the model, publish its
output. -/
def control_run_model {T : BusTypes} (G : Generated T) (w : World T) : World T :=
  -- Controller_step();
  let w := w.emit (Event.Controller_step w.controller.Controller_U)
  let y := G.Controller_step w.controller.CONTROL_PARAM w.controller.Controller_U
    w.controller.Controller_Y w.controller.Controller_DW
  let w := { w with controller := { w.controller with
    Controller_Y := y.1, Controller_DW := y.2 } }
  -- mcn_publish(MCN_HUB(control_output), &Controller_Y.Control_Out);
  let w := World.emit
    { w with bus := { w.bus with
        control_output := mcn_publish w.bus.control_output w.controller.Controller_Y.Control_Out } }
    (Event.mcn_publish Topic.control_output
      (Payload.control_out w.controller.Controller_Y.Control_Out))
  run_echo w.bus.control_output.echo w

/-- Lines 98-103 of `control_interface_step`: the gate
`DEFINE_TIMETAG(control_output, 100)` and the log push behind it. -/
def control_log_output {T : BusTypes} (G : Generated T) (w : World T) : World T :=
  -- if (check_timetag(TIMETAG(control_output))) mlog_push_msg(...);
  let c := check_timetag w.systime w.controller.timetag_control_output
  let w := World.emit
    { w with controller := { w.controller with timetag_control_output := c.2 } }
    (Event.check_timetag Gate.control_output w.controller.timetag_control_output.period c.1)
  if c.1 then
    w.emit (Event.mlog_push_msg (Payload.control_out w.controller.Controller_Y.Control_Out)
      MsgId.MLOG_CONTROL_OUT_ID G.sizeof_Control_Out_Bus)
  else w

/-- The function `control_interface_step(timestamp)`. -/
def control_interface_step {T : BusTypes} (G : Generated T) (timestamp : Nat)
    (w : World T) : Option (World T) := do
  let w := if G.FMT_ONLINE_PARAM_TUNING then control_update_parameter w else w
  let w ← control_read_inputs w
  let w := control_run_model G w
  pure (control_log_output G w)

/-- The function `control_interface_init`. -/
def control_interface_init {T : BusTypes} (G : Generated T) (w : World T) : World T :=
  let w := { w with controller := { w.controller with
    control_model_info :=
      { period := G.CONTROL_EXPORT.period, info := G.CONTROL_EXPORT.model_info } } }
  -- mcn_advertise(MCN_HUB(control_output), control_out_echo);
  let w := World.emit
    { w with bus := { w.bus with
        control_output := mcn_advertise w.bus.control_output (some EchoCb.control_out_echo) } }
    (Event.mcn_advertise Topic.control_output)
  -- fms_out_nod = mcn_subscribe(MCN_HUB(fms_output), NULL, NULL);
  let w := World.emit
    { w with controller := { w.controller with fms_out_nod := mcn_subscribe w.bus.fms_output } }
    (Event.mcn_subscribe Topic.fms_output Node.controller_fms_out_nod
      (mcn_subscribe w.bus.fms_output).isSome)
  -- ins_out_nod = mcn_subscribe(MCN_HUB(ins_output), NULL, NULL);
  let w := World.emit
    { w with controller := { w.controller with ins_out_nod := mcn_subscribe w.bus.ins_output } }
    (Event.mcn_subscribe Topic.ins_output Node.controller_ins_out_nod
      (mcn_subscribe w.bus.ins_output).isSome)
  -- Controller_init();
  let w := World.emit
    { w with controller := { w.controller with
        Controller_U := G.Controller_init.1,
        Controller_Y := G.Controller_init.2.1,
        Controller_DW := G.Controller_init.2.2 } }
    Event.Controller_init
  control_update_parameter w

/-! ## fms_interface.c -/

/-- The function `mlog_start_cb` of `fms_interface.c`. -/
def mlog_start_cb {T : BusTypes} (w : World T) : World T :=
  { w with fms := { w.fms with pilot_cmd_updated := 1, gcs_cmd_updated := 1 } }

/-- Run one registered start callback. -/
def run_start_cb {T : BusTypes} (cb : StartCb) (w : World T) : World T :=
  match cb with
  | StartCb.fms_mlog_start_cb => mlog_start_cb w

/-- Modelled from the spec: when logging (re)starts, the logger invokes the
registered start callbacks in registration order. -/
def mlog_start {T : BusTypes} (w : World T) : World T :=
  w.mlog_start_cbs.foldl (fun acc cb => run_start_cb cb acc) w

/-- The fields of `FMS_PARAM` assigned by `update_parameter`. -/
def FMS_PARAM_names : List String :=
  ["THROTTLE_DZ", "YAW_DZ", "ROLL_DZ", "PITCH_DZ", "XY_P", "Z_P",
   "VEL_XY_LIM", "VEL_Z_LIM", "YAW_P", "YAW_RATE_LIM", "ROLL_PITCH_LIM"]

/-- The function `update_parameter` of `fms_interface.c`:
`FMS_PARAM.X = PARAM_GET_FLOAT(FMS, X)` for each listed field. -/
def fms_update_parameter {T : BusTypes} (w : World T) : World T :=
  { w with fms := { w.fms with
      FMS_PARAM := fun f =>
        if f ∈ FMS_PARAM_names then w.param_store "FMS" f
        else w.fms.FMS_PARAM f } }

/-- Lines 69-74 of `fms_interface_step`: poll `pilot_cmd_nod`; when dirty,
copy, stamp the command and flag it as updated.  The result is `none` when the
node is `NULL`. -/
def fms_read_pilot_cmd {T : BusTypes} (timestamp : Nat) (w : World T) :
    Option (World T) := do
  -- if (mcn_poll(pilot_cmd_nod)) { mcn_copy(..., &FMS_U.Pilot_Cmd); ... }
  let pilot_cmd_nod ← w.fms.pilot_cmd_nod
  let dirty := mcn_poll w.bus.pilot_cmd pilot_cmd_nod
  let w := w.emit (Event.mcn_poll Node.fms_pilot_cmd_nod dirty)
  let w :=
    if dirty then
      let r := mcn_copy w.bus.pilot_cmd pilot_cmd_nod w.fms.FMS_U.Pilot_Cmd
      let w := World.emit
        { w with fms := { w.fms with
            pilot_cmd_nod := some r.2.1,
            FMS_U := { w.fms.FMS_U with Pilot_Cmd := r.2.2 } } }
        (Event.mcn_copy Topic.pilot_cmd Node.fms_pilot_cmd_nod r.1)
      -- FMS_U.Pilot_Cmd.timestamp = timestamp; pilot_cmd_updated = 1;
      { w with fms := { w.fms with
          FMS_U := { w.fms.FMS_U with
            Pilot_Cmd := { w.fms.FMS_U.Pilot_Cmd with timestamp := timestamp } },
          pilot_cmd_updated := 1 } }
    else w
  pure w

/-- Lines 76-81 of `fms_interface_step`: poll `gcs_cmd_nod`; when dirty, copy,
stamp the command and flag it as updated. -/
def fms_read_gcs_cmd {T : BusTypes} (timestamp : Nat) (w : World T) :
    Option (World T) := do
  -- if (mcn_poll(gcs_cmd_nod)) { mcn_copy(..., &FMS_U.GCS_Cmd); ... }
  let gcs_cmd_nod ← w.fms.gcs_cmd_nod
  let dirty := mcn_poll w.bus.gcs_cmd gcs_cmd_nod
  let w := w.emit (Event.mcn_poll Node.fms_gcs_cmd_nod dirty)
  let w :=
    if dirty then
      let r := mcn_copy w.bus.gcs_cmd gcs_cmd_nod w.fms.FMS_U.GCS_Cmd
      let w := World.emit
        { w with fms := { w.fms with
            gcs_cmd_nod := some r.2.1,
            FMS_U := { w.fms.FMS_U with GCS_Cmd := r.2.2 } } }
        (Event.mcn_copy Topic.gcs_cmd Node.fms_gcs_cmd_nod r.1)
      -- FMS_U.GCS_Cmd.timestamp = timestamp; gcs_cmd_updated = 1;
      { w with fms := { w.fms with
          FMS_U := { w.fms.FMS_U with
            GCS_Cmd := { w.fms.FMS_U.GCS_Cmd with timestamp := timestamp } },
          gcs_cmd_updated := 1 } }
    else w
  pure w

/-- Lines 83-85 of `fms_interface_step`: poll `ins_out_nod` and copy when
dirty. -/
def fms_read_ins_out {T : BusTypes} (w : World T) : Option (World T) := do
  -- if (mcn_poll(ins_out_nod)) mcn_copy(MCN_HUB(ins_output), ins_out_nod, &FMS_U.INS_Out);
  let ins_out_nod ← w.fms.ins_out_nod
  let dirty := mcn_poll w.bus.ins_output ins_out_nod
  let w := w.emit (Event.mcn_poll Node.fms_ins_out_nod dirty)
  let w :=
    if dirty then
      let r := mcn_copy w.bus.ins_output ins_out_nod w.fms.FMS_U.INS_Out
      World.emit
        { w with fms := { w.fms with
            ins_out_nod := some r.2.1,
            FMS_U := { w.fms.FMS_U with INS_Out := r.2.2 } } }
        (Event.mcn_copy Topic.ins_output Node.fms_ins_out_nod r.1)
    else w
  pure w

/-- Lines 87-89 of `fms_interface_step`: poll `control_out_nod` and copy when
dirty. -/
def fms_read_control_out {T : BusTypes} (w : World T) : Option (World T) := do
  -- if (mcn_poll(control_out_nod)) mcn_copy(MCN_HUB(control_output), control_out_nod, &FMS_U.Control_Out);
  let control_out_nod ← w.fms.control_out_nod
  let dirty := mcn_poll w.bus.control_output control_out_nod
  let w := w.emit (Event.mcn_poll Node.fms_control_out_nod dirty)
  let w :=
    if dirty then
      let r := mcn_copy w.bus.control_output control_out_nod w.fms.FMS_U.Control_Out
      World.emit
        { w with fms := { w.fms with
            control_out_nod := some r.2.1,
            FMS_U := { w.fms.FMS_U with Control_Out := r.2.2 } } }
        (Event.mcn_copy Topic.control_output Node.fms_control_out_nod r.1)
    else w
  pure w

/-- Lines 69-89 of `fms_interface_step`: the four inputs, in program order.
The result is `none` when a `NULL` node is handed to the bus. -/
def fms_read_inputs {T : BusTypes} (timestamp : Nat) (w : World T) : Option (World T) := do
  let w ← fms_read_pilot_cmd timestamp w
  let w ← fms_read_gcs_cmd timestamp w
  let w ← fms_read_ins_out w
  fms_read_control_out w

/-- Lines 91-93 of `fms_interface_step`: run the model, publish its output. -/
def fms_run_model {T : BusTypes} (G : Generated T) (w : World T) : World T :=
  -- FMS_step();
  let w := w.emit (Event.FMS_step w.fms.FMS_U)
  let y := G.FMS_step w.fms.FMS_PARAM w.fms.FMS_U w.fms.FMS_Y w.fms.FMS_DW
  let w := { w with fms := { w.fms with FMS_Y := y.1, FMS_DW := y.2 } }
  -- mcn_publish(MCN_HUB(fms_output), &FMS_Y.FMS_Out);
  let w := World.emit
    { w with bus := { w.bus with
        fms_output := mcn_publish w.bus.fms_output w.fms.FMS_Y.FMS_Out } }
    (Event.mcn_publish Topic.fms_output (Payload.fms_out w.fms.FMS_Y.FMS_Out))
  run_echo w.bus.fms_output.echo w

/-- Lines 95-112 of `fms_interface_step`: log the two commands when flagged as
updated, and the output behind the gate `DEFINE_TIMETAG(fms_output, 100)`. -/
def fms_log_output {T : BusTypes} (G : Generated T) (w : World T) : World T :=
  -- if (pilot_cmd_updated) { pilot_cmd_updated = 0; mlog_push_msg(&FMS_U.Pilot_Cmd, ...); }
  let w :=
    if w.fms.pilot_cmd_updated ≠ 0 then
      World.emit
        { w with fms := { w.fms with pilot_cmd_updated := 0 } }
        (Event.mlog_push_msg (Payload.pilot_cmd w.fms.FMS_U.Pilot_Cmd)
          MsgId.MLOG_PILOT_CMD_ID G.sizeof_Pilot_Cmd_Bus)
    else w
  -- if (gcs_cmd_updated) { gcs_cmd_updated = 0; mlog_push_msg(&FMS_U.GCS_Cmd, ...); }
  let w :=
    if w.fms.gcs_cmd_updated ≠ 0 then
      World.emit
        { w with fms := { w.fms with gcs_cmd_updated := 0 } }
        (Event.mlog_push_msg (Payload.gcs_cmd w.fms.FMS_U.GCS_Cmd)
          MsgId.MLOG_GCS_CMD_ID G.sizeof_GCS_Cmd_Bus)
    else w
  -- DEFINE_TIMETAG(fms_output, 100); if (check_timetag(TIMETAG(fms_output))) ...
  let c := check_timetag w.systime w.fms.timetag_fms_output
  let w := World.emit
    { w with fms := { w.fms with timetag_fms_output := c.2 } }
    (Event.check_timetag Gate.fms_output w.fms.timetag_fms_output.period c.1)
  if c.1 then
    w.emit (Event.mlog_push_msg (Payload.fms_out w.fms.FMS_Y.FMS_Out)
      MsgId.MLOG_FMS_OUT_ID G.sizeof_FMS_Out_Bus)
  else w

/-- The function `fms_interface_step(timestamp)`. -/
def fms_interface_step {T : BusTypes} (G : Generated T) (timestamp : Nat)
    (w : World T) : Option (World T) := do
  let w := if G.FMT_ONLINE_PARAM_TUNING then fms_update_parameter w else w
  let w ← fms_read_inputs timestamp w
  let w := fms_run_model G w
  pure (fms_log_output G w)

/-- The function `fms_interface_init`. -/
def fms_interface_init {T : BusTypes} (G : Generated T) (w : World T) : World T :=
  let w := { w with fms := { w.fms with
    fms_model_info := { period := G.FMS_EXPORT.period, info := G.FMS_EXPORT.model_info } } }
  -- mcn_advertise(MCN_HUB(fms_output), NULL);
  let w := World.emit
    { w with bus := { w.bus with fms_output := mcn_advertise w.bus.fms_output none } }
    (Event.mcn_advertise Topic.fms_output)
  -- pilot_cmd_nod = mcn_subscribe(MCN_HUB(pilot_cmd), NULL, NULL);
  let w := World.emit
    { w with fms := { w.fms with pilot_cmd_nod := mcn_subscribe w.bus.pilot_cmd } }
    (Event.mcn_subscribe Topic.pilot_cmd Node.fms_pilot_cmd_nod
      (mcn_subscribe w.bus.pilot_cmd).isSome)
  -- gcs_cmd_nod = mcn_subscribe(MCN_HUB(gcs_cmd), NULL, NULL);
  let w := World.emit
    { w with fms := { w.fms with gcs_cmd_nod := mcn_subscribe w.bus.gcs_cmd } }
    (Event.mcn_subscribe Topic.gcs_cmd Node.fms_gcs_cmd_nod
      (mcn_subscribe w.bus.gcs_cmd).isSome)
  -- ins_out_nod = mcn_subscribe(MCN_HUB(ins_output), NULL, NULL);
  let w := World.emit
    { w with fms := { w.fms with ins_out_nod := mcn_subscribe w.bus.ins_output } }
    (Event.mcn_subscribe Topic.ins_output Node.fms_ins_out_nod
      (mcn_subscribe w.bus.ins_output).isSome)
  -- control_out_nod = mcn_subscribe(MCN_HUB(control_output), NULL, NULL);
  let w := World.emit
    { w with fms := { w.fms with control_out_nod := mcn_subscribe w.bus.control_output } }
    (Event.mcn_subscribe Topic.control_output Node.fms_control_out_nod
      (mcn_subscribe w.bus.control_output).isSome)
  -- mlog_register_callback(MLOG_CB_START, mlog_start_cb);
  let w := World.emit
    { w with mlog_start_cbs := w.mlog_start_cbs ++ [StartCb.fms_mlog_start_cb] }
    (Event.mlog_register_callback StartCb.fms_mlog_start_cb)
  -- FMS_init();
  let w := World.emit
    { w with fms := { w.fms with
        FMS_U := G.FMS_init.1, FMS_Y := G.FMS_init.2.1, FMS_DW := G.FMS_init.2.2 } }
    Event.FMS_init
  fms_update_parameter w

/-! ## plant_interface.c (built with `FMT_USING_SIH`) -/

/-- The local `imu_report` of `publish_sensor_data`, as filled before it is
published. -/
def imu_report {T : BusTypes} (timestamp : Nat) (IMU : IMU_Bus T) : imu_data_t T :=
  { timestamp_ms := timestamp,
    gyr_B_radDs := (IMU.gyr_x, IMU.gyr_y, IMU.gyr_z),
    acc_B_mDs2 := (IMU.acc_x, IMU.acc_y, IMU.acc_z) }

/-- The local `mag_report` of `publish_sensor_data`. -/
def mag_report {T : BusTypes} (timestamp : Nat) (MAG : MAG_Bus T) : mag_data_t T :=
  { timestamp_ms := timestamp,
    mag_B_gauss := (MAG.mag_x, MAG.mag_y, MAG.mag_z) }

/-- The local `baro_report` of `publish_sensor_data`. -/
def baro_report {T : BusTypes} (timestamp : Nat) (Barometer : Barometer_Bus T) :
    baro_data_t T :=
  { timestamp_ms := timestamp,
    temperature_deg := Barometer.temperature,
    pressure_pa := Barometer.pressure }

/-- The local `gps_report` of `publish_sensor_data`. -/
def gps_report {T : BusTypes} (G : Generated T) (timestamp : Nat) (GPS : GPS_Bus) :
    gps_data_t T :=
  { timestamp_ms := timestamp,
    fixType := GPS.fixType,
    numSV := GPS.numSV,
    lon := GPS.lon,
    lat := GPS.lat,
    height := GPS.height,
    hAcc := G.scale_1e_3 GPS.hAcc,
    vAcc := G.scale_1e_3 GPS.vAcc,
    velN := G.scale_1e_3 GPS.velN,
    velE := G.scale_1e_3 GPS.velE,
    velD := G.scale_1e_3 GPS.velD,
    sAcc := G.scale_1e_3 GPS.sAcc }

/-- The function `publish_sensor_data(timestamp)`. -/
def publish_sensor_data {T : BusTypes} (G : Generated T) (timestamp : Nat)
    (w : World T) : World T :=
  -- if (Plant_Y.IMU.timestamp != imu_timestamp) { ... }
  let w :=
    if w.plant.Plant_Y.IMU.timestamp ≠ w.plant.imu_timestamp then
      let w := World.emit
        { w with bus := { w.bus with
            sensor_imu0 := mcn_publish w.bus.sensor_imu0
              (imu_report timestamp w.plant.Plant_Y.IMU) } }
        (Event.mcn_publish Topic.sensor_imu0
          (Payload.imu (imu_report timestamp w.plant.Plant_Y.IMU)))
      let w := run_echo w.bus.sensor_imu0.echo w
      { w with plant := { w.plant with imu_timestamp := w.plant.Plant_Y.IMU.timestamp } }
    else w
  -- if (Plant_Y.MAG.timestamp != mag_timestamp) { ... }
  let w :=
    if w.plant.Plant_Y.MAG.timestamp ≠ w.plant.mag_timestamp then
      let w := World.emit
        { w with bus := { w.bus with
            sensor_mag0 := mcn_publish w.bus.sensor_mag0
              (mag_report timestamp w.plant.Plant_Y.MAG) } }
        (Event.mcn_publish Topic.sensor_mag0
          (Payload.mag (mag_report timestamp w.plant.Plant_Y.MAG)))
      let w := run_echo w.bus.sensor_mag0.echo w
      { w with plant := { w.plant with mag_timestamp := w.plant.Plant_Y.MAG.timestamp } }
    else w
  -- if (Plant_Y.Barometer.timestamp != baro_timestamp) { ... }
  let w :=
    if w.plant.Plant_Y.Barometer.timestamp ≠ w.plant.baro_timestamp then
      let w := World.emit
        { w with bus := { w.bus with
            sensor_baro := mcn_publish w.bus.sensor_baro
              (baro_report timestamp w.plant.Plant_Y.Barometer) } }
        (Event.mcn_publish Topic.sensor_baro
          (Payload.baro (baro_report timestamp w.plant.Plant_Y.Barometer)))
      let w := run_echo w.bus.sensor_baro.echo w
      { w with plant := { w.plant with baro_timestamp := w.plant.Plant_Y.Barometer.timestamp } }
    else w
  -- if (Plant_Y.GPS.timestamp != gps_timestamp) { ... }
  let w :=
    if w.plant.Plant_Y.GPS.timestamp ≠ w.plant.gps_timestamp then
      let w := World.emit
        { w with bus := { w.bus with
            sensor_gps := mcn_publish w.bus.sensor_gps
              (gps_report G timestamp w.plant.Plant_Y.GPS) } }
        (Event.mcn_publish Topic.sensor_gps
          (Payload.gps (gps_report G timestamp w.plant.Plant_Y.GPS)))
      let w := run_echo w.bus.sensor_gps.echo w
      { w with plant := { w.plant with gps_timestamp := w.plant.Plant_Y.GPS.timestamp } }
    else w
  w

/-- Lines 110-112 of `plant_interface_step`: poll the input node and copy when
dirty.  The result is `none` when a `NULL` node is handed to the bus. -/
def plant_read_inputs {T : BusTypes} (w : World T) : Option (World T) := do
  -- if (mcn_poll(control_out_nod)) mcn_copy(MCN_HUB(control_output), control_out_nod, &Plant_U.Control_Out);
  let control_out_nod ← w.plant.control_out_nod
  let dirty := mcn_poll w.bus.control_output control_out_nod
  let w := w.emit (Event.mcn_poll Node.plant_control_out_nod dirty)
  let w :=
    if dirty then
      let r := mcn_copy w.bus.control_output control_out_nod w.plant.Plant_U.Control_Out
      World.emit
        { w with plant := { w.plant with
            control_out_nod := some r.2.1,
            Plant_U := { w.plant.Plant_U with Control_Out := r.2.2 } } }
        (Event.mcn_copy Topic.control_output Node.plant_control_out_nod r.1)
    else w
  pure w

/-- Line 115 of `plant_interface_step`: run the plant model. -/
def plant_run_model {T : BusTypes} (G : Generated T) (w : World T) : World T :=
  -- Plant_step();
  let w := w.emit (Event.Plant_step w.plant.Plant_U)
  let y := G.Plant_step w.plant.Plant_U w.plant.Plant_Y w.plant.Plant_DW
  { w with plant := { w.plant with Plant_Y := y.1, Plant_DW := y.2 } }

/-- Lines 117-122 of `plant_interface_step`: the gate
`DEFINE_TIMETAG(plant_output, 100)` and the log push behind it. -/
def plant_log_output {T : BusTypes} (G : Generated T) (w : World T) : World T :=
  -- if (check_timetag(TIMETAG(plant_output))) mlog_push_msg(...);
  let c := check_timetag w.systime w.plant.timetag_plant_output
  let w := World.emit
    { w with plant := { w.plant with timetag_plant_output := c.2 } }
    (Event.check_timetag Gate.plant_output w.plant.timetag_plant_output.period c.1)
  if c.1 then
    w.emit (Event.mlog_push_msg (Payload.plant_states w.plant.Plant_Y.Plant_States)
      MsgId.MLOG_PLANT_STATE_ID G.sizeof_Plant_States_Bus)
  else w

/-- The function `plant_interface_step(timestamp)`. -/
def plant_interface_step {T : BusTypes} (G : Generated T) (timestamp : Nat)
    (w : World T) : Option (World T) := do
  let w ← plant_read_inputs w
  let w := plant_run_model G w
  let w := plant_log_output G w
  -- publish_sensor_data(timestamp);
  pure (publish_sensor_data G timestamp w)

/-- The function `plant_interface_init`. -/
def plant_interface_init {T : BusTypes} (G : Generated T) (w : World T) : World T :=
  let w := { w with plant := { w.plant with
    plant_model_info :=
      { period := G.PLANT_EXPORT.period, info := G.PLANT_EXPORT.model_info } } }
  -- control_out_nod = mcn_subscribe(MCN_HUB(control_output), NULL, NULL);
  let w := World.emit
    { w with plant := { w.plant with control_out_nod := mcn_subscribe w.bus.control_output } }
    (Event.mcn_subscribe Topic.control_output Node.plant_control_out_nod
      (mcn_subscribe w.bus.control_output).isSome)
  -- if (control_out_nod == NULL) ulog_e(TAG, "uMCN topic control_output subscribe fail!\n");
  let w :=
    if w.plant.control_out_nod = none then
      w.emit (Event.ulog_e "Plant" "uMCN topic control_output subscribe fail!\n")
    else w
  -- Plant_init();
  World.emit
    { w with plant := { w.plant with
        Plant_U := G.Plant_init.1, Plant_Y := G.Plant_init.2.1, Plant_DW := G.Plant_init.2.2 } }
    Event.Plant_init

/-! ## Reading the trace -/

/-- A call to a numeric model's step function. -/
def Event.isModelStep {T : BusTypes} : Event T → Bool
  | Event.Controller_step _ => true
  | Event.FMS_step _ => true
  | Event.Plant_step _ => true
  | _ => false

/-- A call to `mcn_publish`. -/
def Event.isPublish {T : BusTypes} : Event T → Bool
  | Event.mcn_publish _ _ => true
  | _ => false

/-- A call to `mcn_poll` or `mcn_copy`. -/
def Event.isBusRead {T : BusTypes} : Event T → Bool
  | Event.mcn_poll _ _ => true
  | Event.mcn_copy _ _ _ => true
  | _ => false

/-- A call to `check_timetag`. -/
def Event.isGateCheck {T : BusTypes} : Event T → Bool
  | Event.check_timetag _ _ _ => true
  | _ => false

/-- A call to `mlog_push_msg`. -/
def Event.isPush {T : BusTypes} : Event T → Bool
  | Event.mlog_push_msg _ _ _ => true
  | _ => false

/-- A call to `mlog_push_msg` with the given message id. -/
def Event.isPushOf {T : BusTypes} (id : MsgId) : Event T → Bool
  | Event.mlog_push_msg _ msg_id _ => decide (msg_id = id)
  | _ => false

/-- A call to `workqueue_schedule_work`. -/
def Event.isScheduleWork {T : BusTypes} : Event T → Bool
  | Event.workqueue_schedule_work _ _ _ => true
  | _ => false

/-- A call to `Plant_init`. -/
def Event.isPlantInit {T : BusTypes} : Event T → Bool
  | Event.Plant_init => true
  | _ => false

/-- The calls made by a hub's echo callback when it is run while
`control_output` is the hub of the controller's output topic. -/
def echo_events {T : BusTypes} (echo : Option EchoCb)
    (control_output : McnHub T.Control_Out_Bus) : List (Event T) :=
  match echo with
  | none => []
  | some EchoCb.control_out_echo =>
    match mcn_copy_from_hub control_output with
    | some control_out => [Event.console_printf (Payload.control_out control_out)]
    | none => []

/-- Scan a list of calls: `gated_from fired evs` is true iff every
`mlog_push_msg` in `evs` comes after a `check_timetag` that returned true
(`fired` tells whether one was seen before `evs`). -/
def gated_from {T : BusTypes} : Bool → List (Event T) → Bool
  | _, [] => true
  | _, Event.check_timetag _ _ true :: es => gated_from true es
  | fired, Event.mlog_push_msg _ _ _ :: es => fired && gated_from fired es
  | fired, _ :: es => gated_from fired es

/-- Every `mlog_push_msg` in the list comes after a `check_timetag` of the same
list that returned true. -/
def gated_pushes {T : BusTypes} (evs : List (Event T)) : Bool :=
  gated_from false evs

/-! ## Effect of one driver step

The facts about one call of a step function that the theorems below draw on,
gathered in one record per driver: `w` is the state on entry, `w1` the state on
return, and the `n`s are the driver's nodes on entry. -/

/-- Effect of `control_interface_step` from `w` to `w1`. -/
structure ControlStepEffect {T : BusTypes} (G : Generated T) (w : World T)
    (n1 n2 : McnNode) (w1 : World T) : Prop where
  systime : w1.systime = w.systime
  param_store : w1.param_store = w.param_store
  mlog_start_cbs : w1.mlog_start_cbs = w.mlog_start_cbs
  fms : w1.fms = w.fms
  plant : w1.plant = w.plant
  bus : w1.bus = { w.bus with
    control_output := mcn_publish w.bus.control_output w1.controller.Controller_Y.Control_Out }
  fms_out_nod : w1.controller.fms_out_nod = some (if mcn_poll w.bus.fms_output n1 then
    (mcn_copy w.bus.fms_output n1 w.controller.Controller_U.FMS_Out).2.1 else n1)
  ins_out_nod : w1.controller.ins_out_nod = some (if mcn_poll w.bus.ins_output n2 then
    (mcn_copy w.bus.ins_output n2 w.controller.Controller_U.INS_Out).2.1 else n2)
  control_model_info : w1.controller.control_model_info = w.controller.control_model_info
  FMS_Out : w1.controller.Controller_U.FMS_Out = if mcn_poll w.bus.fms_output n1 then
    (mcn_copy w.bus.fms_output n1 w.controller.Controller_U.FMS_Out).2.2
    else w.controller.Controller_U.FMS_Out
  INS_Out : w1.controller.Controller_U.INS_Out = if mcn_poll w.bus.ins_output n2 then
    (mcn_copy w.bus.ins_output n2 w.controller.Controller_U.INS_Out).2.2
    else w.controller.Controller_U.INS_Out
  CONTROL_PARAM : w1.controller.CONTROL_PARAM =
    if G.FMT_ONLINE_PARAM_TUNING then (control_update_parameter w).controller.CONTROL_PARAM
    else w.controller.CONTROL_PARAM
  Controller_Y : w1.controller.Controller_Y =
    (G.Controller_step w1.controller.CONTROL_PARAM w1.controller.Controller_U
      w.controller.Controller_Y w.controller.Controller_DW).1
  Controller_DW : w1.controller.Controller_DW =
    (G.Controller_step w1.controller.CONTROL_PARAM w1.controller.Controller_U
      w.controller.Controller_Y w.controller.Controller_DW).2
  timetag : w1.controller.timetag_control_output =
    (check_timetag w.systime w.controller.timetag_control_output).2
  trace : w1.trace = w.trace ++
    ([Event.mcn_poll Node.controller_fms_out_nod (mcn_poll w.bus.fms_output n1)] ++
     (if mcn_poll w.bus.fms_output n1 then
        [Event.mcn_copy Topic.fms_output Node.controller_fms_out_nod
          (mcn_copy w.bus.fms_output n1 w.controller.Controller_U.FMS_Out).1]
      else []) ++
     [Event.mcn_poll Node.controller_ins_out_nod (mcn_poll w.bus.ins_output n2)] ++
     (if mcn_poll w.bus.ins_output n2 then
        [Event.mcn_copy Topic.ins_output Node.controller_ins_out_nod
          (mcn_copy w.bus.ins_output n2 w.controller.Controller_U.INS_Out).1]
      else []) ++
     [Event.Controller_step w1.controller.Controller_U,
      Event.mcn_publish Topic.control_output
        (Payload.control_out w1.controller.Controller_Y.Control_Out)] ++
     echo_events w.bus.control_output.echo w1.bus.control_output ++
     [Event.check_timetag Gate.control_output w.controller.timetag_control_output.period
        (check_timetag w.systime w.controller.timetag_control_output).1] ++
     (if (check_timetag w.systime w.controller.timetag_control_output).1 then
        [Event.mlog_push_msg (Payload.control_out w1.controller.Controller_Y.Control_Out)
          MsgId.MLOG_CONTROL_OUT_ID G.sizeof_Control_Out_Bus]
      else []))

/-- Effect of `fms_interface_step timestamp` from `w` to `w1`. -/
structure FmsStepEffect {T : BusTypes} (G : Generated T) (timestamp : Nat) (w : World T)
    (n1 n2 n3 n4 : McnNode) (w1 : World T) : Prop where
  systime : w1.systime = w.systime
  param_store : w1.param_store = w.param_store
  mlog_start_cbs : w1.mlog_start_cbs = w.mlog_start_cbs
  controller : w1.controller = w.controller
  plant : w1.plant = w.plant
  bus : w1.bus = { w.bus with
    fms_output := mcn_publish w.bus.fms_output w1.fms.FMS_Y.FMS_Out }
  pilot_cmd_nod : w1.fms.pilot_cmd_nod = some (if mcn_poll w.bus.pilot_cmd n1 then
    (mcn_copy w.bus.pilot_cmd n1 w.fms.FMS_U.Pilot_Cmd).2.1 else n1)
  gcs_cmd_nod : w1.fms.gcs_cmd_nod = some (if mcn_poll w.bus.gcs_cmd n2 then
    (mcn_copy w.bus.gcs_cmd n2 w.fms.FMS_U.GCS_Cmd).2.1 else n2)
  ins_out_nod : w1.fms.ins_out_nod = some (if mcn_poll w.bus.ins_output n3 then
    (mcn_copy w.bus.ins_output n3 w.fms.FMS_U.INS_Out).2.1 else n3)
  control_out_nod : w1.fms.control_out_nod = some (if mcn_poll w.bus.control_output n4 then
    (mcn_copy w.bus.control_output n4 w.fms.FMS_U.Control_Out).2.1 else n4)
  pilot_cmd_updated : w1.fms.pilot_cmd_updated = 0
  gcs_cmd_updated : w1.fms.gcs_cmd_updated = 0
  fms_model_info : w1.fms.fms_model_info = w.fms.fms_model_info
  Pilot_Cmd : w1.fms.FMS_U.Pilot_Cmd = if mcn_poll w.bus.pilot_cmd n1 then
    { (mcn_copy w.bus.pilot_cmd n1 w.fms.FMS_U.Pilot_Cmd).2.2 with timestamp := timestamp }
    else w.fms.FMS_U.Pilot_Cmd
  GCS_Cmd : w1.fms.FMS_U.GCS_Cmd = if mcn_poll w.bus.gcs_cmd n2 then
    { (mcn_copy w.bus.gcs_cmd n2 w.fms.FMS_U.GCS_Cmd).2.2 with timestamp := timestamp }
    else w.fms.FMS_U.GCS_Cmd
  INS_Out : w1.fms.FMS_U.INS_Out = if mcn_poll w.bus.ins_output n3 then
    (mcn_copy w.bus.ins_output n3 w.fms.FMS_U.INS_Out).2.2 else w.fms.FMS_U.INS_Out
  Control_Out : w1.fms.FMS_U.Control_Out = if mcn_poll w.bus.control_output n4 then
    (mcn_copy w.bus.control_output n4 w.fms.FMS_U.Control_Out).2.2
    else w.fms.FMS_U.Control_Out
  FMS_PARAM : w1.fms.FMS_PARAM =
    if G.FMT_ONLINE_PARAM_TUNING then (fms_update_parameter w).fms.FMS_PARAM
    else w.fms.FMS_PARAM
  FMS_Y : w1.fms.FMS_Y =
    (G.FMS_step w1.fms.FMS_PARAM w1.fms.FMS_U w.fms.FMS_Y w.fms.FMS_DW).1
  FMS_DW : w1.fms.FMS_DW =
    (G.FMS_step w1.fms.FMS_PARAM w1.fms.FMS_U w.fms.FMS_Y w.fms.FMS_DW).2
  timetag : w1.fms.timetag_fms_output =
    (check_timetag w.systime w.fms.timetag_fms_output).2
  trace : w1.trace = w.trace ++
    ([Event.mcn_poll Node.fms_pilot_cmd_nod (mcn_poll w.bus.pilot_cmd n1)] ++
     (if mcn_poll w.bus.pilot_cmd n1 then
        [Event.mcn_copy Topic.pilot_cmd Node.fms_pilot_cmd_nod
          (mcn_copy w.bus.pilot_cmd n1 w.fms.FMS_U.Pilot_Cmd).1]
      else []) ++
     [Event.mcn_poll Node.fms_gcs_cmd_nod (mcn_poll w.bus.gcs_cmd n2)] ++
     (if mcn_poll w.bus.gcs_cmd n2 then
        [Event.mcn_copy Topic.gcs_cmd Node.fms_gcs_cmd_nod
          (mcn_copy w.bus.gcs_cmd n2 w.fms.FMS_U.GCS_Cmd).1]
      else []) ++
     [Event.mcn_poll Node.fms_ins_out_nod (mcn_poll w.bus.ins_output n3)] ++
     (if mcn_poll w.bus.ins_output n3 then
        [Event.mcn_copy Topic.ins_output Node.fms_ins_out_nod
          (mcn_copy w.bus.ins_output n3 w.fms.FMS_U.INS_Out).1]
      else []) ++
     [Event.mcn_poll Node.fms_control_out_nod (mcn_poll w.bus.control_output n4)] ++
     (if mcn_poll w.bus.control_output n4 then
        [Event.mcn_copy Topic.control_output Node.fms_control_out_nod
          (mcn_copy w.bus.control_output n4 w.fms.FMS_U.Control_Out).1]
      else []) ++
     [Event.FMS_step w1.fms.FMS_U,
      Event.mcn_publish Topic.fms_output (Payload.fms_out w1.fms.FMS_Y.FMS_Out)] ++
     echo_events w.bus.fms_output.echo w.bus.control_output ++
     (if mcn_poll w.bus.pilot_cmd n1 = true ∨ w.fms.pilot_cmd_updated ≠ 0 then
        [Event.mlog_push_msg (Payload.pilot_cmd w1.fms.FMS_U.Pilot_Cmd)
          MsgId.MLOG_PILOT_CMD_ID G.sizeof_Pilot_Cmd_Bus]
      else []) ++
     (if mcn_poll w.bus.gcs_cmd n2 = true ∨ w.fms.gcs_cmd_updated ≠ 0 then
        [Event.mlog_push_msg (Payload.gcs_cmd w1.fms.FMS_U.GCS_Cmd)
          MsgId.MLOG_GCS_CMD_ID G.sizeof_GCS_Cmd_Bus]
      else []) ++
     [Event.check_timetag Gate.fms_output w.fms.timetag_fms_output.period
        (check_timetag w.systime w.fms.timetag_fms_output).1] ++
     (if (check_timetag w.systime w.fms.timetag_fms_output).1 then
        [Event.mlog_push_msg (Payload.fms_out w1.fms.FMS_Y.FMS_Out)
          MsgId.MLOG_FMS_OUT_ID G.sizeof_FMS_Out_Bus]
      else []))

/-- The calls made by `publish_sensor_data timestamp` when the plant outputs
are `Y` and the recorded sensor timestamps are those of `v`. -/
def sensor_events {T : BusTypes} (G : Generated T) (timestamp : Nat) (bus : Bus T)
    (v : PlantVars T) (Y : ExtY_Plant_T T) : List (Event T) :=
  (if Y.IMU.timestamp ≠ v.imu_timestamp then
     [Event.mcn_publish Topic.sensor_imu0 (Payload.imu (imu_report timestamp Y.IMU))] ++
     echo_events bus.sensor_imu0.echo bus.control_output
   else []) ++
  (if Y.MAG.timestamp ≠ v.mag_timestamp then
     [Event.mcn_publish Topic.sensor_mag0 (Payload.mag (mag_report timestamp Y.MAG))] ++
     echo_events bus.sensor_mag0.echo bus.control_output
   else []) ++
  (if Y.Barometer.timestamp ≠ v.baro_timestamp then
     [Event.mcn_publish Topic.sensor_baro
       (Payload.baro (baro_report timestamp Y.Barometer))] ++
     echo_events bus.sensor_baro.echo bus.control_output
   else []) ++
  (if Y.GPS.timestamp ≠ v.gps_timestamp then
     [Event.mcn_publish Topic.sensor_gps (Payload.gps (gps_report G timestamp Y.GPS))] ++
     echo_events bus.sensor_gps.echo bus.control_output
   else [])

/-- Effect of `plant_interface_step timestamp` from `w` to `w1`. -/
structure PlantStepEffect {T : BusTypes} (G : Generated T) (timestamp : Nat) (w : World T)
    (n : McnNode) (w1 : World T) : Prop where
  systime : w1.systime = w.systime
  param_store : w1.param_store = w.param_store
  mlog_start_cbs : w1.mlog_start_cbs = w.mlog_start_cbs
  controller : w1.controller = w.controller
  fms : w1.fms = w.fms
  bus : w1.bus = { w.bus with
    sensor_imu0 := if w1.plant.Plant_Y.IMU.timestamp ≠ w.plant.imu_timestamp then
      mcn_publish w.bus.sensor_imu0 (imu_report timestamp w1.plant.Plant_Y.IMU)
      else w.bus.sensor_imu0,
    sensor_mag0 := if w1.plant.Plant_Y.MAG.timestamp ≠ w.plant.mag_timestamp then
      mcn_publish w.bus.sensor_mag0 (mag_report timestamp w1.plant.Plant_Y.MAG)
      else w.bus.sensor_mag0,
    sensor_baro := if w1.plant.Plant_Y.Barometer.timestamp ≠ w.plant.baro_timestamp then
      mcn_publish w.bus.sensor_baro (baro_report timestamp w1.plant.Plant_Y.Barometer)
      else w.bus.sensor_baro,
    sensor_gps := if w1.plant.Plant_Y.GPS.timestamp ≠ w.plant.gps_timestamp then
      mcn_publish w.bus.sensor_gps (gps_report G timestamp w1.plant.Plant_Y.GPS)
      else w.bus.sensor_gps }
  control_out_nod : w1.plant.control_out_nod = some (if mcn_poll w.bus.control_output n then
    (mcn_copy w.bus.control_output n w.plant.Plant_U.Control_Out).2.1 else n)
  plant_model_info : w1.plant.plant_model_info = w.plant.plant_model_info
  Control_Out : w1.plant.Plant_U.Control_Out = if mcn_poll w.bus.control_output n then
    (mcn_copy w.bus.control_output n w.plant.Plant_U.Control_Out).2.2
    else w.plant.Plant_U.Control_Out
  Plant_Y : w1.plant.Plant_Y =
    (G.Plant_step w1.plant.Plant_U w.plant.Plant_Y w.plant.Plant_DW).1
  Plant_DW : w1.plant.Plant_DW =
    (G.Plant_step w1.plant.Plant_U w.plant.Plant_Y w.plant.Plant_DW).2
  imu_timestamp : w1.plant.imu_timestamp = w1.plant.Plant_Y.IMU.timestamp
  mag_timestamp : w1.plant.mag_timestamp = w1.plant.Plant_Y.MAG.timestamp
  baro_timestamp : w1.plant.baro_timestamp = w1.plant.Plant_Y.Barometer.timestamp
  gps_timestamp : w1.plant.gps_timestamp = w1.plant.Plant_Y.GPS.timestamp
  timetag : w1.plant.timetag_plant_output =
    (check_timetag w.systime w.plant.timetag_plant_output).2
  trace : w1.trace = w.trace ++
    ([Event.mcn_poll Node.plant_control_out_nod (mcn_poll w.bus.control_output n)] ++
     (if mcn_poll w.bus.control_output n then
        [Event.mcn_copy Topic.control_output Node.plant_control_out_nod
          (mcn_copy w.bus.control_output n w.plant.Plant_U.Control_Out).1]
      else []) ++
     [Event.Plant_step w1.plant.Plant_U] ++
     [Event.check_timetag Gate.plant_output w.plant.timetag_plant_output.period
        (check_timetag w.systime w.plant.timetag_plant_output).1] ++
     (if (check_timetag w.systime w.plant.timetag_plant_output).1 then
        [Event.mlog_push_msg (Payload.plant_states w1.plant.Plant_Y.Plant_States)
          MsgId.MLOG_PLANT_STATE_ID G.sizeof_Plant_States_Bus]
      else []) ++
     sensor_events G timestamp w.bus w.plant w1.plant.Plant_Y)

/-! ## Sequences of bus operations on one subscription -/

/-- Byte strings of length `S`: the payloads of a topic of size `S`. -/
abbrev ByteString (S : Nat) := { B : List UInt8 // B.length = S }

/-- One operation on a topic or on one of its nodes. -/
inductive BusOp (α : Type) where
  | publish (data : α)
  | poll
  | copy

/-- The operation is a publish. -/
def BusOp.isPublish {α : Type} : BusOp α → Bool
  | BusOp.publish _ => true
  | _ => false

/-- The operation is a copy. -/
def BusOp.isCopy {α : Type} : BusOp α → Bool
  | BusOp.copy => true
  | _ => false

/-- A topic, one node subscribed to it, and the buffer its owner copies
into. -/
structure Subscription (α : Type) where
  hub : McnHub α
  node : McnNode
  buffer : α

/-- Apply one operation. -/
def Subscription.step {α : Type} (s : Subscription α) : BusOp α → Subscription α
  | BusOp.publish data => { s with hub := mcn_publish s.hub data }
  | BusOp.poll => s
  | BusOp.copy =>
    { s with node := (mcn_copy s.hub s.node s.buffer).2.1,
             buffer := (mcn_copy s.hub s.node s.buffer).2.2 }

/-- Apply a sequence of operations. -/
def Subscription.run {α : Type} (s : Subscription α) (ops : List (BusOp α)) : Subscription α :=
  ops.foldl Subscription.step s

/-- The answers of the polls in a sequence of operations, in order. -/
def Subscription.answers {α : Type} : Subscription α → List (BusOp α) → List Bool
  | _, [] => []
  | s, BusOp.poll :: ops => mcn_poll s.hub s.node :: Subscription.answers s ops
  | s, op :: ops => Subscription.answers (s.step op) ops

/-! ## A gate or a driver called once per tick -/

/-- Call `check_timetag` once per tick for `n` ticks, the clock starting at
`now` and advancing by one unit per tick: the number of calls that return
true. -/
def gate_fires : Nat → TimeTag → Nat → Nat
  | 0, _, _ => 0
  | n + 1, gate, now =>
    (if (check_timetag now gate).1 then 1 else 0) +
      gate_fires n (check_timetag now gate).2 (now + 1)

/-- The clock advances by one unit. -/
def World.tick {T : BusTypes} (w : World T) : World T :=
  { w with systime := w.systime + 1 }

/-- Call `control_interface_step` once per tick for `n` ticks, the clock
advancing by one unit per tick: the clock values of the calls that pushed the
controller output to the logger, in order. -/
def control_push_times {T : BusTypes} (G : Generated T) :
    Nat → World T → Option (List Nat)
  | 0, _ => some []
  | n + 1, w => do
    let w1 ← control_interface_step G w.systime w
    let rest ← control_push_times G n w1.tick
    pure (if (call_events w w1).any (Event.isPushOf MsgId.MLOG_CONTROL_OUT_ID)
      then w.systime :: rest else rest)

/-! ## Concrete states -/

/-- A concrete choice of record types: every record is a number. -/
abbrev T0 : BusTypes :=
  { FMS_Out_Bus := Nat, INS_Out_Bus := Nat, Control_Out_Bus := Nat,
    Pilot_Cmd_Fields := Nat, GCS_Cmd_Fields := Nat, Plant_States_Bus := Nat,
    real32_T := Int, DW_Controller_T := Nat, DW_FMS_T := Nat, DW_Plant_T := Nat }

/-- A concrete plant output record. -/
def Y0 : ExtY_Plant_T T0 :=
  { Plant_States := (0 : Nat),
    IMU := { timestamp := 0, gyr_x := (0 : Int), gyr_y := (0 : Int), gyr_z := (0 : Int),
             acc_x := (0 : Int), acc_y := (0 : Int), acc_z := (0 : Int) },
    MAG := { timestamp := 0, mag_x := (0 : Int), mag_y := (0 : Int), mag_z := (0 : Int) },
    Barometer := { timestamp := 0, temperature := (0 : Int), pressure := (0 : Int) },
    GPS := { timestamp := 0, fixType := 0, numSV := 0, lon := 0, lat := 0, height := 0,
             hAcc := 0, vAcc := 0, velN := 0, velE := 0, velD := 0, sAcc := 0 } }

/-- Concrete models: the controller adds its two inputs and counts its calls
in its block state; the FMS outputs the control output it reads; the plant
stores the control output in its states. -/
def G0 : Generated T0 :=
  { FMT_ONLINE_PARAM_TUNING := false,
    CONTROL_EXPORT := { period := 2, model_info := "Controller" },
    FMS_EXPORT := { period := 4, model_info := "FMS" },
    PLANT_EXPORT := { period := 2, model_info := "Plant" },
    Controller_init := ({ FMS_Out := (0 : Nat), INS_Out := (0 : Nat) },
      { Control_Out := (0 : Nat) }, (0 : Nat)),
    Controller_step := fun _ u _ dw =>
      ({ Control_Out := ((u.FMS_Out : Nat) + (u.INS_Out : Nat) + 7 : Nat) }, ((dw : Nat) + 1 : Nat)),
    FMS_init := ({ Pilot_Cmd := { timestamp := 0, fields := (0 : Nat) },
                   GCS_Cmd := { timestamp := 0, fields := (0 : Nat) },
                   INS_Out := (0 : Nat), Control_Out := (0 : Nat) },
      { FMS_Out := (0 : Nat) }, (0 : Nat)),
    FMS_step := fun _ u _ dw => ({ FMS_Out := u.Control_Out }, dw),
    Plant_init := ({ Control_Out := (0 : Nat) }, Y0, (0 : Nat)),
    Plant_step := fun u y dw => ({ y with Plant_States := u.Control_Out }, dw),
    scale_1e_3 := fun x => x,
    sizeof_Control_Out_Bus := 36,
    sizeof_FMS_Out_Bus := 64,
    sizeof_Pilot_Cmd_Bus := 28,
    sizeof_GCS_Cmd_Bus := 12,
    sizeof_Plant_States_Bus := 96 }

/-- A hub nobody has advertised yet. -/
def hub_fresh (α : Type) : McnHub α := MCN_DEFINE α

/-- An advertised hub nothing has been published to. -/
def hub_ready (α : Type) : McnHub α := mcn_advertise (MCN_DEFINE α) none

/-- The state before any driver is initialised: no topic advertised, the
file-static variables at their initialisers. -/
def W_boot : World T0 :=
  { systime := 0,
    param_store := fun _ _ => (0 : Int),
    mlog_start_cbs := [],
    bus := { pilot_cmd := hub_fresh _, gcs_cmd := hub_fresh _, ins_output := hub_fresh _,
             fms_output := hub_fresh _, control_output := hub_fresh _,
             sensor_imu0 := hub_fresh _, sensor_mag0 := hub_fresh _,
             sensor_baro := hub_fresh _, sensor_gps := hub_fresh _ },
    controller :=
      { fms_out_nod := none, ins_out_nod := none,
        control_model_info := { period := 0, info := "" },
        Controller_U := { FMS_Out := (0 : Nat), INS_Out := (0 : Nat) },
        Controller_Y := { Control_Out := (0 : Nat) },
        Controller_DW := (0 : Nat),
        CONTROL_PARAM := fun _ => (0 : Int),
        timetag_control_output := { tag := 0, period := 100 } },
    fms :=
      { pilot_cmd_nod := none, gcs_cmd_nod := none, ins_out_nod := none,
        control_out_nod := none, pilot_cmd_updated := 1, gcs_cmd_updated := 1,
        fms_model_info := { period := 0, info := "" },
        FMS_U := { Pilot_Cmd := { timestamp := 0, fields := (0 : Nat) },
                   GCS_Cmd := { timestamp := 0, fields := (0 : Nat) },
                   INS_Out := (0 : Nat), Control_Out := (0 : Nat) },
        FMS_Y := { FMS_Out := (0 : Nat) },
        FMS_DW := (0 : Nat),
        FMS_PARAM := fun _ => (0 : Int),
        timetag_fms_output := { tag := 0, period := 100 } },
    plant :=
      { control_out_nod := none, imu_timestamp := 0xFFFF, mag_timestamp := 0xFFFF,
        baro_timestamp := 0xFFFF, gps_timestamp := 0xFFFF,
        plant_model_info := { period := 0, info := "" },
        Plant_U := { Control_Out := (0 : Nat) },
        Plant_Y := Y0,
        Plant_DW := (0 : Nat),
        timetag_plant_output := { tag := 0, period := 100 } },
    trace := [] }

/-- A running state: every topic advertised, every node subscribed, nothing
published yet, the clock at 5. -/
def W_run : World T0 :=
  { W_boot with
    systime := 5,
    bus := { pilot_cmd := hub_ready _, gcs_cmd := hub_ready _, ins_output := hub_ready _,
             fms_output := hub_ready _,
             control_output := mcn_advertise (MCN_DEFINE _) (some EchoCb.control_out_echo),
             sensor_imu0 := hub_ready _, sensor_mag0 := hub_ready _,
             sensor_baro := hub_ready _, sensor_gps := hub_ready _ },
    controller := { W_boot.controller with
      fms_out_nod := some { last_read := 0 }, ins_out_nod := some { last_read := 0 } },
    fms := { W_boot.fms with
      pilot_cmd_nod := some { last_read := 0 }, gcs_cmd_nod := some { last_read := 0 },
      ins_out_nod := some { last_read := 0 }, control_out_nod := some { last_read := 0 } },
    plant := { W_boot.plant with control_out_nod := some { last_read := 0 } } }

/-- The running state after the FMS output 42 and a pilot command have been
published: the controller's `fms_out_nod` and the FMS's `pilot_cmd_nod` are
dirty, every other node is clean. -/
def W_fed : World T0 :=
  { W_run with
    bus := { W_run.bus with
      fms_output := mcn_publish W_run.bus.fms_output (42 : Nat),
      pilot_cmd := mcn_publish W_run.bus.pilot_cmd { timestamp := 9, fields := (3 : Nat) } } }

/-! ## board/led.c

The LED module shares no variable with the three drivers; it has its own
state and its own record of calls.  The handles `pin_dev` and `rgb_led_dev`
are set by `led_control_init` and not changed by the functions below; a call
through a handle acts on the hardware state `hw` and is recorded whatever the
handle is.  The macro `LED_TOGGLE` used by `run_led` is not among the sources,
so `run_led` only appears as the name of a callback. -/

/-- The result type `fmt_err_t`, as used in `led.c`. -/
inductive fmt_err_t where
  | FMT_EOK
  | FMT_ERROR
  deriving DecidableEq, Repr

/-- The record `struct device_pin_status`. -/
structure device_pin_status where
  pin : Nat
  status : Nat
  deriving DecidableEq, Repr

/-- The record `struct device_pin_mode`. -/
structure device_pin_mode where
  pin : Nat
  mode : Nat
  otype : Nat
  deriving DecidableEq, Repr

/-- The constants and devices `led.c` takes from headers and drivers that are
not among the sources: `sizeof_ptr` is `sizeof(&pin_sta)`; `pin_read hw pin
size` is the pin device's `read` on a buffer naming `pin` (it returns the byte
count, the status it stores in the buffer and the next hardware state);
`pin_write`, `pin_control` and `rt_device_control` (on the RGB LED device) are
the other device entry points. -/
structure LedEnv where
  Hw : Type
  sizeof_ptr : Nat
  RT_EOK : Int
  NCP5623_CMD_SET_COLOR : Nat
  NCP5623_CMD_SET_BRIGHT : Nat
  NCP5623_LED_BLUE : Nat
  NCP5623_LED_GREEN : Nat
  NCP5623_LED_RED : Nat
  VehicleStatus_Disarm : Nat
  VehicleStatus_Standby : Nat
  VehicleStatus_Arm : Nat
  VehicleState_None : Nat
  pin_read : Hw → Nat → Nat → Nat × Nat × Hw
  pin_write : Hw → device_pin_status → Nat → Nat × Hw
  pin_control : Hw → device_pin_mode → Int × Hw
  rt_device_control : Hw → Nat → Nat → Int × Hw

/-- One call from `led.c` to a device or to the gate, with its arguments and
its result. -/
inductive LedCall where
  | pin_read (pin : Nat) (size : Nat) (ret : Nat) (status : Nat)
  | pin_write (pin_sta : device_pin_status) (size : Nat) (ret : Nat)
  | pin_control (pin_mode : device_pin_mode) (ret : Int)
  | rt_device_control (cmd : Nat) (arg : Nat) (ret : Int)
  | check_timetag (period : Nat) (fired : Bool)
  deriving DecidableEq, Repr

/-- The state `led.c` works on: the system clock, the hardware, the static
locals of `run_rgb_led` (`timetag_rgb_led` is the gate of
`DEFINE_TIMETAG(rgb_led, 0)`), and the calls made so far.  The `int`s are
integers; no claim depends on their overflow. -/
structure LedState (E : LedEnv) where
  systime : Nat
  hw : E.Hw
  bright : Int
  inc : Int
  max_bright : Int
  min_bright : Int
  timetag_rgb_led : TimeTag
  trace : List LedCall

/-- Record one call. -/
def LedState.emit {E : LedEnv} (s : LedState E) (c : LedCall) : LedState E :=
  { s with trace := s.trace ++ [c] }

/-- The calls made between state `s` and a later state `s1`. -/
def led_calls {E : LedEnv} (s s1 : LedState E) : List LedCall :=
  s1.trace.drop s.trace.length

/-- Conversion of an `int` to `uint32_t`. -/
def to_uint32 (x : Int) : Nat := (x % 4294967296).toNat

/-- The function `led_set(pin_sta)`. -/
def led_set {E : LedEnv} (pin_sta : device_pin_status) (s : LedState E) :
    fmt_err_t × LedState E :=
  let r := E.pin_write s.hw pin_sta E.sizeof_ptr
  let s := LedState.emit { s with hw := r.2 } (LedCall.pin_write pin_sta E.sizeof_ptr r.1)
  if r.1 ≠ E.sizeof_ptr then (fmt_err_t.FMT_ERROR, s)
  else (fmt_err_t.FMT_EOK, s)

/-- The function `led_toggle(pin)`. -/
def led_toggle {E : LedEnv} (pin : Nat) (s : LedState E) : fmt_err_t × LedState E :=
  -- struct device_pin_status pin_sta = { .pin = pin };
  let pin_sta : device_pin_status := { pin := pin, status := 0 }
  -- if (pin_dev->read(pin_dev, 0, &pin_sta, sizeof(&pin_sta)) != sizeof(&pin_sta)) return FMT_ERROR;
  let r := E.pin_read s.hw pin_sta.pin E.sizeof_ptr
  let s := LedState.emit { s with hw := r.2.2 }
    (LedCall.pin_read pin_sta.pin E.sizeof_ptr r.1 r.2.1)
  let pin_sta : device_pin_status := { pin_sta with status := r.2.1 }
  if r.1 ≠ E.sizeof_ptr then (fmt_err_t.FMT_ERROR, s)
  else
    -- pin_sta.status = !pin_sta.status;
    let pin_sta : device_pin_status :=
      { pin_sta with status := if pin_sta.status = 0 then 1 else 0 }
    -- if (pin_dev->write(pin_dev, 0, &pin_sta, sizeof(&pin_sta)) != sizeof(&pin_sta)) return FMT_ERROR;
    let w := E.pin_write s.hw pin_sta E.sizeof_ptr
    let s := LedState.emit { s with hw := w.2 } (LedCall.pin_write pin_sta E.sizeof_ptr w.1)
    if w.1 ≠ E.sizeof_ptr then (fmt_err_t.FMT_ERROR, s)
    else (fmt_err_t.FMT_EOK, s)

/-- The function `led_init(pin_mode)`. -/
def led_init {E : LedEnv} (pin_mode : device_pin_mode) (s : LedState E) :
    fmt_err_t × LedState E :=
  let r := E.pin_control s.hw pin_mode
  let s := LedState.emit { s with hw := r.2 } (LedCall.pin_control pin_mode r.1)
  if r.1 ≠ E.RT_EOK then (fmt_err_t.FMT_ERROR, s)
  else (fmt_err_t.FMT_EOK, s)

/-- The function `rgb_led_set_color(color)`. -/
def rgb_led_set_color {E : LedEnv} (color : Nat) (s : LedState E) :
    fmt_err_t × LedState E :=
  let r := E.rt_device_control s.hw E.NCP5623_CMD_SET_COLOR color
  let s := LedState.emit { s with hw := r.2 }
    (LedCall.rt_device_control E.NCP5623_CMD_SET_COLOR color r.1)
  if r.1 ≠ E.RT_EOK then (fmt_err_t.FMT_ERROR, s)
  else (fmt_err_t.FMT_EOK, s)

/-- The function `rgb_led_set_bright(bright)`. -/
def rgb_led_set_bright {E : LedEnv} (bright : Nat) (s : LedState E) :
    fmt_err_t × LedState E :=
  let r := E.rt_device_control s.hw E.NCP5623_CMD_SET_BRIGHT bright
  let s := LedState.emit { s with hw := r.2 }
    (LedCall.rt_device_control E.NCP5623_CMD_SET_BRIGHT bright r.1)
  if r.1 ≠ E.RT_EOK then (fmt_err_t.FMT_ERROR, s)
  else (fmt_err_t.FMT_EOK, s)

/-- The function `run_rgb_led`. -/
def run_rgb_led {E : LedEnv} (s : LedState E) : LedState E :=
  -- if (bright <= min_bright) period = 150; else if (bright >= max_bright) period = 250; else period = 50;
  let s := { s with timetag_rgb_led := { s.timetag_rgb_led with
    period :=
      if s.bright ≤ s.min_bright then 150
      else if s.bright ≥ s.max_bright then 250
      else 50 } }
  -- if (check_timetag(TIMETAG(rgb_led))) { ... }
  let c := check_timetag s.systime s.timetag_rgb_led
  let s := LedState.emit { s with timetag_rgb_led := c.2 }
    (LedCall.check_timetag s.timetag_rgb_led.period c.1)
  if c.1 then
    -- if (bright <= min_bright) inc = 1;
    let s := if s.bright ≤ s.min_bright then { s with inc := 1 } else s
    -- if (bright >= max_bright) inc = -1;
    let s := if s.bright ≥ s.max_bright then { s with inc := -1 } else s
    -- bright += inc;
    let s := { s with bright := s.bright + s.inc }
    -- rgb_led_set_bright(bright);
    (rgb_led_set_bright (to_uint32 s.bright) s).2
  else s

/-- The function `vehicle_status_change_cb(status)`. -/
def vehicle_status_change_cb {E : LedEnv} (status : Nat) (s : LedState E) : LedState E :=
  if status = E.VehicleStatus_Disarm then (rgb_led_set_color E.NCP5623_LED_BLUE s).2
  else if status = E.VehicleStatus_Standby then (rgb_led_set_color E.NCP5623_LED_GREEN s).2
  else if status = E.VehicleStatus_Arm then (rgb_led_set_color E.NCP5623_LED_GREEN s).2
  else (rgb_led_set_color E.NCP5623_LED_RED s).2

/-- The function `vehicle_state_change_cb(mode)`. -/
def vehicle_state_change_cb {E : LedEnv} (mode : Nat) (s : LedState E) : LedState E :=
  if mode = E.VehicleState_None then (rgb_led_set_color E.NCP5623_LED_RED s).2
  else s

/-- Call `run_rgb_led` once for each clock value of the list, in order. -/
def rgb_led_runs {E : LedEnv} : List Nat → LedState E → LedState E
  | [], s => s
  | now :: rest, s => rgb_led_runs rest (run_rgb_led { s with systime := now })

/-- The static initialisers of `run_rgb_led`: `bright = 0`, `inc = 0`,
`max_bright = 16`, `min_bright = 0`, and a gate of period 0. -/
def LedState.initial {E : LedEnv} (s : LedState E) : Prop :=
  s.bright = 0 ∧ s.inc = 0 ∧ s.max_bright = 16 ∧ s.min_bright = 0 ∧
    s.timetag_rgb_led.period = 0

/-! ## Work items and the scheduler -/

/-- The `run` callbacks of the work items of `led.c`. -/
inductive RunCb where
  | run_led
  | run_rgb_led
  deriving DecidableEq, Repr

/-- The record `struct WorkItem`, as initialised in `led.c`. -/
structure WorkItem where
  name : String
  period : Nat
  schedule_time : Nat
  run : RunCb
  deriving DecidableEq, Repr

/-- The work item `led_item`. -/
def led_item : WorkItem :=
  { name := "led", period := 1000, schedule_time := 0, run := RunCb.run_led }

/-- The work item `rgb_led_item`. -/
def rgb_led_item : WorkItem :=
  { name := "rgb_led", period := 10, schedule_time := 0, run := RunCb.run_rgb_led }

/-- Modelled from the spec: `schedule_work(queue, item)` inserts the item into
the queue with `next_due = now` (`schedule_time` is the next-due time). -/
def workqueue_schedule_work (now : Nat) (queue : List WorkItem) (item : WorkItem) :
    List WorkItem :=
  queue ++ [{ item with schedule_time := now }]

/-- Modelled from the spec: one pass of the dispatch loop over a queue: for
every item with `next_due ≤ now`, invoke its run callback, then set
`next_due = next_due + period`.  `cost item t` is the time the callback of
`item` takes when invoked at time `t`; the clock has advanced by it when the
callback returns.  The result is the queue, the clock, and the dispatches made
(item name and time of dispatch). -/
def dispatch_items (cost : WorkItem → Nat → Nat) :
    List WorkItem → Nat → List WorkItem × Nat × List (String × Nat)
  | [], now => ([], now, [])
  | item :: rest, now =>
    if item.schedule_time ≤ now then
      ({ item with schedule_time := item.schedule_time + item.period } ::
          (dispatch_items cost rest (now + cost item now)).1,
        (dispatch_items cost rest (now + cost item now)).2.1,
        (item.name, now) :: (dispatch_items cost rest (now + cost item now)).2.2)
    else
      (item :: (dispatch_items cost rest now).1,
        (dispatch_items cost rest now).2.1,
        (dispatch_items cost rest now).2.2)

/-- A work queue under a simulated clock: the clock, the queue, and the
dispatches made so far. -/
structure Scheduler where
  now : Nat
  queue : List WorkItem
  dispatched : List (String × Nat)
  deriving DecidableEq, Repr

/-- Modelled from the spec: one scheduler tick: the dispatch loop runs once,
then the clock advances by `step` to the next tick. -/
def Scheduler.tick (step : Nat) (cost : WorkItem → Nat → Nat) (s : Scheduler) : Scheduler :=
  { now := (dispatch_items cost s.queue s.now).2.1 + step,
    queue := (dispatch_items cost s.queue s.now).1,
    dispatched := s.dispatched ++ (dispatch_items cost s.queue s.now).2.2 }

/-- Run `n` scheduler ticks. -/
def Scheduler.run (step : Nat) (cost : WorkItem → Nat → Nat) : Nat → Scheduler → Scheduler
  | 0, s => s
  | n + 1, s => Scheduler.run step cost n (s.tick step cost)

/-- The scheduler at time 0 with one item just scheduled. -/
def Scheduler.start (item : WorkItem) : Scheduler :=
  { now := 0, queue := workqueue_schedule_work 0 [] item, dispatched := [] }

/-- Every callback returns at once. -/
def no_cost : WorkItem → Nat → Nat := fun _ _ => 0

/-- The callback invoked at time 100 takes 250 time units; every other
invocation returns at once. -/
def overrun_at_100 : WorkItem → Nat → Nat := fun _ t => if t = 100 then 250 else 0

/-! ## Hubs as advertise and publish leave them -/

/-- A hub to which nothing has been published has version 0.  It holds of
the hub reserved by `MCN_DEFINE` and is kept by `mcn_advertise` and
`mcn_publish`, the only operations that change a hub. -/
def McnHub.wf {α : Type} (hub : McnHub α) : Prop :=
  hub.payload = none → hub.version = 0

/-! ## Concrete LED states -/

/-- A concrete board: the hardware state is the level of the one pin; reads
and writes report the expected byte count, controls report `RT_EOK`. -/
abbrev E0 : LedEnv :=
  { Hw := Nat,
    sizeof_ptr := 4,
    RT_EOK := 0,
    NCP5623_CMD_SET_COLOR := 1,
    NCP5623_CMD_SET_BRIGHT := 2,
    NCP5623_LED_BLUE := 1,
    NCP5623_LED_GREEN := 2,
    NCP5623_LED_RED := 4,
    VehicleStatus_Disarm := 1,
    VehicleStatus_Standby := 2,
    VehicleStatus_Arm := 3,
    VehicleState_None := 0,
    pin_read := fun hw _ size => (size, hw, hw),
    pin_write := fun _ pin_sta size => (size, pin_sta.status),
    pin_control := fun hw _ => (0, hw),
    rt_device_control := fun hw _ _ => (0, hw) }

/-- The LED state at its static initialisers, the pin low, the clock at 0. -/
def L0 : LedState E0 :=
  { systime := 0, hw := (0 : Nat), bright := 0, inc := 0, max_bright := 16, min_bright := 0,
    timetag_rgb_led := { tag := 0, period := 0 }, trace := [] }

/-- A call to `mcn_copy` that returned `Stale`. -/
def Event.isStaleCopy {T : BusTypes} : Event T → Bool
  | Event.mcn_copy _ _ Status.Stale => true
  | _ => false

/-- A call to `mcn_publish` on the given topic. -/
def Event.isPublishTo {T : BusTypes} (t : Topic) : Event T → Bool
  | Event.mcn_publish hub _ => decide (hub = t)
  | _ => false

/-- The boot state with a first IMU sample whose timestamp is 65535. -/
def W_imu_65535 : World T0 :=
  { W_boot with
    plant := { W_boot.plant with
      Plant_Y := { Y0 with IMU := { Y0.IMU with timestamp := 65535 } } } }

/-- The invariant of the breathing light: the bounds are 16 and 0, `bright`
lies between them, and once `bright` has left 0 the direction `inc` is 1 or
-1. -/
def LedState.breathing {E : LedEnv} (s : LedState E) : Prop :=
  s.max_bright = 16 ∧ s.min_bright = 0 ∧ 0 ≤ s.bright ∧ s.bright ≤ 16 ∧
    (0 < s.bright → s.inc = 1 ∨ s.inc = -1)


instance {E : LedEnv} (s : LedState E) : Decidable s.initial := by
  unfold LedState.initial
  infer_instance

instance {E : LedEnv} (s : LedState E) : Decidable s.breathing := by
  unfold LedState.breathing
  infer_instance

/-! ## Shape of the driver phases -/

theorem call_events_append {T : BusTypes} (w w1 : World T) (evs : List (Event T))
    (h : w1.trace = w.trace ++ evs) : call_events w w1 = evs := by
  simp [call_events, h]

theorem bind_of_eq_some {α β : Type} {x : Option α} {a : α} {f : α → Option β}
    (h : x = some a) : x.bind f = f a := by
  subst h
  rfl

theorem run_echo_eq {T : BusTypes} (echo : Option EchoCb) (w : World T) :
    run_echo echo w = { w with trace := w.trace ++ echo_events echo w.bus.control_output } := by
  unfold echo_events run_echo
  rcases echo with _ | ⟨_⟩
  · simp
  · simp only [control_out_echo]
    cases mcn_copy_from_hub w.bus.control_output <;> simp [World.emit]

theorem control_read_inputs_eq {T : BusTypes} (w : World T) (n1 n2 : McnNode)
    (h1 : w.controller.fms_out_nod = some n1) (h2 : w.controller.ins_out_nod = some n2) :
    control_read_inputs w = some
      { w with
        controller := { w.controller with
          fms_out_nod := some (if mcn_poll w.bus.fms_output n1 then
            (mcn_copy w.bus.fms_output n1 w.controller.Controller_U.FMS_Out).2.1 else n1),
          ins_out_nod := some (if mcn_poll w.bus.ins_output n2 then
            (mcn_copy w.bus.ins_output n2 w.controller.Controller_U.INS_Out).2.1 else n2),
          Controller_U :=
            { FMS_Out := if mcn_poll w.bus.fms_output n1 then
                (mcn_copy w.bus.fms_output n1 w.controller.Controller_U.FMS_Out).2.2
                else w.controller.Controller_U.FMS_Out,
              INS_Out := if mcn_poll w.bus.ins_output n2 then
                (mcn_copy w.bus.ins_output n2 w.controller.Controller_U.INS_Out).2.2
                else w.controller.Controller_U.INS_Out } },
        trace := w.trace ++
          ([Event.mcn_poll Node.controller_fms_out_nod (mcn_poll w.bus.fms_output n1)] ++
           (if mcn_poll w.bus.fms_output n1 then
              [Event.mcn_copy Topic.fms_output Node.controller_fms_out_nod
                (mcn_copy w.bus.fms_output n1 w.controller.Controller_U.FMS_Out).1]
            else []) ++
           [Event.mcn_poll Node.controller_ins_out_nod (mcn_poll w.bus.ins_output n2)] ++
           (if mcn_poll w.bus.ins_output n2 then
              [Event.mcn_copy Topic.ins_output Node.controller_ins_out_nod
                (mcn_copy w.bus.ins_output n2 w.controller.Controller_U.INS_Out).1]
            else [])) } := by
  obtain ⟨st, ps, cbs, bus, ⟨fn, inn, mi, ⟨uf, ui⟩, y, dw, cp, tt⟩, fms, plant, tr⟩ := w
  simp only at h1 h2
  subst h1 h2
  unfold control_read_inputs
  by_cases d1 : mcn_poll bus.fms_output n1 <;>
  by_cases d2 : mcn_poll bus.ins_output n2 <;>
  simp [d1, d2, World.emit]

theorem control_run_model_eq {T : BusTypes} (G : Generated T) (w : World T) :
    control_run_model G w =
      { w with
        controller := { w.controller with
          Controller_Y := (G.Controller_step w.controller.CONTROL_PARAM w.controller.Controller_U
            w.controller.Controller_Y w.controller.Controller_DW).1,
          Controller_DW := (G.Controller_step w.controller.CONTROL_PARAM w.controller.Controller_U
            w.controller.Controller_Y w.controller.Controller_DW).2 },
        bus := { w.bus with
          control_output := mcn_publish w.bus.control_output
            (G.Controller_step w.controller.CONTROL_PARAM w.controller.Controller_U
              w.controller.Controller_Y w.controller.Controller_DW).1.Control_Out },
        trace := w.trace ++
          ([Event.Controller_step w.controller.Controller_U,
            Event.mcn_publish Topic.control_output (Payload.control_out
              (G.Controller_step w.controller.CONTROL_PARAM w.controller.Controller_U
                w.controller.Controller_Y w.controller.Controller_DW).1.Control_Out)] ++
           echo_events w.bus.control_output.echo (mcn_publish w.bus.control_output
            (G.Controller_step w.controller.CONTROL_PARAM w.controller.Controller_U
              w.controller.Controller_Y w.controller.Controller_DW).1.Control_Out)) } := by
  unfold control_run_model
  simp [World.emit, run_echo_eq, mcn_publish]

theorem control_log_output_eq {T : BusTypes} (G : Generated T) (w : World T) :
    control_log_output G w =
      { w with
        controller := { w.controller with
          timetag_control_output :=
            (check_timetag w.systime w.controller.timetag_control_output).2 },
        trace := w.trace ++
          ([Event.check_timetag Gate.control_output w.controller.timetag_control_output.period
              (check_timetag w.systime w.controller.timetag_control_output).1] ++
           (if (check_timetag w.systime w.controller.timetag_control_output).1 then
              [Event.mlog_push_msg (Payload.control_out w.controller.Controller_Y.Control_Out)
                MsgId.MLOG_CONTROL_OUT_ID G.sizeof_Control_Out_Bus]
            else [])) } := by
  unfold control_log_output
  by_cases c : (check_timetag w.systime w.controller.timetag_control_output).1 <;>
  simp [c, World.emit]

theorem control_step_effect {T : BusTypes} (G : Generated T) (ts : Nat) (w : World T)
    (n1 n2 : McnNode)
    (h1 : w.controller.fms_out_nod = some n1) (h2 : w.controller.ins_out_nod = some n2) :
    ∃ w1, control_interface_step G ts w = some w1 ∧ ControlStepEffect G w n1 n2 w1 := by
  unfold control_interface_step
  by_cases hp : G.FMT_ONLINE_PARAM_TUNING
  · simp only [hp, if_true, Option.bind_eq_bind, Option.pure_def]
    rw [control_read_inputs_eq (control_update_parameter w) n1 n2 h1 h2]
    simp only [Option.some_bind, control_run_model_eq, control_log_output_eq]
    refine ⟨_, rfl, ?_⟩
    constructor <;> simp [hp, control_update_parameter]
  · simp only [hp, Bool.false_eq_true, if_false, Option.bind_eq_bind, Option.pure_def]
    rw [control_read_inputs_eq w n1 n2 h1 h2]
    simp only [Option.some_bind, control_run_model_eq, control_log_output_eq]
    refine ⟨_, rfl, ?_⟩
    constructor <;> simp [hp]

theorem fms_read_pilot_cmd_eq {T : BusTypes} (ts : Nat) (w : World T) (n1 : McnNode)
    (h1 : w.fms.pilot_cmd_nod = some n1) :
    fms_read_pilot_cmd ts w = some
      { w with
        fms := { w.fms with
          pilot_cmd_nod := some (if mcn_poll w.bus.pilot_cmd n1 then
            (mcn_copy w.bus.pilot_cmd n1 w.fms.FMS_U.Pilot_Cmd).2.1 else n1),
          pilot_cmd_updated := if mcn_poll w.bus.pilot_cmd n1 then 1
            else w.fms.pilot_cmd_updated,
          FMS_U := { w.fms.FMS_U with
            Pilot_Cmd := if mcn_poll w.bus.pilot_cmd n1 then
              { (mcn_copy w.bus.pilot_cmd n1 w.fms.FMS_U.Pilot_Cmd).2.2 with timestamp := ts }
              else w.fms.FMS_U.Pilot_Cmd } },
        trace := w.trace ++
          ([Event.mcn_poll Node.fms_pilot_cmd_nod (mcn_poll w.bus.pilot_cmd n1)] ++
           (if mcn_poll w.bus.pilot_cmd n1 then
              [Event.mcn_copy Topic.pilot_cmd Node.fms_pilot_cmd_nod
                (mcn_copy w.bus.pilot_cmd n1 w.fms.FMS_U.Pilot_Cmd).1]
            else [])) } := by
  obtain ⟨st, ps, cbs, bus, ctl, ⟨p1, p2, p3, p4, f1, f2, mi, ⟨u1, u2, u3, u4⟩, y, dw, fp, tt⟩,
    plant, tr⟩ := w
  simp only at h1
  subst h1
  unfold fms_read_pilot_cmd
  by_cases d1 : mcn_poll bus.pilot_cmd n1 <;> simp [d1, World.emit]

theorem fms_read_gcs_cmd_eq {T : BusTypes} (ts : Nat) (w : World T) (n2 : McnNode)
    (h2 : w.fms.gcs_cmd_nod = some n2) :
    fms_read_gcs_cmd ts w = some
      { w with
        fms := { w.fms with
          gcs_cmd_nod := some (if mcn_poll w.bus.gcs_cmd n2 then
            (mcn_copy w.bus.gcs_cmd n2 w.fms.FMS_U.GCS_Cmd).2.1 else n2),
          gcs_cmd_updated := if mcn_poll w.bus.gcs_cmd n2 then 1 else w.fms.gcs_cmd_updated,
          FMS_U := { w.fms.FMS_U with
            GCS_Cmd := if mcn_poll w.bus.gcs_cmd n2 then
              { (mcn_copy w.bus.gcs_cmd n2 w.fms.FMS_U.GCS_Cmd).2.2 with timestamp := ts }
              else w.fms.FMS_U.GCS_Cmd } },
        trace := w.trace ++
          ([Event.mcn_poll Node.fms_gcs_cmd_nod (mcn_poll w.bus.gcs_cmd n2)] ++
           (if mcn_poll w.bus.gcs_cmd n2 then
              [Event.mcn_copy Topic.gcs_cmd Node.fms_gcs_cmd_nod
                (mcn_copy w.bus.gcs_cmd n2 w.fms.FMS_U.GCS_Cmd).1]
            else [])) } := by
  obtain ⟨st, ps, cbs, bus, ctl, ⟨p1, p2, p3, p4, f1, f2, mi, ⟨u1, u2, u3, u4⟩, y, dw, fp, tt⟩,
    plant, tr⟩ := w
  simp only at h2
  subst h2
  unfold fms_read_gcs_cmd
  by_cases d2 : mcn_poll bus.gcs_cmd n2 <;> simp [d2, World.emit]

theorem fms_read_ins_out_eq {T : BusTypes} (w : World T) (n3 : McnNode)
    (h3 : w.fms.ins_out_nod = some n3) :
    fms_read_ins_out w = some
      { w with
        fms := { w.fms with
          ins_out_nod := some (if mcn_poll w.bus.ins_output n3 then
            (mcn_copy w.bus.ins_output n3 w.fms.FMS_U.INS_Out).2.1 else n3),
          FMS_U := { w.fms.FMS_U with
            INS_Out := if mcn_poll w.bus.ins_output n3 then
              (mcn_copy w.bus.ins_output n3 w.fms.FMS_U.INS_Out).2.2
              else w.fms.FMS_U.INS_Out } },
        trace := w.trace ++
          ([Event.mcn_poll Node.fms_ins_out_nod (mcn_poll w.bus.ins_output n3)] ++
           (if mcn_poll w.bus.ins_output n3 then
              [Event.mcn_copy Topic.ins_output Node.fms_ins_out_nod
                (mcn_copy w.bus.ins_output n3 w.fms.FMS_U.INS_Out).1]
            else [])) } := by
  obtain ⟨st, ps, cbs, bus, ctl, ⟨p1, p2, p3, p4, f1, f2, mi, ⟨u1, u2, u3, u4⟩, y, dw, fp, tt⟩,
    plant, tr⟩ := w
  simp only at h3
  subst h3
  unfold fms_read_ins_out
  by_cases d3 : mcn_poll bus.ins_output n3 <;> simp [d3, World.emit]

theorem fms_read_control_out_eq {T : BusTypes} (w : World T) (n4 : McnNode)
    (h4 : w.fms.control_out_nod = some n4) :
    fms_read_control_out w = some
      { w with
        fms := { w.fms with
          control_out_nod := some (if mcn_poll w.bus.control_output n4 then
            (mcn_copy w.bus.control_output n4 w.fms.FMS_U.Control_Out).2.1 else n4),
          FMS_U := { w.fms.FMS_U with
            Control_Out := if mcn_poll w.bus.control_output n4 then
              (mcn_copy w.bus.control_output n4 w.fms.FMS_U.Control_Out).2.2
              else w.fms.FMS_U.Control_Out } },
        trace := w.trace ++
          ([Event.mcn_poll Node.fms_control_out_nod (mcn_poll w.bus.control_output n4)] ++
           (if mcn_poll w.bus.control_output n4 then
              [Event.mcn_copy Topic.control_output Node.fms_control_out_nod
                (mcn_copy w.bus.control_output n4 w.fms.FMS_U.Control_Out).1]
            else [])) } := by
  obtain ⟨st, ps, cbs, bus, ctl, ⟨p1, p2, p3, p4, f1, f2, mi, ⟨u1, u2, u3, u4⟩, y, dw, fp, tt⟩,
    plant, tr⟩ := w
  simp only at h4
  subst h4
  unfold fms_read_control_out
  by_cases d4 : mcn_poll bus.control_output n4 <;> simp [d4, World.emit]

theorem fms_read_inputs_eq {T : BusTypes} (ts : Nat) (w : World T) (n1 n2 n3 n4 : McnNode)
    (h1 : w.fms.pilot_cmd_nod = some n1) (h2 : w.fms.gcs_cmd_nod = some n2)
    (h3 : w.fms.ins_out_nod = some n3) (h4 : w.fms.control_out_nod = some n4) :
    fms_read_inputs ts w = some
      { w with
        fms := { w.fms with
          pilot_cmd_nod := some (if mcn_poll w.bus.pilot_cmd n1 then
            (mcn_copy w.bus.pilot_cmd n1 w.fms.FMS_U.Pilot_Cmd).2.1 else n1),
          gcs_cmd_nod := some (if mcn_poll w.bus.gcs_cmd n2 then
            (mcn_copy w.bus.gcs_cmd n2 w.fms.FMS_U.GCS_Cmd).2.1 else n2),
          ins_out_nod := some (if mcn_poll w.bus.ins_output n3 then
            (mcn_copy w.bus.ins_output n3 w.fms.FMS_U.INS_Out).2.1 else n3),
          control_out_nod := some (if mcn_poll w.bus.control_output n4 then
            (mcn_copy w.bus.control_output n4 w.fms.FMS_U.Control_Out).2.1 else n4),
          pilot_cmd_updated := if mcn_poll w.bus.pilot_cmd n1 then 1
            else w.fms.pilot_cmd_updated,
          gcs_cmd_updated := if mcn_poll w.bus.gcs_cmd n2 then 1 else w.fms.gcs_cmd_updated,
          FMS_U :=
            { Pilot_Cmd := if mcn_poll w.bus.pilot_cmd n1 then
                { (mcn_copy w.bus.pilot_cmd n1 w.fms.FMS_U.Pilot_Cmd).2.2 with timestamp := ts }
                else w.fms.FMS_U.Pilot_Cmd,
              GCS_Cmd := if mcn_poll w.bus.gcs_cmd n2 then
                { (mcn_copy w.bus.gcs_cmd n2 w.fms.FMS_U.GCS_Cmd).2.2 with timestamp := ts }
                else w.fms.FMS_U.GCS_Cmd,
              INS_Out := if mcn_poll w.bus.ins_output n3 then
                (mcn_copy w.bus.ins_output n3 w.fms.FMS_U.INS_Out).2.2
                else w.fms.FMS_U.INS_Out,
              Control_Out := if mcn_poll w.bus.control_output n4 then
                (mcn_copy w.bus.control_output n4 w.fms.FMS_U.Control_Out).2.2
                else w.fms.FMS_U.Control_Out } },
        trace := w.trace ++
          ([Event.mcn_poll Node.fms_pilot_cmd_nod (mcn_poll w.bus.pilot_cmd n1)] ++
           (if mcn_poll w.bus.pilot_cmd n1 then
              [Event.mcn_copy Topic.pilot_cmd Node.fms_pilot_cmd_nod
                (mcn_copy w.bus.pilot_cmd n1 w.fms.FMS_U.Pilot_Cmd).1]
            else []) ++
           [Event.mcn_poll Node.fms_gcs_cmd_nod (mcn_poll w.bus.gcs_cmd n2)] ++
           (if mcn_poll w.bus.gcs_cmd n2 then
              [Event.mcn_copy Topic.gcs_cmd Node.fms_gcs_cmd_nod
                (mcn_copy w.bus.gcs_cmd n2 w.fms.FMS_U.GCS_Cmd).1]
            else []) ++
           [Event.mcn_poll Node.fms_ins_out_nod (mcn_poll w.bus.ins_output n3)] ++
           (if mcn_poll w.bus.ins_output n3 then
              [Event.mcn_copy Topic.ins_output Node.fms_ins_out_nod
                (mcn_copy w.bus.ins_output n3 w.fms.FMS_U.INS_Out).1]
            else []) ++
           [Event.mcn_poll Node.fms_control_out_nod (mcn_poll w.bus.control_output n4)] ++
           (if mcn_poll w.bus.control_output n4 then
              [Event.mcn_copy Topic.control_output Node.fms_control_out_nod
                (mcn_copy w.bus.control_output n4 w.fms.FMS_U.Control_Out).1]
            else [])) } := by
  unfold fms_read_inputs
  simp only [Option.bind_eq_bind]
  refine (bind_of_eq_some (fms_read_pilot_cmd_eq ts w n1 h1)).trans ?_
  refine (bind_of_eq_some (fms_read_gcs_cmd_eq ts _ n2 (by exact h2))).trans ?_
  refine (bind_of_eq_some (fms_read_ins_out_eq _ n3 (by exact h3))).trans ?_
  refine (fms_read_control_out_eq _ n4 (by exact h4)).trans ?_
  simp

theorem fms_run_model_eq {T : BusTypes} (G : Generated T) (w : World T) :
    fms_run_model G w =
      { w with
        fms := { w.fms with
          FMS_Y := (G.FMS_step w.fms.FMS_PARAM w.fms.FMS_U w.fms.FMS_Y w.fms.FMS_DW).1,
          FMS_DW := (G.FMS_step w.fms.FMS_PARAM w.fms.FMS_U w.fms.FMS_Y w.fms.FMS_DW).2 },
        bus := { w.bus with
          fms_output := mcn_publish w.bus.fms_output
            (G.FMS_step w.fms.FMS_PARAM w.fms.FMS_U w.fms.FMS_Y w.fms.FMS_DW).1.FMS_Out },
        trace := w.trace ++
          ([Event.FMS_step w.fms.FMS_U,
            Event.mcn_publish Topic.fms_output (Payload.fms_out
              (G.FMS_step w.fms.FMS_PARAM w.fms.FMS_U w.fms.FMS_Y w.fms.FMS_DW).1.FMS_Out)] ++
           echo_events w.bus.fms_output.echo w.bus.control_output) } := by
  unfold fms_run_model
  simp [World.emit, run_echo_eq, mcn_publish]

theorem fms_log_output_eq {T : BusTypes} (G : Generated T) (w : World T) :
    fms_log_output G w =
      { w with
        fms := { w.fms with
          pilot_cmd_updated := 0,
          gcs_cmd_updated := 0,
          timetag_fms_output := (check_timetag w.systime w.fms.timetag_fms_output).2 },
        trace := w.trace ++
          ((if w.fms.pilot_cmd_updated ≠ 0 then
              [Event.mlog_push_msg (Payload.pilot_cmd w.fms.FMS_U.Pilot_Cmd)
                MsgId.MLOG_PILOT_CMD_ID G.sizeof_Pilot_Cmd_Bus]
            else []) ++
           (if w.fms.gcs_cmd_updated ≠ 0 then
              [Event.mlog_push_msg (Payload.gcs_cmd w.fms.FMS_U.GCS_Cmd)
                MsgId.MLOG_GCS_CMD_ID G.sizeof_GCS_Cmd_Bus]
            else []) ++
           [Event.check_timetag Gate.fms_output w.fms.timetag_fms_output.period
              (check_timetag w.systime w.fms.timetag_fms_output).1] ++
           (if (check_timetag w.systime w.fms.timetag_fms_output).1 then
              [Event.mlog_push_msg (Payload.fms_out w.fms.FMS_Y.FMS_Out)
                MsgId.MLOG_FMS_OUT_ID G.sizeof_FMS_Out_Bus]
            else [])) } := by
  obtain ⟨st, ps, cbs, bus, ctl, ⟨p1, p2, p3, p4, f1, f2, mi, u, y, dw, fp, tt⟩, plant, tr⟩ := w
  unfold fms_log_output
  by_cases c : (check_timetag st tt).1 <;>
  by_cases u1 : f1 = 0 <;>
  by_cases u2 : f2 = 0 <;>
  simp [c, u1, u2, World.emit]

theorem fms_step_effect {T : BusTypes} (G : Generated T) (ts : Nat) (w : World T)
    (n1 n2 n3 n4 : McnNode)
    (h1 : w.fms.pilot_cmd_nod = some n1) (h2 : w.fms.gcs_cmd_nod = some n2)
    (h3 : w.fms.ins_out_nod = some n3) (h4 : w.fms.control_out_nod = some n4) :
    ∃ w1, fms_interface_step G ts w = some w1 ∧ FmsStepEffect G ts w n1 n2 n3 n4 w1 := by
  unfold fms_interface_step
  by_cases hp : G.FMT_ONLINE_PARAM_TUNING
  · simp only [hp, if_true, Option.bind_eq_bind, Option.pure_def]
    rw [fms_read_inputs_eq ts (fms_update_parameter w) n1 n2 n3 n4 h1 h2 h3 h4]
    simp only [Option.some_bind, fms_run_model_eq, fms_log_output_eq]
    refine ⟨_, rfl, ?_⟩
    constructor <;> first
      | (simp [hp, fms_update_parameter]; done)
      | (by_cases d1 : mcn_poll w.bus.pilot_cmd n1 <;>
         by_cases d2 : mcn_poll w.bus.gcs_cmd n2 <;>
         by_cases u1 : w.fms.pilot_cmd_updated = 0 <;>
         by_cases u2 : w.fms.gcs_cmd_updated = 0 <;>
         simp [hp, d1, d2, u1, u2, fms_update_parameter])
  · simp only [hp, Bool.false_eq_true, if_false, Option.bind_eq_bind, Option.pure_def]
    rw [fms_read_inputs_eq ts w n1 n2 n3 n4 h1 h2 h3 h4]
    simp only [Option.some_bind, fms_run_model_eq, fms_log_output_eq]
    refine ⟨_, rfl, ?_⟩
    constructor <;> first
      | (simp [hp]; done)
      | (by_cases d1 : mcn_poll w.bus.pilot_cmd n1 <;>
         by_cases d2 : mcn_poll w.bus.gcs_cmd n2 <;>
         by_cases u1 : w.fms.pilot_cmd_updated = 0 <;>
         by_cases u2 : w.fms.gcs_cmd_updated = 0 <;>
         simp [hp, d1, d2, u1, u2])

theorem publish_sensor_data_eq {T : BusTypes} (G : Generated T) (ts : Nat) (w : World T) :
    publish_sensor_data G ts w =
      { w with
        bus := { w.bus with
          sensor_imu0 := if w.plant.Plant_Y.IMU.timestamp ≠ w.plant.imu_timestamp then
            mcn_publish w.bus.sensor_imu0 (imu_report ts w.plant.Plant_Y.IMU)
            else w.bus.sensor_imu0,
          sensor_mag0 := if w.plant.Plant_Y.MAG.timestamp ≠ w.plant.mag_timestamp then
            mcn_publish w.bus.sensor_mag0 (mag_report ts w.plant.Plant_Y.MAG)
            else w.bus.sensor_mag0,
          sensor_baro := if w.plant.Plant_Y.Barometer.timestamp ≠ w.plant.baro_timestamp then
            mcn_publish w.bus.sensor_baro (baro_report ts w.plant.Plant_Y.Barometer)
            else w.bus.sensor_baro,
          sensor_gps := if w.plant.Plant_Y.GPS.timestamp ≠ w.plant.gps_timestamp then
            mcn_publish w.bus.sensor_gps (gps_report G ts w.plant.Plant_Y.GPS)
            else w.bus.sensor_gps },
        plant := { w.plant with
          imu_timestamp := w.plant.Plant_Y.IMU.timestamp,
          mag_timestamp := w.plant.Plant_Y.MAG.timestamp,
          baro_timestamp := w.plant.Plant_Y.Barometer.timestamp,
          gps_timestamp := w.plant.Plant_Y.GPS.timestamp },
        trace := w.trace ++ sensor_events G ts w.bus w.plant w.plant.Plant_Y } := by
  obtain ⟨st, ps, cbs, bus, ctl, fms, ⟨nod, t1, t2, t3, t4, mi, u, y, dw, tt⟩, tr⟩ := w
  unfold publish_sensor_data sensor_events
  by_cases c1 : y.IMU.timestamp = t1 <;>
  by_cases c2 : y.MAG.timestamp = t2 <;>
  by_cases c3 : y.Barometer.timestamp = t3 <;>
  by_cases c4 : y.GPS.timestamp = t4 <;>
  simp [c1, c2, c3, c4, World.emit, run_echo_eq, mcn_publish]

theorem plant_read_inputs_eq {T : BusTypes} (w : World T) (n : McnNode)
    (h : w.plant.control_out_nod = some n) :
    plant_read_inputs w = some
      { w with
        plant := { w.plant with
          control_out_nod := some (if mcn_poll w.bus.control_output n then
            (mcn_copy w.bus.control_output n w.plant.Plant_U.Control_Out).2.1 else n),
          Plant_U :=
            { Control_Out := if mcn_poll w.bus.control_output n then
                (mcn_copy w.bus.control_output n w.plant.Plant_U.Control_Out).2.2
                else w.plant.Plant_U.Control_Out } },
        trace := w.trace ++
          ([Event.mcn_poll Node.plant_control_out_nod (mcn_poll w.bus.control_output n)] ++
           (if mcn_poll w.bus.control_output n then
              [Event.mcn_copy Topic.control_output Node.plant_control_out_nod
                (mcn_copy w.bus.control_output n w.plant.Plant_U.Control_Out).1]
            else [])) } := by
  obtain ⟨st, ps, cbs, bus, ctl, fms, ⟨nod, t1, t2, t3, t4, mi, ⟨u⟩, y, dw, tt⟩, tr⟩ := w
  simp only at h
  subst h
  unfold plant_read_inputs
  by_cases d : mcn_poll bus.control_output n <;> simp [d, World.emit]

theorem plant_run_model_eq {T : BusTypes} (G : Generated T) (w : World T) :
    plant_run_model G w =
      { w with
        plant := { w.plant with
          Plant_Y := (G.Plant_step w.plant.Plant_U w.plant.Plant_Y w.plant.Plant_DW).1,
          Plant_DW := (G.Plant_step w.plant.Plant_U w.plant.Plant_Y w.plant.Plant_DW).2 },
        trace := w.trace ++ [Event.Plant_step w.plant.Plant_U] } := by
  simp [plant_run_model, World.emit]

theorem plant_log_output_eq {T : BusTypes} (G : Generated T) (w : World T) :
    plant_log_output G w =
      { w with
        plant := { w.plant with
          timetag_plant_output := (check_timetag w.systime w.plant.timetag_plant_output).2 },
        trace := w.trace ++
          ([Event.check_timetag Gate.plant_output w.plant.timetag_plant_output.period
              (check_timetag w.systime w.plant.timetag_plant_output).1] ++
           (if (check_timetag w.systime w.plant.timetag_plant_output).1 then
              [Event.mlog_push_msg (Payload.plant_states w.plant.Plant_Y.Plant_States)
                MsgId.MLOG_PLANT_STATE_ID G.sizeof_Plant_States_Bus]
            else [])) } := by
  unfold plant_log_output
  by_cases c : (check_timetag w.systime w.plant.timetag_plant_output).1 <;>
  simp [c, World.emit]

theorem plant_step_effect {T : BusTypes} (G : Generated T) (ts : Nat) (w : World T)
    (n : McnNode) (h : w.plant.control_out_nod = some n) :
    ∃ w1, plant_interface_step G ts w = some w1 ∧ PlantStepEffect G ts w n w1 := by
  unfold plant_interface_step
  simp only [Option.bind_eq_bind, Option.pure_def]
  rw [plant_read_inputs_eq w n h]
  simp only [Option.some_bind, plant_run_model_eq, plant_log_output_eq, publish_sensor_data_eq]
  refine ⟨_, rfl, ?_⟩
  constructor <;> simp [sensor_events]

/-! ## Claims about one driver step -/

theorem echo_events_no_bus_read {T : BusTypes} (echo : Option EchoCb)
    (hub : McnHub T.Control_Out_Bus) :
    ∀ e ∈ echo_events echo hub, e.isBusRead = false ∧ e.isModelStep = false ∧
      e.isPublish = false ∧ e.isGateCheck = false ∧ e.isPush = false := by
  intro e he
  unfold echo_events at he
  rcases echo with _ | ⟨_⟩
  · simp at he
  · cases hc : mcn_copy_from_hub hub <;> simp [hc] at he
    subst he
    simp [Event.isBusRead, Event.isModelStep, Event.isPublish, Event.isGateCheck, Event.isPush]

theorem filter_echo_events {T : BusTypes} (echo : Option EchoCb)
    (hub : McnHub T.Control_Out_Bus) (p : Event T → Bool)
    (hp : ∀ e, p e = true → e.isBusRead = true ∨ e.isModelStep = true ∨ e.isPublish = true ∨
      e.isGateCheck = true ∨ e.isPush = true) :
    (echo_events echo hub).filter p = [] := by
  rw [List.filter_eq_nil_iff]
  intro e he hpe
  have := echo_events_no_bus_read echo hub e he
  rcases hp e hpe with h | h | h | h | h <;> simp [this] at h

/-- Claim C1. In every call of `control_interface_step` (both nodes non-`NULL`)
the calls up to the invocation of `Controller_step` are: the poll of
`fms_out_nod`, a copy into `Controller_U.FMS_Out` exactly when that poll
returned true, the poll of `ins_out_nod`, a copy into `Controller_U.INS_Out`
exactly when that poll returned true; no poll or copy follows.  The input
record `u` that `Controller_step` is invoked with holds, for an input whose
poll returned false, the value it held on entry, and otherwise the value
copied. -/
theorem control_step_copies_iff_dirty {T : BusTypes} (G : Generated T) (ts : Nat)
    (w : World T) (n1 n2 : McnNode)
    (h1 : w.controller.fms_out_nod = some n1) (h2 : w.controller.ins_out_nod = some n2) :
    ∃ w1 u rest,
      control_interface_step G ts w = some w1 ∧
      call_events w w1 =
        [Event.mcn_poll Node.controller_fms_out_nod (mcn_poll w.bus.fms_output n1)] ++
        (if mcn_poll w.bus.fms_output n1 then
           [Event.mcn_copy Topic.fms_output Node.controller_fms_out_nod
             (mcn_copy w.bus.fms_output n1 w.controller.Controller_U.FMS_Out).1]
         else []) ++
        [Event.mcn_poll Node.controller_ins_out_nod (mcn_poll w.bus.ins_output n2)] ++
        (if mcn_poll w.bus.ins_output n2 then
           [Event.mcn_copy Topic.ins_output Node.controller_ins_out_nod
             (mcn_copy w.bus.ins_output n2 w.controller.Controller_U.INS_Out).1]
         else []) ++
        [Event.Controller_step u] ++ rest ∧
      (∀ e ∈ rest, e.isBusRead = false) ∧
      (mcn_poll w.bus.fms_output n1 = false →
        u.FMS_Out = w.controller.Controller_U.FMS_Out) ∧
      (mcn_poll w.bus.ins_output n2 = false →
        u.INS_Out = w.controller.Controller_U.INS_Out) ∧
      (mcn_poll w.bus.fms_output n1 = true →
        u.FMS_Out = (mcn_copy w.bus.fms_output n1 w.controller.Controller_U.FMS_Out).2.2) ∧
      (mcn_poll w.bus.ins_output n2 = true →
        u.INS_Out = (mcn_copy w.bus.ins_output n2 w.controller.Controller_U.INS_Out).2.2) := by
  obtain ⟨w1, hs, he⟩ := control_step_effect G ts w n1 n2 h1 h2
  refine ⟨w1, w1.controller.Controller_U,
    [Event.mcn_publish Topic.control_output
      (Payload.control_out w1.controller.Controller_Y.Control_Out)] ++
    echo_events w.bus.control_output.echo w1.bus.control_output ++
    [Event.check_timetag Gate.control_output w.controller.timetag_control_output.period
      (check_timetag w.systime w.controller.timetag_control_output).1] ++
    (if (check_timetag w.systime w.controller.timetag_control_output).1 then
      [Event.mlog_push_msg (Payload.control_out w1.controller.Controller_Y.Control_Out)
        MsgId.MLOG_CONTROL_OUT_ID G.sizeof_Control_Out_Bus]
     else []), hs, ?_, ?_, ?_, ?_, ?_, ?_⟩
  · rw [call_events_append w w1 _ he.trace]
    simp
  · intro e hmem
    simp only [List.mem_append, List.mem_cons, List.mem_singleton, List.not_mem_nil,
      or_false] at hmem
    rcases hmem with ((hmem | hmem) | hmem) | hmem
    · subst hmem; rfl
    · exact (echo_events_no_bus_read _ _ e hmem).1
    · subst hmem; rfl
    · split at hmem
      · simp only [List.mem_singleton] at hmem; subst hmem; rfl
      · simp at hmem
  · intro d; rw [he.FMS_Out, d]; simp
  · intro d; rw [he.INS_Out, d]; simp
  · intro d; rw [he.FMS_Out, d]; simp
  · intro d; rw [he.INS_Out, d]; simp

/-- Claim C2. Every call of `control_interface_step` invokes `Controller_step`
exactly once and then publishes to `control_output` exactly once: these are
the only model-step and publish calls of the step, in this order, and the
payload published is `Controller_Y.Control_Out` as computed by that
`Controller_step` call from the inputs `u` it was invoked with.  Likewise
every call of `fms_interface_step` invokes `FMS_step` once and then publishes
`FMS_Y.FMS_Out` to `fms_output` once.  Nothing is assumed about dirty inputs or
the gate. -/
theorem step_then_publish_once {T : BusTypes} (G : Generated T) (ts : Nat) (w : World T)
    (n1 n2 m1 m2 m3 m4 : McnNode)
    (h1 : w.controller.fms_out_nod = some n1) (h2 : w.controller.ins_out_nod = some n2)
    (k1 : w.fms.pilot_cmd_nod = some m1) (k2 : w.fms.gcs_cmd_nod = some m2)
    (k3 : w.fms.ins_out_nod = some m3) (k4 : w.fms.control_out_nod = some m4) :
    (∃ w1 u,
      control_interface_step G ts w = some w1 ∧
      (call_events w w1).filter (fun e => e.isModelStep || e.isPublish) =
        [Event.Controller_step u,
         Event.mcn_publish Topic.control_output
           (Payload.control_out w1.controller.Controller_Y.Control_Out)] ∧
      w1.controller.Controller_Y =
        (G.Controller_step w1.controller.CONTROL_PARAM u
          w.controller.Controller_Y w.controller.Controller_DW).1) ∧
    (∃ w1 u,
      fms_interface_step G ts w = some w1 ∧
      (call_events w w1).filter (fun e => e.isModelStep || e.isPublish) =
        [Event.FMS_step u,
         Event.mcn_publish Topic.fms_output (Payload.fms_out w1.fms.FMS_Y.FMS_Out)] ∧
      w1.fms.FMS_Y = (G.FMS_step w1.fms.FMS_PARAM u w.fms.FMS_Y w.fms.FMS_DW).1) := by
  constructor
  · obtain ⟨w1, hs, he⟩ := control_step_effect G ts w n1 n2 h1 h2
    refine ⟨w1, w1.controller.Controller_U, hs, ?_, he.Controller_Y⟩
    rw [call_events_append w w1 _ he.trace]
    simp only [List.filter_append]
    rw [filter_echo_events _ _ _ (by intro e h; simp at h; tauto)]
    simp [apply_ite (List.filter _), Event.isModelStep, Event.isPublish]
  · obtain ⟨w1, hs, he⟩ := fms_step_effect G ts w m1 m2 m3 m4 k1 k2 k3 k4
    refine ⟨w1, w1.fms.FMS_U, hs, ?_, he.FMS_Y⟩
    rw [call_events_append w w1 _ he.trace]
    simp only [List.filter_append]
    rw [filter_echo_events _ _ _ (by intro e h; simp at h; tauto)]
    simp [apply_ite (List.filter _), Event.isModelStep, Event.isPublish]

theorem copy_after_publish {α : Type} (hub : McnHub α) (data : α) (node : McnNode)
    (buffer : α) :
    mcn_copy (mcn_publish hub data) node buffer =
      (Status.OK, { last_read := hub.version + 1 }, data) := by
  simp [mcn_copy, mcn_publish]

theorem poll_after_publish {α : Type} (hub : McnHub α) (data : α) (node : McnNode)
    (h : node.last_read ≤ hub.version) : mcn_poll (mcn_publish hub data) node = true := by
  simp only [mcn_poll, mcn_publish, decide_eq_true_eq]
  omega

/-- Claim C3. Round trip through the bus.  For every payload size `S`, every
hub of that size and every byte string `B` of length `S`: a copy that follows
`publish(h, B)` succeeds and yields `B`, whatever node it is made on and
whatever the buffer held.  On the drivers: let `control_interface_step`
publish `Control_Out` (state `w1`); then in any later state `v` whose
`control_output` hub is still the one of `w1` (no intervening publish) and
whose subscriber node has not read past the version before that publish, the
next `fms_interface_step` leaves `FMS_U.Control_Out` equal to the published
value, and the next `plant_interface_step` leaves `Plant_U.Control_Out` equal
to it. -/
theorem bus_round_trip {T : BusTypes} (G : Generated T) (ts : Nat) (w : World T)
    (n1 n2 : McnNode)
    (h1 : w.controller.fms_out_nod = some n1) (h2 : w.controller.ins_out_nod = some n2) :
    (∀ (S : Nat) (hub : McnHub (ByteString S)) (B out : ByteString S) (node : McnNode),
      (mcn_copy (mcn_publish hub B) node out).1 = Status.OK ∧
      (mcn_copy (mcn_publish hub B) node out).2.2 = B) ∧
    ∃ w1, control_interface_step G ts w = some w1 ∧
      (∀ (ts1 : Nat) (v : World T) (m1 m2 m3 m4 : McnNode),
        v.fms.pilot_cmd_nod = some m1 → v.fms.gcs_cmd_nod = some m2 →
        v.fms.ins_out_nod = some m3 → v.fms.control_out_nod = some m4 →
        v.bus.control_output = w1.bus.control_output →
        m4.last_read ≤ w.bus.control_output.version →
        ∃ w2, fms_interface_step G ts1 v = some w2 ∧
          w2.fms.FMS_U.Control_Out = w1.controller.Controller_Y.Control_Out) ∧
      (∀ (ts1 : Nat) (v : World T) (m : McnNode),
        v.plant.control_out_nod = some m →
        v.bus.control_output = w1.bus.control_output →
        m.last_read ≤ w.bus.control_output.version →
        ∃ w3, plant_interface_step G ts1 v = some w3 ∧
          w3.plant.Plant_U.Control_Out = w1.controller.Controller_Y.Control_Out) := by
  refine ⟨fun S hub B out node => by simp [copy_after_publish], ?_⟩
  obtain ⟨w1, hs, he⟩ := control_step_effect G ts w n1 n2 h1 h2
  have hb : w1.bus.control_output =
      mcn_publish w.bus.control_output w1.controller.Controller_Y.Control_Out := by
    rw [he.bus]
  refine ⟨w1, hs, ?_, ?_⟩
  · intro ts1 v m1 m2 m3 m4 k1 k2 k3 k4 hv hm
    obtain ⟨w2, hs2, he2⟩ := fms_step_effect G ts1 v m1 m2 m3 m4 k1 k2 k3 k4
    refine ⟨w2, hs2, ?_⟩
    rw [he2.Control_Out, hv, hb, poll_after_publish _ _ _ hm, copy_after_publish]
    simp
  · intro ts1 v m k hv hm
    obtain ⟨w3, hs3, he3⟩ := plant_step_effect G ts1 v m k
    refine ⟨w3, hs3, ?_⟩
    rw [he3.Control_Out, hv, hb, poll_after_publish _ _ _ hm, copy_after_publish]
    simp

/-- Claim C5. In every call of `control_interface_step` with the gate of
`DEFINE_TIMETAG(control_output, 100)` (period 100): among the publish, gate
and logger calls of the step there is one publish of `Control_Out`, then one
`check_timetag` on the `control_output` gate with period 100, then one
`mlog_push_msg` exactly when that check returned true; the record pushed is
the `Control_Out` published in the same call, the message id is
`MLOG_CONTROL_OUT_ID` and the length `sizeof(Control_Out_Bus)`.  The gate's
period is still 100 afterwards. -/
theorem control_log_iff_gate {T : BusTypes} (G : Generated T) (ts : Nat) (w : World T)
    (n1 n2 : McnNode)
    (h1 : w.controller.fms_out_nod = some n1) (h2 : w.controller.ins_out_nod = some n2)
    (hp : w.controller.timetag_control_output.period = 100) :
    ∃ w1, control_interface_step G ts w = some w1 ∧
      (call_events w w1).filter (fun e => e.isPublish || e.isGateCheck || e.isPush) =
        [Event.mcn_publish Topic.control_output
           (Payload.control_out w1.controller.Controller_Y.Control_Out),
         Event.check_timetag Gate.control_output 100
           (check_timetag w.systime w.controller.timetag_control_output).1] ++
        (if (check_timetag w.systime w.controller.timetag_control_output).1 then
           [Event.mlog_push_msg (Payload.control_out w1.controller.Controller_Y.Control_Out)
             MsgId.MLOG_CONTROL_OUT_ID G.sizeof_Control_Out_Bus]
         else []) ∧
      w1.controller.timetag_control_output.period = 100 := by
  obtain ⟨w1, hs, he⟩ := control_step_effect G ts w n1 n2 h1 h2
  refine ⟨w1, hs, ?_, ?_⟩
  · rw [call_events_append w w1 _ he.trace]
    simp only [List.filter_append]
    rw [filter_echo_events _ _ _ (by intro e h; simp at h; tauto)]
    simp [apply_ite (List.filter _), Event.isPublish, Event.isGateCheck, Event.isPush, hp]
  · rw [he.timetag]
    unfold check_timetag
    split <;> simp [hp]


/-! ## The dirty flag -/

theorem answers_false_of_no_publish {α : Type} (ops : List (BusOp α)) :
    ∀ s : Subscription α, s.hub.version ≤ s.node.last_read →
      (∀ op ∈ ops, op.isPublish = false) → ∀ b ∈ s.answers ops, b = false := by
  induction ops with
  | nil => intro s _ _ b hb; simp [Subscription.answers] at hb
  | cons op ops ih =>
    intro s hs hno b hb
    have hno1 : ∀ op1 ∈ ops, op1.isPublish = false := fun op1 h1 =>
      hno op1 (List.mem_cons_of_mem _ h1)
    cases op with
    | publish data => simpa [BusOp.isPublish] using hno (BusOp.publish data) (List.mem_cons_self _ _)
    | poll =>
      simp only [Subscription.answers, List.mem_cons] at hb
      rcases hb with hb | hb
      · subst hb
        simp only [mcn_poll, decide_eq_false_iff_not]
        omega
      · exact ih s hs hno1 b hb
    | copy =>
      simp only [Subscription.answers] at hb
      refine ih _ ?_ hno1 b hb
      simp only [Subscription.step, mcn_copy]
      cases s.hub.payload <;> simp [hs]

theorem answers_true_of_no_copy {α : Type} (ops : List (BusOp α)) :
    ∀ s : Subscription α, s.node.last_read < s.hub.version →
      (∀ op ∈ ops, op.isCopy = false) → ∀ b ∈ s.answers ops, b = true := by
  induction ops with
  | nil => intro s _ _ b hb; simp [Subscription.answers] at hb
  | cons op ops ih =>
    intro s hs hno b hb
    have hno1 : ∀ op1 ∈ ops, op1.isCopy = false := fun op1 h1 =>
      hno op1 (List.mem_cons_of_mem _ h1)
    cases op with
    | publish data =>
      simp only [Subscription.answers] at hb
      refine ih _ ?_ hno1 b hb
      simp only [Subscription.step, mcn_publish]
      omega
    | poll =>
      simp only [Subscription.answers, List.mem_cons] at hb
      rcases hb with hb | hb
      · subst hb
        simpa [mcn_poll] using hs
      · exact ih s hs hno1 b hb
    | copy => simpa [BusOp.isCopy] using hno BusOp.copy (List.mem_cons_self _ _)

theorem run_cursor_le {α : Type} (ops : List (BusOp α)) :
    ∀ s : Subscription α, s.node.last_read ≤ s.hub.version →
      (s.run ops).node.last_read ≤ (s.run ops).hub.version := by
  induction ops with
  | nil => intro s hs; simpa [Subscription.run] using hs
  | cons op ops ih =>
    intro s hs
    simp only [Subscription.run, List.foldl_cons]
    refine ih _ ?_
    cases op with
    | publish data => simp only [Subscription.step, mcn_publish]; omega
    | poll => simpa [Subscription.step] using hs
    | copy =>
      simp only [Subscription.step, mcn_copy]
      cases s.hub.payload <;> simp [hs]

theorem run_polls {α : Type} (k : Nat) (s : Subscription α) :
    s.run (List.replicate k BusOp.poll) = s := by
  induction k with
  | zero => rfl
  | succ k ih =>
    simp only [Subscription.run, List.replicate_succ, List.foldl_cons, Subscription.step]
    exact ih

theorem run_append {α : Type} (s : Subscription α) (l r : List (BusOp α)) :
    s.run (l ++ r) = (s.run l).run r := by
  simp [Subscription.run, List.foldl_append]

/-- Claim C4. Dirty flag of a subscriber node.  Let `node` be the node that
`subscribe` returns on `hub`.  (1) In every sequence of polls and copies
without a publish, every poll answers false.  (2) After any history followed by
one publish: every poll answers true as long as no copy is made, however many
polls or further publishes come before (so observing true does not clear the
flag); any number of polls leaves topic, node and buffer unchanged and answers
true each time.  (3) After a copy, every poll answers false until the next
publish. -/
theorem dirty_flag {α : Type} (hub : McnHub α) (node : McnNode) (buffer : α)
    (h : mcn_subscribe hub = some node) :
    (∀ ops : List (BusOp α), (∀ op ∈ ops, op.isPublish = false) →
      ∀ b ∈ Subscription.answers { hub := hub, node := node, buffer := buffer } ops,
        b = false) ∧
    (∀ (history : List (BusOp α)) (data : α),
      (∀ ops : List (BusOp α), (∀ op ∈ ops, op.isCopy = false) →
        ∀ b ∈ Subscription.answers
          (Subscription.run { hub := hub, node := node, buffer := buffer }
            (history ++ [BusOp.publish data])) ops, b = true) ∧
      (∀ k : Nat,
        Subscription.run
          (Subscription.run { hub := hub, node := node, buffer := buffer }
            (history ++ [BusOp.publish data])) (List.replicate k BusOp.poll) =
          Subscription.run { hub := hub, node := node, buffer := buffer }
            (history ++ [BusOp.publish data]) ∧
        Subscription.answers
          (Subscription.run { hub := hub, node := node, buffer := buffer }
            (history ++ [BusOp.publish data])) (List.replicate k BusOp.poll) =
          List.replicate k true) ∧
      (∀ (k : Nat) (ops : List (BusOp α)), (∀ op ∈ ops, op.isPublish = false) →
        ∀ b ∈ Subscription.answers
          (Subscription.run { hub := hub, node := node, buffer := buffer }
            (history ++ [BusOp.publish data] ++ List.replicate k BusOp.poll ++ [BusOp.copy]))
          ops, b = false)) := by
  have h0 : node.last_read = hub.version := by
    unfold mcn_subscribe at h
    split at h
    · simp only [Option.some.injEq] at h
      rw [← h]
    · simp at h
  refine ⟨fun ops hno => answers_false_of_no_publish ops _ (by simp [h0]) hno, ?_⟩
  intro history data
  have hle := run_cursor_le history { hub := hub, node := node, buffer := buffer }
    (by simp [h0])
  have hlt : (Subscription.run { hub := hub, node := node, buffer := buffer }
      (history ++ [BusOp.publish data])).node.last_read <
      (Subscription.run { hub := hub, node := node, buffer := buffer }
      (history ++ [BusOp.publish data])).hub.version := by
    rw [run_append]
    simp only [Subscription.run, List.foldl_cons, List.foldl_nil, Subscription.step, mcn_publish]
    simp only [Subscription.run] at hle
    omega
  refine ⟨fun ops hno => answers_true_of_no_copy ops _ hlt hno, ?_, ?_⟩
  · intro k
    refine ⟨run_polls k _, ?_⟩
    have hall := answers_true_of_no_copy (List.replicate k BusOp.poll) _ hlt
      (by intro op hop; rw [List.eq_of_mem_replicate hop]; rfl)
    have hlen : ∀ (j : Nat) (s : Subscription α),
        (s.answers (List.replicate j BusOp.poll)).length = j := by
      intro j s
      induction j with
      | zero => rfl
      | succ j ih => simp [List.replicate_succ, Subscription.answers, ih]
    exact List.eq_replicate_iff.2 ⟨hlen _ _, hall⟩
  · intro k ops hno
    refine answers_false_of_no_publish ops _ ?_ hno
    rw [run_append, run_append, run_polls]
    rw [run_append]
    simp [Subscription.run, Subscription.step, mcn_publish, mcn_copy]


/-! ## Gate throttling -/

theorem gate_fires_mul_le (n : Nat) :
    ∀ (gate : TimeTag) (now : Nat), 0 < gate.period →
      gate_fires n gate now * gate.period ≤
        (n - (gate.tag + gate.period - now)) + (gate.period - 1) := by
  induction n with
  | zero => intro gate now _; simp [gate_fires]
  | succ n ih =>
    intro gate now hP
    unfold gate_fires
    by_cases hc : now - gate.tag ≥ gate.period
    · have ih1 := ih { gate with tag := now } (now + 1) hP
      simp only [check_timetag, hc, if_true] at ih1 ⊢
      have hx : gate_fires n { tag := now, period := gate.period } (now + 1) * gate.period = 0 ∨
          gate.period ≤
            gate_fires n { tag := now, period := gate.period } (now + 1) * gate.period := by
        rcases Nat.eq_zero_or_pos
          (gate_fires n { tag := now, period := gate.period } (now + 1)) with h0 | h0
        · left; rw [h0]; simp
        · right; exact Nat.le_mul_of_pos_left _ h0
      rw [Nat.add_mul, Nat.one_mul]
      omega
    · have ih1 := ih gate (now + 1) hP
      simp only [check_timetag, hc, if_false] at ih1 ⊢
      simp only [Bool.false_eq_true, if_false, Nat.zero_add]
      omega

theorem gate_fires_le_ten (gate : TimeTag) (now : Nat) :
    gate_fires (10 * gate.period) gate now ≤ 10 := by
  rcases Nat.eq_zero_or_pos gate.period with h0 | hP
  · rw [h0]; simp [gate_fires]
  · have h := gate_fires_mul_le (10 * gate.period) gate now hP
    have h2 : gate_fires (10 * gate.period) gate now * gate.period < 11 * gate.period := by
      omega
    have := Nat.lt_of_mul_lt_mul_right h2
    omega

theorem any_echo_events {T : BusTypes} (echo : Option EchoCb)
    (hub : McnHub T.Control_Out_Bus) (id : MsgId) :
    (echo_events echo hub).any (Event.isPushOf id) = false := by
  unfold echo_events
  rcases echo with _ | ⟨_⟩
  · rfl
  · cases mcn_copy_from_hub hub <;> rfl

theorem control_step_pushes {T : BusTypes} (G : Generated T) (w : World T) (n1 n2 : McnNode)
    (w1 : World T) (he : ControlStepEffect G w n1 n2 w1) :
    (call_events w w1).any (Event.isPushOf MsgId.MLOG_CONTROL_OUT_ID) =
      (check_timetag w.systime w.controller.timetag_control_output).1 := by
  rw [call_events_append w w1 _ he.trace]
  simp only [List.any_append, any_echo_events]
  cases (check_timetag w.systime w.controller.timetag_control_output).1 <;>
    simp [apply_ite (List.any · _), Event.isPushOf]

theorem control_push_times_spaced {T : BusTypes} (G : Generated T) (n : Nat) :
    ∀ (w : World T) (n1 n2 : McnNode),
      w.controller.fms_out_nod = some n1 → w.controller.ins_out_nod = some n2 →
      w.controller.timetag_control_output.period = 100 →
      ∃ times, control_push_times G n w = some times ∧
        times.Pairwise (fun a b => a + 100 ≤ b) ∧
        ∀ t ∈ times, w.systime ≤ t ∧ w.controller.timetag_control_output.tag + 100 ≤ t := by
  induction n with
  | zero => intro w n1 n2 _ _ _; exact ⟨[], rfl, List.Pairwise.nil, by simp⟩
  | succ n ih =>
    intro w n1 n2 h1 h2 hp
    obtain ⟨w1, hs, he⟩ := control_step_effect G w.systime w n1 n2 h1 h2
    have hper : w1.controller.timetag_control_output.period = 100 := by
      rw [he.timetag]; unfold check_timetag; split <;> simp [hp]
    obtain ⟨rest, hr, hpw, hge⟩ := ih w1.tick _ _ he.fms_out_nod he.ins_out_nod hper
    have hpush := control_step_pushes G w n1 n2 w1 he
    have e : control_push_times G (n + 1) w = some
        (if (call_events w w1).any (Event.isPushOf MsgId.MLOG_CONTROL_OUT_ID) = true
          then w.systime :: rest else rest) := by
      simp only [control_push_times, hs, Option.bind_eq_bind, Option.some_bind, hr,
        Option.pure_def]
    have hsys : w1.tick.systime = w.systime + 1 := by simp [World.tick, he.systime]
    have htag : w1.tick.controller.timetag_control_output =
        (check_timetag w.systime w.controller.timetag_control_output).2 := he.timetag
    rw [hsys, htag] at hge
    by_cases hc : w.systime - w.controller.timetag_control_output.tag ≥ 100
    · have hf : (check_timetag w.systime w.controller.timetag_control_output) =
          (true, { w.controller.timetag_control_output with tag := w.systime }) := by
        simp [check_timetag, hp, hc]
      rw [hf] at hpush hge
      refine ⟨w.systime :: rest, ?_, ?_, ?_⟩
      · rw [e, hpush]; rfl
      · refine List.Pairwise.cons ?_ hpw
        intro b hb
        exact (hge b hb).2
      · intro t ht
        rcases List.mem_cons.1 ht with ht | ht
        · subst ht; omega
        · have := hge t ht
          simp only at this
          omega
    · have hf : (check_timetag w.systime w.controller.timetag_control_output) =
          (false, w.controller.timetag_control_output) := by
        simp only [check_timetag, hp]
        rw [if_neg hc]
      rw [hf] at hpush hge
      refine ⟨rest, ?_, hpw, ?_⟩
      · rw [e, hpush]; rfl
      · intro t ht
        have := hge t ht
        simp only at this
        omega

/-- Claim C6. Gate throttling.  For every gate, whatever its period `P` and its
last firing time, and every starting time: `check_timetag` called once per tick
for `10 * P` consecutive ticks, the clock advancing by one unit per tick,
returns true at most 10 times.  And with `control_interface_step` called once
per tick for any number `n` of ticks (nodes non-`NULL`, gate period 100), the
clock values of the calls that push the controller output to the logger are
pairwise at least 100 apart. -/
theorem gate_throttling {T : BusTypes} (G : Generated T) (n : Nat) (w : World T)
    (n1 n2 : McnNode)
    (h1 : w.controller.fms_out_nod = some n1) (h2 : w.controller.ins_out_nod = some n2)
    (hp : w.controller.timetag_control_output.period = 100) :
    (∀ (gate : TimeTag) (now : Nat), gate_fires (10 * gate.period) gate now ≤ 10) ∧
    ∃ times, control_push_times G n w = some times ∧
      times.Pairwise (fun a b => a + 100 ≤ b) := by
  refine ⟨gate_fires_le_ten, ?_⟩
  obtain ⟨times, ht, hpw, _⟩ := control_push_times_spaced G n w n1 n2 h1 h2 hp
  exact ⟨times, ht, hpw⟩


/-! ## Logging -/

theorem any_ite {α : Type} (c : Prop) [Decidable c] (l r : List α) (p : α → Bool) :
    (if c then l else r).any p = if c then l.any p else r.any p := by
  split <;> rfl

theorem gated_from_filter {T : BusTypes} (evs : List (Event T)) :
    ∀ fired : Bool,
      gated_from fired (evs.filter (fun e => e.isPush || e.isGateCheck)) =
        gated_from fired evs := by
  induction evs with
  | nil => intro fired; rfl
  | cons e evs ih =>
    intro fired
    cases e with
    | check_timetag gate period f =>
      rw [List.filter_cons_of_pos (by rfl)]
      cases f <;> simp only [gated_from, ih]
    | mlog_push_msg data msg_id len =>
      rw [List.filter_cons_of_pos (by rfl)]
      simp only [gated_from, ih]
    | _ =>
      rw [List.filter_cons_of_neg (by exact Bool.false_ne_true)]
      simp only [gated_from, ih]

theorem filter_sensor_events {T : BusTypes} (G : Generated T) (ts : Nat) (bus : Bus T)
    (v : PlantVars T) (Y : ExtY_Plant_T T) :
    (sensor_events G ts bus v Y).filter (fun e => e.isPush || e.isGateCheck) = [] := by
  have hecho : ∀ (echo : Option EchoCb) (hub : McnHub T.Control_Out_Bus),
      (echo_events echo hub).filter (fun e => e.isPush || e.isGateCheck) = [] :=
    fun echo hub => filter_echo_events echo hub _ (by intro e h; simp at h; tauto)
  unfold sensor_events
  simp only [List.filter_append, apply_ite (List.filter _), List.filter_nil, hecho]
  simp only [List.filter_cons, Event.isPush, Event.isGateCheck, Bool.or_false,
    Bool.false_eq_true, if_false, ite_self, List.append_nil]
  simp

/-- Claim C7 fails as stated.  In the running state `W_run` (pilot and GCS
commands flagged as updated by their static initialisers, clock at 5, gate last
fired at 0) a call of `fms_interface_step` invokes `mlog_push_msg` although no
`check_timetag` has returned true in that call. -/
theorem fms_pushes_without_gate :
    ∃ w1, fms_interface_step G0 0 W_run = some w1 ∧
      gated_pushes (call_events W_run w1) = false ∧
      (call_events W_run w1).any
        (fun e => match e with
          | Event.check_timetag _ _ true => true
          | _ => false) = false :=
  ⟨_, rfl, rfl, rfl⟩

/-- Claim C7, amended.  In every call of `control_interface_step` and of
`plant_interface_step`, `mlog_push_msg` is invoked only after a
`check_timetag` of the same call returned true.  In every call of
`fms_interface_step` this holds for all pushes but those of the pilot-command
and GCS-command messages; each of these two is pushed exactly when its input
was dirty in the call or its `updated` flag was set on entry, with no gate
involved. -/
theorem pushes_gated_or_flagged {T : BusTypes} (G : Generated T) (ts : Nat) (w : World T)
    (n1 n2 m1 m2 m3 m4 p : McnNode)
    (h1 : w.controller.fms_out_nod = some n1) (h2 : w.controller.ins_out_nod = some n2)
    (k1 : w.fms.pilot_cmd_nod = some m1) (k2 : w.fms.gcs_cmd_nod = some m2)
    (k3 : w.fms.ins_out_nod = some m3) (k4 : w.fms.control_out_nod = some m4)
    (hp : w.plant.control_out_nod = some p) :
    (∃ w1, control_interface_step G ts w = some w1 ∧
      gated_pushes (call_events w w1) = true) ∧
    (∃ w1, plant_interface_step G ts w = some w1 ∧
      gated_pushes (call_events w w1) = true) ∧
    (∃ w1, fms_interface_step G ts w = some w1 ∧
      gated_pushes ((call_events w w1).filter (fun e =>
        !(e.isPushOf MsgId.MLOG_PILOT_CMD_ID || e.isPushOf MsgId.MLOG_GCS_CMD_ID))) = true ∧
      ((call_events w w1).any (Event.isPushOf MsgId.MLOG_PILOT_CMD_ID) = true ↔
        (mcn_poll w.bus.pilot_cmd m1 = true ∨ w.fms.pilot_cmd_updated ≠ 0)) ∧
      ((call_events w w1).any (Event.isPushOf MsgId.MLOG_GCS_CMD_ID) = true ↔
        (mcn_poll w.bus.gcs_cmd m2 = true ∨ w.fms.gcs_cmd_updated ≠ 0))) := by
  refine ⟨?_, ?_, ?_⟩
  · obtain ⟨w1, hs, he⟩ := control_step_effect G ts w n1 n2 h1 h2
    refine ⟨w1, hs, ?_⟩
    rw [gated_pushes, ← gated_from_filter, call_events_append w w1 _ he.trace]
    simp only [List.filter_append]
    rw [filter_echo_events _ _ _ (by intro e h; simp at h; tauto)]
    cases (check_timetag w.systime w.controller.timetag_control_output).1 <;>
      simp [apply_ite (List.filter _), Event.isPush, Event.isGateCheck, gated_from]
  · obtain ⟨w1, hs, he⟩ := plant_step_effect G ts w p hp
    refine ⟨w1, hs, ?_⟩
    rw [gated_pushes, ← gated_from_filter, call_events_append w w1 _ he.trace]
    simp only [List.filter_append, filter_sensor_events]
    cases (check_timetag w.systime w.plant.timetag_plant_output).1 <;>
      simp [apply_ite (List.filter _), Event.isPush, Event.isGateCheck, gated_from]
  · obtain ⟨w1, hs, he⟩ := fms_step_effect G ts w m1 m2 m3 m4 k1 k2 k3 k4
    refine ⟨w1, hs, ?_, ?_, ?_⟩
    · rw [gated_pushes, ← gated_from_filter, call_events_append w w1 _ he.trace]
      simp only [List.filter_append, List.filter_filter]
      rw [filter_echo_events _ _ _ (by intro e h; simp at h; tauto)]
      simp only [apply_ite (List.filter _), List.filter_cons, List.filter_nil,
        Event.isPush, Event.isGateCheck, Event.isPushOf]
      simp only [Bool.or_false, Bool.false_or, Bool.or_self, Bool.false_and, Bool.true_and,
        Bool.not_false, Bool.and_true, Bool.false_eq_true, if_false, ite_self, List.append_nil,
        List.nil_append, decide_True, decide_False, reduceCtorEq, Bool.not_true, Bool.true_or,
        Bool.or_true, if_true]
      cases (check_timetag w.systime w.fms.timetag_fms_output).1 <;> simp [gated_from]
    · rw [call_events_append w w1 _ he.trace]
      simp only [List.any_append, any_echo_events]
      simp only [any_ite, List.any_cons, List.any_nil, Event.isPushOf]
      simp
    · rw [call_events_append w w1 _ he.trace]
      simp only [List.any_append, any_echo_events]
      simp only [any_ite, List.any_cons, List.any_nil, Event.isPushOf]
      simp


theorem countP_ite {α : Type} (c : Prop) [Decidable c] (l r : List α) (p : α → Bool) :
    (if c then l else r).countP p = if c then l.countP p else r.countP p := by
  split <;> rfl

theorem countP_echo_events {T : BusTypes} (echo : Option EchoCb)
    (hub : McnHub T.Control_Out_Bus) (id : MsgId) :
    (echo_events echo hub).countP (Event.isPushOf id) = 0 := by
  unfold echo_events
  rcases echo with _ | ⟨_⟩
  · rfl
  · cases mcn_copy_from_hub hub <;> rfl

theorem fms_step_push_count {T : BusTypes} (G : Generated T) (ts : Nat) (w : World T)
    (m1 m2 m3 m4 : McnNode) (w1 : World T) (he : FmsStepEffect G ts w m1 m2 m3 m4 w1) :
    (call_events w w1).countP (Event.isPushOf MsgId.MLOG_PILOT_CMD_ID) =
      (if mcn_poll w.bus.pilot_cmd m1 = true ∨ w.fms.pilot_cmd_updated ≠ 0 then 1 else 0) ∧
    (call_events w w1).countP (Event.isPushOf MsgId.MLOG_GCS_CMD_ID) =
      (if mcn_poll w.bus.gcs_cmd m2 = true ∨ w.fms.gcs_cmd_updated ≠ 0 then 1 else 0) := by
  rw [call_events_append w w1 _ he.trace]
  constructor
  · simp only [List.countP_append, countP_echo_events]
    simp only [countP_ite, List.countP_cons, List.countP_nil, Event.isPushOf]
    simp
  · simp only [List.countP_append, countP_echo_events]
    simp only [countP_ite, List.countP_cons, List.countP_nil, Event.isPushOf]
    simp

/-- Claim C8. One-shot re-send on logging start.  `fms_interface_init` registers
`mlog_start_cb` as a start callback, so a logging start after it sets both
`updated` flags.  After `mlog_start_cb` has run, the next call of
`fms_interface_step` pushes the pilot-command message and the GCS-command
message exactly once each, whether or not `pilot_cmd` or `gcs_cmd` is dirty,
and leaves both flags at 0; a following step (the driver's variables as that
step left them) in which neither input is dirty pushes neither message. -/
theorem start_cb_resends_once {T : BusTypes} (G : Generated T) (ts : Nat) (w : World T)
    (m1 m2 m3 m4 : McnNode)
    (k1 : w.fms.pilot_cmd_nod = some m1) (k2 : w.fms.gcs_cmd_nod = some m2)
    (k3 : w.fms.ins_out_nod = some m3) (k4 : w.fms.control_out_nod = some m4) :
    ((mlog_start (fms_interface_init G w)).fms.pilot_cmd_updated = 1 ∧
      (mlog_start (fms_interface_init G w)).fms.gcs_cmd_updated = 1) ∧
    ∃ w1, fms_interface_step G ts (mlog_start_cb w) = some w1 ∧
      (call_events (mlog_start_cb w) w1).countP
        (Event.isPushOf MsgId.MLOG_PILOT_CMD_ID) = 1 ∧
      (call_events (mlog_start_cb w) w1).countP
        (Event.isPushOf MsgId.MLOG_GCS_CMD_ID) = 1 ∧
      w1.fms.pilot_cmd_updated = 0 ∧ w1.fms.gcs_cmd_updated = 0 ∧
      ∀ (ts1 : Nat) (v : World T) (j1 j2 : McnNode),
        v.fms = w1.fms →
        v.fms.pilot_cmd_nod = some j1 → v.fms.gcs_cmd_nod = some j2 →
        mcn_poll v.bus.pilot_cmd j1 = false → mcn_poll v.bus.gcs_cmd j2 = false →
        ∃ w2, fms_interface_step G ts1 v = some w2 ∧
          (call_events v w2).countP (Event.isPushOf MsgId.MLOG_PILOT_CMD_ID) = 0 ∧
          (call_events v w2).countP (Event.isPushOf MsgId.MLOG_GCS_CMD_ID) = 0 := by
  constructor
  · simp [mlog_start, fms_interface_init, World.emit, fms_update_parameter,
      List.foldl_append, run_start_cb, mlog_start_cb]
  · obtain ⟨w1, hs, he⟩ := fms_step_effect G ts (mlog_start_cb w) m1 m2 m3 m4 k1 k2 k3 k4
    have hc := fms_step_push_count G ts (mlog_start_cb w) m1 m2 m3 m4 w1 he
    refine ⟨w1, hs, ?_, ?_, he.pilot_cmd_updated, he.gcs_cmd_updated, ?_⟩
    · rw [hc.1]; simp [mlog_start_cb]
    · rw [hc.2]; simp [mlog_start_cb]
    · intro ts1 v j1 j2 hv q1 q2 d1 d2
      have q3 := he.ins_out_nod
      have q4 := he.control_out_nod
      rw [← hv] at q3 q4
      obtain ⟨w2, hs2, he2⟩ := fms_step_effect G ts1 v j1 j2 _ _ q1 q2 q3 q4
      have hc2 := fms_step_push_count G ts1 v j1 j2 _ _ w2 he2
      refine ⟨w2, hs2, ?_, ?_⟩
      · rw [hc2.1, hv, he.pilot_cmd_updated, d1]; simp
      · rw [hc2.2, hv, he.gcs_cmd_updated, d2]; simp

/-! ## Initialisation -/

/-- Claim C9 fails as stated.  In the boot state `W_boot` the topic
`control_output` is not advertised, so the subscribe of `plant_interface_init`
returns `NULL`; the failure is logged, and `Plant_init` is invoked all the
same. -/
theorem plant_init_runs_after_failed_subscribe :
    mcn_subscribe W_boot.bus.control_output = none ∧
    call_events W_boot (plant_interface_init G0 W_boot) =
      [Event.mcn_subscribe Topic.control_output Node.plant_control_out_nod false,
       Event.ulog_e "Plant" "uMCN topic control_output subscribe fail!\n",
       Event.Plant_init] ∧
    (call_events W_boot (plant_interface_init G0 W_boot)).any Event.isPlantInit = true :=
  ⟨rfl, rfl, rfl⟩

/-- Claim C9, amended.  If subscribing to `control_output` fails during
`plant_interface_init`, the failure is logged and initialisation proceeds:
the calls of the init are the failed subscribe, the `ulog_e` message and then
`Plant_init`, and `control_out_nod` is left `NULL`. -/
theorem plant_init_logs_and_proceeds {T : BusTypes} (G : Generated T) (w : World T)
    (h : mcn_subscribe w.bus.control_output = none) :
    call_events w (plant_interface_init G w) =
      [Event.mcn_subscribe Topic.control_output Node.plant_control_out_nod false,
       Event.ulog_e "Plant" "uMCN topic control_output subscribe fail!\n",
       Event.Plant_init] ∧
    (plant_interface_init G w).plant.control_out_nod = none := by
  constructor
  · apply call_events_append
    simp [plant_interface_init, World.emit, h]
  · simp [plant_interface_init, World.emit, h]

/-- Claim C10 fails as stated.  From the boot state, neither
`control_interface_init` nor `fms_interface_init` makes a call to
`workqueue_schedule_work`: the number of Work Items they schedule is 0, not
1. -/
theorem init_schedules_no_work_item :
    (call_events W_boot (control_interface_init G0 W_boot)).countP
      Event.isScheduleWork = 0 ∧
    (call_events W_boot (fms_interface_init G0 W_boot)).countP
      Event.isScheduleWork = 0 :=
  ⟨rfl, rfl⟩

/-- Claim C10, amended.  Each of the two inits records the driver's declared
execution period, `control_model_info.period = CONTROL_EXPORT.period` and
`fms_model_info.period = FMS_EXPORT.period`, and schedules no Work Item
itself. -/
theorem init_records_period {T : BusTypes} (G : Generated T) (w : World T) :
    ((control_interface_init G w).controller.control_model_info.period =
        G.CONTROL_EXPORT.period ∧
      (call_events w (control_interface_init G w)).countP Event.isScheduleWork = 0) ∧
    ((fms_interface_init G w).fms.fms_model_info.period = G.FMS_EXPORT.period ∧
      (call_events w (fms_interface_init G w)).countP Event.isScheduleWork = 0) := by
  refine ⟨⟨?_, ?_⟩, ?_, ?_⟩
  · simp [control_interface_init, World.emit, control_update_parameter]
  · rw [call_events_append w _
      [Event.mcn_advertise Topic.control_output,
       Event.mcn_subscribe Topic.fms_output Node.controller_fms_out_nod
         (mcn_subscribe w.bus.fms_output).isSome,
       Event.mcn_subscribe Topic.ins_output Node.controller_ins_out_nod
         (mcn_subscribe w.bus.ins_output).isSome,
       Event.Controller_init]
      (by simp [control_interface_init, World.emit, control_update_parameter])]
    rfl
  · simp [fms_interface_init, World.emit, fms_update_parameter]
  · rw [call_events_append w _
      [Event.mcn_advertise Topic.fms_output,
       Event.mcn_subscribe Topic.pilot_cmd Node.fms_pilot_cmd_nod
         (mcn_subscribe w.bus.pilot_cmd).isSome,
       Event.mcn_subscribe Topic.gcs_cmd Node.fms_gcs_cmd_nod
         (mcn_subscribe w.bus.gcs_cmd).isSome,
       Event.mcn_subscribe Topic.ins_output Node.fms_ins_out_nod
         (mcn_subscribe w.bus.ins_output).isSome,
       Event.mcn_subscribe Topic.control_output Node.fms_control_out_nod
         (mcn_subscribe w.bus.control_output).isSome,
       Event.mlog_register_callback StartCb.fms_mlog_start_cb,
       Event.FMS_init]
      (by simp [fms_interface_init, World.emit, fms_update_parameter, mcn_advertise])]
    rfl


/-! ## The theorems at concrete states -/

/-- C1 at `W_fed`: the FMS output is dirty and copied (42), the INS output is
not polled dirty and keeps its value (0). -/
theorem control_step_copies_iff_dirty_witness :
    (W_fed.controller.fms_out_nod = some { last_read := 0 } ∧
      W_fed.controller.ins_out_nod = some { last_read := 0 }) ∧
    ∃ w1 u rest, control_interface_step G0 0 W_fed = some w1 ∧
      call_events W_fed w1 =
        [Event.mcn_poll Node.controller_fms_out_nod true,
         Event.mcn_copy Topic.fms_output Node.controller_fms_out_nod Status.OK,
         Event.mcn_poll Node.controller_ins_out_nod false,
         Event.Controller_step u] ++ rest ∧
      u.FMS_Out = (42 : Nat) ∧ u.INS_Out = (0 : Nat) := by
  refine ⟨⟨rfl, rfl⟩, ?_⟩
  obtain ⟨w1, u, rest, hs, hev, _, _, hI, hF, _⟩ :=
    control_step_copies_iff_dirty G0 0 W_fed { last_read := 0 } { last_read := 0 } rfl rfl
  exact ⟨w1, u, rest, hs, hev, hF rfl, hI rfl⟩

/-- C2 at `W_fed`. -/
theorem step_then_publish_once_witness :
    (W_fed.controller.fms_out_nod = some { last_read := 0 } ∧
      W_fed.controller.ins_out_nod = some { last_read := 0 } ∧
      W_fed.fms.pilot_cmd_nod = some { last_read := 0 } ∧
      W_fed.fms.gcs_cmd_nod = some { last_read := 0 } ∧
      W_fed.fms.ins_out_nod = some { last_read := 0 } ∧
      W_fed.fms.control_out_nod = some { last_read := 0 }) ∧
    (∃ w1 u, control_interface_step G0 0 W_fed = some w1 ∧
      (call_events W_fed w1).filter (fun e => e.isModelStep || e.isPublish) =
        [Event.Controller_step u,
         Event.mcn_publish Topic.control_output
           (Payload.control_out w1.controller.Controller_Y.Control_Out)]) ∧
    (∃ w1 u, fms_interface_step G0 0 W_fed = some w1 ∧
      (call_events W_fed w1).filter (fun e => e.isModelStep || e.isPublish) =
        [Event.FMS_step u,
         Event.mcn_publish Topic.fms_output (Payload.fms_out w1.fms.FMS_Y.FMS_Out)]) := by
  refine ⟨⟨rfl, rfl, rfl, rfl, rfl, rfl⟩, ?_⟩
  obtain ⟨⟨w1, u, hs, hf, _⟩, ⟨w2, u2, hs2, hf2, _⟩⟩ :=
    step_then_publish_once G0 0 W_fed { last_read := 0 } { last_read := 0 }
      { last_read := 0 } { last_read := 0 } { last_read := 0 } { last_read := 0 }
      rfl rfl rfl rfl rfl rfl
  exact ⟨⟨w1, u, hs, hf⟩, ⟨w2, u2, hs2, hf2⟩⟩

/-- C3 at `W_fed`: the controller publishes 49 (42 + 0 + 7); the FMS step and
the plant step that follow read 49. -/
theorem bus_round_trip_witness :
    (W_fed.controller.fms_out_nod = some { last_read := 0 } ∧
      W_fed.controller.ins_out_nod = some { last_read := 0 }) ∧
    ∃ w1 w2 w3, control_interface_step G0 0 W_fed = some w1 ∧
      fms_interface_step G0 1 w1 = some w2 ∧ plant_interface_step G0 1 w1 = some w3 ∧
      w1.controller.Controller_Y.Control_Out = (49 : Nat) ∧
      w2.fms.FMS_U.Control_Out = (49 : Nat) ∧ w3.plant.Plant_U.Control_Out = (49 : Nat) := by
  refine ⟨⟨rfl, rfl⟩, ?_⟩
  obtain ⟨_, w1, hs, hf, hpl⟩ :=
    bus_round_trip G0 0 W_fed { last_read := 0 } { last_read := 0 } rfl rfl
  have hw : w1 = (control_interface_step G0 0 W_fed).get rfl := by
    apply Option.some.inj
    rw [← hs, Option.some_get]
  subst hw
  obtain ⟨w2, hs2, h2⟩ := hf 1 _ { last_read := 0 } { last_read := 0 } { last_read := 0 }
    { last_read := 0 } rfl rfl rfl rfl rfl (by decide)
  obtain ⟨w3, hs3, h3⟩ := hpl 1 _ { last_read := 0 } rfl rfl (by decide)
  exact ⟨_, w2, w3, hs, hs2, hs3, rfl, h2, h3⟩

/-- C4 on a freshly advertised hub: polls before any publish answer false. -/
theorem dirty_flag_witness :
    mcn_subscribe (hub_ready Nat) = some { last_read := 0 } ∧
    ∀ b ∈ Subscription.answers
      { hub := hub_ready Nat, node := { last_read := 0 }, buffer := 0 }
      [BusOp.poll, BusOp.copy, BusOp.poll], b = false :=
  ⟨rfl, (dirty_flag (hub_ready Nat) { last_read := 0 } 0 rfl).1
    [BusOp.poll, BusOp.copy, BusOp.poll] (by simp [BusOp.isPublish])⟩

/-- C5 at `W_run`: the clock is at 5 and the gate last fired at 0, so the gate
does not fire and nothing is pushed. -/
theorem control_log_iff_gate_witness :
    (W_run.controller.fms_out_nod = some { last_read := 0 } ∧
      W_run.controller.ins_out_nod = some { last_read := 0 } ∧
      W_run.controller.timetag_control_output.period = 100) ∧
    ∃ w1, control_interface_step G0 0 W_run = some w1 ∧
      (call_events W_run w1).filter (fun e => e.isPublish || e.isGateCheck || e.isPush) =
        [Event.mcn_publish Topic.control_output
           (Payload.control_out w1.controller.Controller_Y.Control_Out),
         Event.check_timetag Gate.control_output 100 false] := by
  refine ⟨⟨rfl, rfl, rfl⟩, ?_⟩
  obtain ⟨w1, hs, hf, _⟩ :=
    control_log_iff_gate G0 0 W_run { last_read := 0 } { last_read := 0 } rfl rfl rfl
  exact ⟨w1, hs, hf⟩

/-- C6 at `W_run`, for 250 ticks. -/
theorem gate_throttling_witness :
    (W_run.controller.fms_out_nod = some { last_read := 0 } ∧
      W_run.controller.ins_out_nod = some { last_read := 0 } ∧
      W_run.controller.timetag_control_output.period = 100) ∧
    (∀ (gate : TimeTag) (now : Nat), gate_fires (10 * gate.period) gate now ≤ 10) ∧
    ∃ times, control_push_times G0 250 W_run = some times ∧
      times.Pairwise (fun a b => a + 100 ≤ b) :=
  ⟨⟨rfl, rfl, rfl⟩,
    gate_throttling G0 250 W_run { last_read := 0 } { last_read := 0 } rfl rfl rfl⟩

/-- C7 (amended) at `W_run`. -/
theorem pushes_gated_or_flagged_witness :
    (W_run.controller.fms_out_nod = some { last_read := 0 } ∧
      W_run.controller.ins_out_nod = some { last_read := 0 } ∧
      W_run.fms.pilot_cmd_nod = some { last_read := 0 } ∧
      W_run.fms.gcs_cmd_nod = some { last_read := 0 } ∧
      W_run.fms.ins_out_nod = some { last_read := 0 } ∧
      W_run.fms.control_out_nod = some { last_read := 0 } ∧
      W_run.plant.control_out_nod = some { last_read := 0 }) ∧
    (∃ w1, control_interface_step G0 0 W_run = some w1 ∧
      gated_pushes (call_events W_run w1) = true) ∧
    (∃ w1, plant_interface_step G0 0 W_run = some w1 ∧
      gated_pushes (call_events W_run w1) = true) ∧
    (∃ w1, fms_interface_step G0 0 W_run = some w1 ∧
      (call_events W_run w1).any (Event.isPushOf MsgId.MLOG_PILOT_CMD_ID) = true) := by
  refine ⟨⟨rfl, rfl, rfl, rfl, rfl, rfl, rfl⟩, ?_⟩
  obtain ⟨hc, hpl, w1, hs, _, hpilot, _⟩ :=
    pushes_gated_or_flagged G0 0 W_run { last_read := 0 } { last_read := 0 }
      { last_read := 0 } { last_read := 0 } { last_read := 0 } { last_read := 0 }
      { last_read := 0 } rfl rfl rfl rfl rfl rfl rfl
  exact ⟨hc, hpl, w1, hs, hpilot.2 (Or.inr (by decide))⟩

/-- C8 at `W_run`: nothing is dirty, and both commands are pushed once. -/
theorem start_cb_resends_once_witness :
    (W_run.fms.pilot_cmd_nod = some { last_read := 0 } ∧
      W_run.fms.gcs_cmd_nod = some { last_read := 0 } ∧
      W_run.fms.ins_out_nod = some { last_read := 0 } ∧
      W_run.fms.control_out_nod = some { last_read := 0 }) ∧
    ∃ w1, fms_interface_step G0 0 (mlog_start_cb W_run) = some w1 ∧
      (call_events (mlog_start_cb W_run) w1).countP
        (Event.isPushOf MsgId.MLOG_PILOT_CMD_ID) = 1 ∧
      (call_events (mlog_start_cb W_run) w1).countP
        (Event.isPushOf MsgId.MLOG_GCS_CMD_ID) = 1 ∧
      w1.fms.pilot_cmd_updated = 0 ∧ w1.fms.gcs_cmd_updated = 0 := by
  refine ⟨⟨rfl, rfl, rfl, rfl⟩, ?_⟩
  obtain ⟨_, w1, hs, hp, hg, f1, f2, _⟩ :=
    start_cb_resends_once G0 0 W_run { last_read := 0 } { last_read := 0 }
      { last_read := 0 } { last_read := 0 } rfl rfl rfl rfl
  exact ⟨w1, hs, hp, hg, f1, f2⟩

/-- C9 (amended) at `W_boot`, where `control_output` is not advertised. -/
theorem plant_init_logs_and_proceeds_witness :
    mcn_subscribe W_boot.bus.control_output = none ∧
    call_events W_boot (plant_interface_init G0 W_boot) =
      [Event.mcn_subscribe Topic.control_output Node.plant_control_out_nod false,
       Event.ulog_e "Plant" "uMCN topic control_output subscribe fail!\n",
       Event.Plant_init] ∧
    (plant_interface_init G0 W_boot).plant.control_out_nod = none :=
  ⟨rfl, plant_init_logs_and_proceeds G0 W_boot rfl⟩




/-! ## Timestamps of the FMS inputs -/

/-- Claim C13. In every call of `fms_interface_step timestamp` (nodes
non-`NULL`), with `u` the input record `FMS_step` is invoked with: when the
poll of `pilot_cmd_nod` returned true, `u.Pilot_Cmd.timestamp` is the step's
`timestamp` argument, whatever timestamp the published record carried, and the
other fields of `u.Pilot_Cmd` are those of the record copied from the topic;
when the poll returned false, `u.Pilot_Cmd` is the record held on entry,
timestamp included.  The same holds for `gcs_cmd_nod` and `u.GCS_Cmd`.
`u.INS_Out` and `u.Control_Out` are the records copied, unchanged, when their
poll returned true, and the records held on entry otherwise. -/
theorem fms_step_stamps_commands {T : BusTypes} (G : Generated T) (timestamp : Nat)
    (w : World T) (m1 m2 m3 m4 : McnNode)
    (k1 : w.fms.pilot_cmd_nod = some m1) (k2 : w.fms.gcs_cmd_nod = some m2)
    (k3 : w.fms.ins_out_nod = some m3) (k4 : w.fms.control_out_nod = some m4) :
    ∃ w1 u, fms_interface_step G timestamp w = some w1 ∧
      (call_events w w1).filter Event.isModelStep = [Event.FMS_step u] ∧
      (mcn_poll w.bus.pilot_cmd m1 = true →
        u.Pilot_Cmd.timestamp = timestamp ∧
        u.Pilot_Cmd.fields = (mcn_copy w.bus.pilot_cmd m1 w.fms.FMS_U.Pilot_Cmd).2.2.fields ∧
        ∀ p, w.bus.pilot_cmd.payload = some p → u.Pilot_Cmd.fields = p.fields) ∧
      (mcn_poll w.bus.pilot_cmd m1 = false → u.Pilot_Cmd = w.fms.FMS_U.Pilot_Cmd) ∧
      (mcn_poll w.bus.gcs_cmd m2 = true →
        u.GCS_Cmd.timestamp = timestamp ∧
        u.GCS_Cmd.fields = (mcn_copy w.bus.gcs_cmd m2 w.fms.FMS_U.GCS_Cmd).2.2.fields ∧
        ∀ p, w.bus.gcs_cmd.payload = some p → u.GCS_Cmd.fields = p.fields) ∧
      (mcn_poll w.bus.gcs_cmd m2 = false → u.GCS_Cmd = w.fms.FMS_U.GCS_Cmd) ∧
      u.INS_Out = (if mcn_poll w.bus.ins_output m3 then
        (mcn_copy w.bus.ins_output m3 w.fms.FMS_U.INS_Out).2.2 else w.fms.FMS_U.INS_Out) ∧
      u.Control_Out = (if mcn_poll w.bus.control_output m4 then
        (mcn_copy w.bus.control_output m4 w.fms.FMS_U.Control_Out).2.2
        else w.fms.FMS_U.Control_Out) ∧
      (∀ p, w.bus.ins_output.payload = some p → mcn_poll w.bus.ins_output m3 = true →
        u.INS_Out = p) ∧
      (∀ p, w.bus.control_output.payload = some p →
        mcn_poll w.bus.control_output m4 = true → u.Control_Out = p) := by
  obtain ⟨w1, hs, he⟩ := fms_step_effect G timestamp w m1 m2 m3 m4 k1 k2 k3 k4
  refine ⟨w1, w1.fms.FMS_U, hs, ?_, ?_, ?_, ?_, ?_, he.INS_Out, he.Control_Out, ?_, ?_⟩
  · rw [call_events_append w w1 _ he.trace]
    simp only [List.filter_append]
    rw [filter_echo_events _ _ _ (fun e h => Or.inr (Or.inl h))]
    simp only [apply_ite (List.filter _), List.filter_cons, List.filter_nil,
      Event.isModelStep]
    simp
  · intro d
    rw [he.Pilot_Cmd, d]
    refine ⟨rfl, rfl, ?_⟩
    intro p hp
    simp [mcn_copy, hp]
  · intro d; rw [he.Pilot_Cmd, d]; simp
  · intro d
    rw [he.GCS_Cmd, d]
    refine ⟨rfl, rfl, ?_⟩
    intro p hp
    simp [mcn_copy, hp]
  · intro d; rw [he.GCS_Cmd, d]; simp
  · intro p hp d
    rw [he.INS_Out, d]
    simp [mcn_copy, hp]
  · intro p hp d
    rw [he.Control_Out, d]
    simp [mcn_copy, hp]


/-! ## Ignoring the status of a copy -/

theorem wf_MCN_DEFINE (α : Type) : (MCN_DEFINE α).wf := by
  intro _; rfl

theorem wf_mcn_advertise {α : Type} (hub : McnHub α) (echo : Option EchoCb) (h : hub.wf) :
    (mcn_advertise hub echo).wf := by
  unfold mcn_advertise
  split
  · exact h
  · intro _; rfl

theorem wf_mcn_publish {α : Type} (hub : McnHub α) (data : α) : (mcn_publish hub data).wf := by
  intro h; simp [mcn_publish] at h

theorem copy_of_dirty {α : Type} (hub : McnHub α) (node : McnNode) (buffer : α)
    (h : hub.wf) (d : mcn_poll hub node = true) :
    (mcn_copy hub node buffer).1 = Status.OK ∧
      mcn_poll hub (mcn_copy hub node buffer).2.1 = false := by
  simp only [mcn_poll, decide_eq_true_eq] at d
  cases hp : hub.payload with
  | none => have := h hp; omega
  | some p => simp [mcn_copy, hp, mcn_poll]

theorem clean_after_read {α : Type} (hub : McnHub α) (node : McnNode) (buffer : α)
    (h : hub.wf) :
    mcn_poll hub (if mcn_poll hub node = true then (mcn_copy hub node buffer).2.1 else node) =
      false := by
  by_cases d : mcn_poll hub node = true
  · rw [if_pos d]; exact (copy_of_dirty hub node buffer h d).2
  · rw [if_neg d]; simpa using d

theorem no_stale_copy {T : BusTypes} {α : Type} (hub : McnHub α) (node : McnNode)
    (buffer : α) (h : hub.wf) (t : Topic) (nd : Node) :
    (if mcn_poll hub node = true then
        [(Event.mcn_copy t nd (mcn_copy hub node buffer).1 : Event T)] else []).any
      Event.isStaleCopy = false := by
  by_cases d : mcn_poll hub node = true
  · rw [if_pos d, (copy_of_dirty hub node buffer h d).1]; rfl
  · rw [if_neg d]; rfl

theorem any_stale_echo_events {T : BusTypes} (echo : Option EchoCb)
    (hub : McnHub T.Control_Out_Bus) :
    (echo_events echo hub).any Event.isStaleCopy = false := by
  unfold echo_events
  rcases echo with _ | ⟨_⟩
  · rfl
  · cases mcn_copy_from_hub hub <;> rfl

theorem any_stale_sensor_events {T : BusTypes} (G : Generated T) (ts : Nat) (bus : Bus T)
    (v : PlantVars T) (Y : ExtY_Plant_T T) :
    (sensor_events G ts bus v Y).any Event.isStaleCopy = false := by
  unfold sensor_events
  simp only [List.any_append, any_ite, any_stale_echo_events, List.any_cons, List.any_nil,
    Event.isStaleCopy, Bool.or_false, ite_self]

/-- Claim C14. On the bus: the hub reserved by `MCN_DEFINE` is well formed
(nothing published means version 0), and `mcn_advertise` and `mcn_publish` keep
hubs well formed; on a well-formed hub, whenever `mcn_poll(node)` returns true
the `mcn_copy` on that node that follows returns `OK`, not `Stale`, and
`mcn_poll` of the node is false after it.  On the drivers (nodes non-`NULL`,
input hubs well formed): no `mcn_copy` made by `control_interface_step`,
`fms_interface_step` or `plant_interface_step` returns `Stale`, and when the
step returns none of the driver's input nodes is dirty. -/
theorem copy_status_can_be_ignored {T : BusTypes} (G : Generated T) (ts : Nat)
    (w : World T) (n1 n2 m1 m2 m3 m4 p : McnNode)
    (h1 : w.controller.fms_out_nod = some n1) (h2 : w.controller.ins_out_nod = some n2)
    (k1 : w.fms.pilot_cmd_nod = some m1) (k2 : w.fms.gcs_cmd_nod = some m2)
    (k3 : w.fms.ins_out_nod = some m3) (k4 : w.fms.control_out_nod = some m4)
    (hp : w.plant.control_out_nod = some p)
    (wf1 : w.bus.pilot_cmd.wf) (wf2 : w.bus.gcs_cmd.wf) (wf3 : w.bus.ins_output.wf)
    (wf4 : w.bus.fms_output.wf) (wf5 : w.bus.control_output.wf) :
    ((∀ α : Type, (MCN_DEFINE α).wf) ∧
      (∀ (α : Type) (hub : McnHub α) (echo : Option EchoCb),
        hub.wf → (mcn_advertise hub echo).wf) ∧
      (∀ (α : Type) (hub : McnHub α) (data : α), (mcn_publish hub data).wf) ∧
      (∀ (α : Type) (hub : McnHub α) (node : McnNode) (buffer : α),
        hub.wf → mcn_poll hub node = true →
        (mcn_copy hub node buffer).1 ≠ Status.Stale ∧
        mcn_poll hub (mcn_copy hub node buffer).2.1 = false)) ∧
    (∃ w1 a b, control_interface_step G ts w = some w1 ∧
      (call_events w w1).any Event.isStaleCopy = false ∧
      w1.controller.fms_out_nod = some a ∧ w1.controller.ins_out_nod = some b ∧
      mcn_poll w1.bus.fms_output a = false ∧ mcn_poll w1.bus.ins_output b = false) ∧
    (∃ w1 a b c d, fms_interface_step G ts w = some w1 ∧
      (call_events w w1).any Event.isStaleCopy = false ∧
      w1.fms.pilot_cmd_nod = some a ∧ w1.fms.gcs_cmd_nod = some b ∧
      w1.fms.ins_out_nod = some c ∧ w1.fms.control_out_nod = some d ∧
      mcn_poll w1.bus.pilot_cmd a = false ∧ mcn_poll w1.bus.gcs_cmd b = false ∧
      mcn_poll w1.bus.ins_output c = false ∧ mcn_poll w1.bus.control_output d = false) ∧
    (∃ w1 a, plant_interface_step G ts w = some w1 ∧
      (call_events w w1).any Event.isStaleCopy = false ∧
      w1.plant.control_out_nod = some a ∧
      mcn_poll w1.bus.control_output a = false) := by
  refine ⟨⟨wf_MCN_DEFINE, fun α hub echo => wf_mcn_advertise hub echo,
    fun α hub data => wf_mcn_publish hub data, ?_⟩, ?_, ?_, ?_⟩
  · intro α hub node buffer hwf d
    have := copy_of_dirty hub node buffer hwf d
    exact ⟨by rw [this.1]; decide, this.2⟩
  · obtain ⟨w1, hs, he⟩ := control_step_effect G ts w n1 n2 h1 h2
    refine ⟨w1, _, _, hs, ?_, he.fms_out_nod, he.ins_out_nod, ?_, ?_⟩
    · rw [call_events_append w w1 _ he.trace]
      simp only [List.any_append, no_stale_copy _ _ _ wf4, no_stale_copy _ _ _ wf3,
        any_stale_echo_events, any_ite, List.any_cons, List.any_nil, Event.isStaleCopy,
        Bool.or_false, ite_self]
    · rw [he.bus]; exact clean_after_read _ _ _ wf4
    · rw [he.bus]; exact clean_after_read _ _ _ wf3
  · obtain ⟨w1, hs, he⟩ := fms_step_effect G ts w m1 m2 m3 m4 k1 k2 k3 k4
    refine ⟨w1, _, _, _, _, hs, ?_, he.pilot_cmd_nod, he.gcs_cmd_nod, he.ins_out_nod,
      he.control_out_nod, ?_, ?_, ?_, ?_⟩
    · rw [call_events_append w w1 _ he.trace]
      simp only [List.any_append, no_stale_copy _ _ _ wf1, no_stale_copy _ _ _ wf2,
        no_stale_copy _ _ _ wf3, no_stale_copy _ _ _ wf5,
        any_stale_echo_events, any_ite, List.any_cons, List.any_nil, Event.isStaleCopy,
        Bool.or_false, ite_self]
    · rw [he.bus]; exact clean_after_read _ _ _ wf1
    · rw [he.bus]; exact clean_after_read _ _ _ wf2
    · rw [he.bus]; exact clean_after_read _ _ _ wf3
    · rw [he.bus]; exact clean_after_read _ _ _ wf5
  · obtain ⟨w1, hs, he⟩ := plant_step_effect G ts w p hp
    refine ⟨w1, _, hs, ?_, he.control_out_nod, ?_⟩
    · rw [call_events_append w w1 _ he.trace]
      simp only [List.any_append, no_stale_copy _ _ _ wf5, any_stale_sensor_events,
        any_ite, List.any_cons, List.any_nil, Event.isStaleCopy, Bool.or_false, ite_self]
    · rw [he.bus]; exact clean_after_read _ _ _ wf5


/-! ## Sensor reports of the plant -/

theorem filter_publish_to_echo_events {T : BusTypes} (echo : Option EchoCb)
    (hub : McnHub T.Control_Out_Bus) (t : Topic) :
    (echo_events echo hub).filter (Event.isPublishTo t) = [] := by
  unfold echo_events
  rcases echo with _ | ⟨_⟩
  · rfl
  · cases mcn_copy_from_hub hub <;> rfl

theorem sensor_events_publish_to {T : BusTypes} (G : Generated T) (ts : Nat) (bus : Bus T)
    (v : PlantVars T) (Y : ExtY_Plant_T T) :
    ((sensor_events G ts bus v Y).filter (Event.isPublishTo Topic.sensor_imu0) =
      if Y.IMU.timestamp ≠ v.imu_timestamp then
        [Event.mcn_publish Topic.sensor_imu0 (Payload.imu (imu_report ts Y.IMU))]
      else []) ∧
    ((sensor_events G ts bus v Y).filter (Event.isPublishTo Topic.sensor_mag0) =
      if Y.MAG.timestamp ≠ v.mag_timestamp then
        [Event.mcn_publish Topic.sensor_mag0 (Payload.mag (mag_report ts Y.MAG))]
      else []) ∧
    ((sensor_events G ts bus v Y).filter (Event.isPublishTo Topic.sensor_baro) =
      if Y.Barometer.timestamp ≠ v.baro_timestamp then
        [Event.mcn_publish Topic.sensor_baro (Payload.baro (baro_report ts Y.Barometer))]
      else []) ∧
    ((sensor_events G ts bus v Y).filter (Event.isPublishTo Topic.sensor_gps) =
      if Y.GPS.timestamp ≠ v.gps_timestamp then
        [Event.mcn_publish Topic.sensor_gps (Payload.gps (gps_report G ts Y.GPS))]
      else []) := by
  unfold sensor_events
  simp only [List.filter_append, apply_ite (List.filter _), List.filter_nil,
    filter_publish_to_echo_events]
  simp only [List.filter_cons, Event.isPublishTo, reduceCtorEq, decide_False, decide_True,
    Bool.false_eq_true, if_false, if_true, ite_self, List.append_nil, List.nil_append]
  simp

/-- Claim C15. For every call of `publish_sensor_data timestamp` and each of
the four sensors independently: a report is published to the sensor's topic
exactly when the plant output's timestamp for that sensor differs from the
recorded one, and the report published carries `timestamp_ms = timestamp`, the
argument of the call, next to the plant's readings; after the call the
recorded timestamps are the plant's, and the plant outputs are untouched.  So
a further call while the plant's variables are as the first call left them
publishes nothing.  The recorded timestamps start at `0xFFFF`: in the boot
state with a first IMU sample of timestamp 65535 no IMU report is published,
while the magnetometer report (timestamp 0) is. -/
theorem sensor_dedup {T : BusTypes} (G : Generated T) (timestamp : Nat) (w : World T) :
    ((call_events w (publish_sensor_data G timestamp w)).filter
        (Event.isPublishTo Topic.sensor_imu0) =
      (if w.plant.Plant_Y.IMU.timestamp ≠ w.plant.imu_timestamp then
        [Event.mcn_publish Topic.sensor_imu0
          (Payload.imu (imu_report timestamp w.plant.Plant_Y.IMU))]
       else []) ∧
     (call_events w (publish_sensor_data G timestamp w)).filter
        (Event.isPublishTo Topic.sensor_mag0) =
      (if w.plant.Plant_Y.MAG.timestamp ≠ w.plant.mag_timestamp then
        [Event.mcn_publish Topic.sensor_mag0
          (Payload.mag (mag_report timestamp w.plant.Plant_Y.MAG))]
       else []) ∧
     (call_events w (publish_sensor_data G timestamp w)).filter
        (Event.isPublishTo Topic.sensor_baro) =
      (if w.plant.Plant_Y.Barometer.timestamp ≠ w.plant.baro_timestamp then
        [Event.mcn_publish Topic.sensor_baro
          (Payload.baro (baro_report timestamp w.plant.Plant_Y.Barometer))]
       else []) ∧
     (call_events w (publish_sensor_data G timestamp w)).filter
        (Event.isPublishTo Topic.sensor_gps) =
      (if w.plant.Plant_Y.GPS.timestamp ≠ w.plant.gps_timestamp then
        [Event.mcn_publish Topic.sensor_gps
          (Payload.gps (gps_report G timestamp w.plant.Plant_Y.GPS))]
       else [])) ∧
    ((imu_report timestamp w.plant.Plant_Y.IMU).timestamp_ms = timestamp ∧
     (mag_report timestamp w.plant.Plant_Y.MAG).timestamp_ms = timestamp ∧
     (baro_report timestamp w.plant.Plant_Y.Barometer).timestamp_ms = timestamp ∧
     (gps_report G timestamp w.plant.Plant_Y.GPS).timestamp_ms = timestamp) ∧
    ((publish_sensor_data G timestamp w).plant.imu_timestamp =
        w.plant.Plant_Y.IMU.timestamp ∧
     (publish_sensor_data G timestamp w).plant.mag_timestamp =
        w.plant.Plant_Y.MAG.timestamp ∧
     (publish_sensor_data G timestamp w).plant.baro_timestamp =
        w.plant.Plant_Y.Barometer.timestamp ∧
     (publish_sensor_data G timestamp w).plant.gps_timestamp =
        w.plant.Plant_Y.GPS.timestamp ∧
     (publish_sensor_data G timestamp w).plant.Plant_Y = w.plant.Plant_Y) ∧
    (∀ (timestamp2 : Nat) (v : World T),
      v.plant = (publish_sensor_data G timestamp w).plant →
      (call_events v (publish_sensor_data G timestamp2 v)).filter Event.isPublish = []) ∧
    (W_boot.plant.imu_timestamp = 0xFFFF ∧ W_boot.plant.mag_timestamp = 0xFFFF ∧
     W_boot.plant.baro_timestamp = 0xFFFF ∧ W_boot.plant.gps_timestamp = 0xFFFF ∧
     (call_events W_imu_65535 (publish_sensor_data G0 7 W_imu_65535)).filter
        (Event.isPublishTo Topic.sensor_imu0) = [] ∧
     (call_events W_imu_65535 (publish_sensor_data G0 7 W_imu_65535)).filter
        (Event.isPublishTo Topic.sensor_mag0) =
      [Event.mcn_publish Topic.sensor_mag0 (Payload.mag (mag_report 7 Y0.MAG))]) := by
  have hev : call_events w (publish_sensor_data G timestamp w) =
      sensor_events G timestamp w.bus w.plant w.plant.Plant_Y :=
    call_events_append _ _ _ (by rw [publish_sensor_data_eq])
  refine ⟨?_, ⟨rfl, rfl, rfl, rfl⟩, ?_, ?_, ⟨rfl, rfl, rfl, rfl, rfl, rfl⟩⟩
  · rw [hev]
    exact sensor_events_publish_to G timestamp w.bus w.plant w.plant.Plant_Y
  · rw [publish_sensor_data_eq]
    exact ⟨rfl, rfl, rfl, rfl, rfl⟩
  · intro timestamp2 v hv
    have hev2 : call_events v (publish_sensor_data G timestamp2 v) =
        sensor_events G timestamp2 v.bus v.plant v.plant.Plant_Y :=
      call_events_append _ _ _ (by rw [publish_sensor_data_eq])
    rw [hev2, hv, publish_sensor_data_eq]
    unfold sensor_events
    simp


/-! ## board/led.c -/

theorem led_calls_append {E : LedEnv} (s s1 : LedState E) (cs : List LedCall)
    (h : s1.trace = s.trace ++ cs) : led_calls s s1 = cs := by
  simp [led_calls, h]

theorem to_uint32_of_range (x : Int) (h0 : 0 ≤ x) (h1 : x ≤ 16) :
    to_uint32 x = x.toNat ∧ ((to_uint32 x : Nat) : Int) = x ∧ to_uint32 x ≤ 16 := by
  have hx : x % 4294967296 = x := Int.emod_eq_of_lt h0 (by omega)
  unfold to_uint32
  rw [hx]
  refine ⟨rfl, ?_, ?_⟩ <;> omega

theorem initial_breathing {E : LedEnv} (s : LedState E) (h : s.initial) : s.breathing := by
  obtain ⟨hb, hi, hmax, hmin, _⟩ := h
  refine ⟨hmax, hmin, ?_, ?_, ?_⟩ <;> omega

theorem rgb_led_set_bright_snd {E : LedEnv} (bright : Nat) (s : LedState E) :
    (rgb_led_set_bright bright s).2 =
      { s with
        hw := (E.rt_device_control s.hw E.NCP5623_CMD_SET_BRIGHT bright).2,
        trace := s.trace ++ [LedCall.rt_device_control E.NCP5623_CMD_SET_BRIGHT bright
          (E.rt_device_control s.hw E.NCP5623_CMD_SET_BRIGHT bright).1] } := by
  unfold rgb_led_set_bright
  simp only [LedState.emit]
  split <;> rfl

theorem rgb_led_set_color_snd {E : LedEnv} (color : Nat) (s : LedState E) :
    (rgb_led_set_color color s).2 =
      { s with
        hw := (E.rt_device_control s.hw E.NCP5623_CMD_SET_COLOR color).2,
        trace := s.trace ++ [LedCall.rt_device_control E.NCP5623_CMD_SET_COLOR color
          (E.rt_device_control s.hw E.NCP5623_CMD_SET_COLOR color).1] } := by
  unfold rgb_led_set_color
  simp only [LedState.emit]
  split <;> rfl

theorem run_rgb_led_eq {E : LedEnv} (s : LedState E) (fired : Bool) (per : Nat)
    (hper : per = if s.bright ≤ s.min_bright then 150
      else if s.bright ≥ s.max_bright then 250 else 50)
    (hf : (check_timetag s.systime { s.timetag_rgb_led with period := per }).1 = fired)
    (i1 : Int) (hi : i1 = if s.bright ≥ s.max_bright then -1
      else if s.bright ≤ s.min_bright then 1 else s.inc) :
    run_rgb_led s =
      if fired then
        { s with
          hw := (E.rt_device_control s.hw E.NCP5623_CMD_SET_BRIGHT
            (to_uint32 (s.bright + i1))).2,
          bright := s.bright + i1,
          inc := i1,
          timetag_rgb_led :=
            (check_timetag s.systime { s.timetag_rgb_led with period := per }).2,
          trace := s.trace ++
            [LedCall.check_timetag per true,
             LedCall.rt_device_control E.NCP5623_CMD_SET_BRIGHT (to_uint32 (s.bright + i1))
               (E.rt_device_control s.hw E.NCP5623_CMD_SET_BRIGHT
                 (to_uint32 (s.bright + i1))).1] }
      else
        { s with
          timetag_rgb_led :=
            (check_timetag s.systime { s.timetag_rgb_led with period := per }).2,
          trace := s.trace ++ [LedCall.check_timetag per false] } := by
  subst hper hi
  unfold run_rgb_led
  simp only [rgb_led_set_bright_snd, LedState.emit]
  cases fired <;> by_cases h1 : s.bright ≤ s.min_bright <;>
    by_cases h2 : s.bright ≥ s.max_bright <;>
    (simp only [h1, h2, if_true, if_false] at hf ⊢; simp [hf])

/-- One call of `run_rgb_led` from a state that satisfies the invariant. -/
theorem run_rgb_led_step {E : LedEnv} (s : LedState E) (h : s.breathing) :
    (run_rgb_led s).breathing ∧
    ((∃ period, (run_rgb_led s).trace = s.trace ++ [LedCall.check_timetag period false] ∧
        (run_rgb_led s).bright = s.bright ∧ (run_rgb_led s).inc = s.inc) ∨
     (∃ period ret,
        (run_rgb_led s).trace = s.trace ++
          [LedCall.check_timetag period true,
           LedCall.rt_device_control E.NCP5623_CMD_SET_BRIGHT
             (run_rgb_led s).bright.toNat ret] ∧
        (((run_rgb_led s).bright.toNat : Nat) : Int) = (run_rgb_led s).bright ∧
        (run_rgb_led s).bright.toNat ≤ 16 ∧
        (run_rgb_led s).bright =
          (if s.bright = 0 then 1 else if s.bright = 16 then 15 else s.bright + s.inc) ∧
        ((run_rgb_led s).bright = s.bright + 1 ∨ (run_rgb_led s).bright = s.bright - 1) ∧
        (0 < s.bright → s.bright < 16 → (run_rgb_led s).inc = s.inc))) := by
  obtain ⟨hmax, hmin, h0, h16, hinc⟩ := h
  have e := run_rgb_led_eq s _ _ rfl rfl _ rfl
  generalize hi1 : (if s.bright ≥ s.max_bright then (-1 : Int)
    else if s.bright ≤ s.min_bright then 1 else s.inc) = i1 at e
  generalize hper : (if s.bright ≤ s.min_bright then 150
    else if s.bright ≥ s.max_bright then 250 else 50 : Nat) = per at e
  have hb : s.bright + i1 = (if s.bright = 0 then 1 else if s.bright = 16 then 15
      else s.bright + s.inc) ∧ (i1 = 1 ∨ i1 = -1) ∧
      (0 < s.bright → s.bright < 16 → i1 = s.inc) := by
    rw [← hi1, hmax, hmin]
    by_cases c16 : s.bright ≥ 16
    · have : s.bright = 16 := by omega
      simp [this]
    · by_cases c0 : s.bright ≤ 0
      · have : s.bright = 0 := by omega
        simp [this]
      · have hne0 : s.bright ≠ 0 := by omega
        have hne16 : s.bright ≠ 16 := by omega
        simp only [c16, c0, if_false, hne0, hne16]
        exact ⟨trivial, hinc (by omega), fun _ _ => trivial⟩
  obtain ⟨hb1, hb2, hb3⟩ := hb
  have hr0 : 0 ≤ s.bright + i1 := by
    rw [hb1]; split
    · omega
    · split
      · omega
      · rcases hinc (by omega) with hi | hi <;> omega
  have hr16 : s.bright + i1 ≤ 16 := by
    rw [hb1]; split
    · omega
    · split
      · omega
      · rcases hinc (by omega) with hi | hi <;> omega
  have hu := to_uint32_of_range _ hr0 hr16
  cases hfired : (check_timetag s.systime { s.timetag_rgb_led with period := per }).1
  · rw [hfired] at e
    simp only [Bool.false_eq_true, if_false] at e
    rw [e]
    exact ⟨⟨hmax, hmin, h0, h16, hinc⟩, Or.inl ⟨_, rfl, rfl, rfl⟩⟩
  · rw [hfired] at e
    simp only [if_true] at e
    rw [e]
    refine ⟨⟨hmax, hmin, hr0, hr16, fun _ => hb2⟩, Or.inr ⟨per,
      (E.rt_device_control s.hw E.NCP5623_CMD_SET_BRIGHT (to_uint32 (s.bright + i1))).1,
      ?_, ?_, ?_, hb1, ?_, hb3⟩⟩
    · show s.trace ++ _ = s.trace ++ _
      rw [hu.1]
    · exact Int.toNat_of_nonneg hr0
    · show (s.bright + i1).toNat ≤ 16
      omega
    · show s.bright + i1 = s.bright + 1 ∨ s.bright + i1 = s.bright - 1
      rcases hb2 with hi | hi <;> rw [hi]
      · left; rfl
      · right; rfl

theorem rgb_led_runs_breathing {E : LedEnv} (clocks : List Nat) :
    ∀ s : LedState E, s.breathing →
      (rgb_led_runs clocks s).breathing ∧
      ∃ cs, (rgb_led_runs clocks s).trace = s.trace ++ cs ∧
        ∀ cmd arg ret, LedCall.rt_device_control cmd arg ret ∈ cs →
          cmd = E.NCP5623_CMD_SET_BRIGHT ∧ arg ≤ 16 := by
  induction clocks with
  | nil =>
    intro s h
    exact ⟨h, [], (List.append_nil _).symm, fun _ _ _ hm => absurd hm (List.not_mem_nil _)⟩
  | cons now rest ih =>
    intro s h
    have h1 : LedState.breathing { s with systime := now } := h
    obtain ⟨hb, hstep⟩ := run_rgb_led_step _ h1
    obtain ⟨hb2, cs, hcs, hall⟩ := ih _ hb
    refine ⟨hb2, ?_⟩
    rcases hstep with ⟨per, htr, _, _⟩ | ⟨per, ret, htr, _, hle, _, _, _⟩
    · refine ⟨LedCall.check_timetag per false :: cs, ?_, ?_⟩
      · show (rgb_led_runs rest _).trace = _
        rw [hcs, htr]
        simp
      · intro cmd arg r hm
        rcases List.mem_cons.mp hm with hm | hm
        · cases hm
        · exact hall _ _ _ hm
    · refine ⟨LedCall.check_timetag per true :: LedCall.rt_device_control
        E.NCP5623_CMD_SET_BRIGHT
        (run_rgb_led { s with systime := now }).bright.toNat ret :: cs, ?_, ?_⟩
      · show (rgb_led_runs rest _).trace = _
        rw [hcs, htr]
        simp
      · intro cmd arg r hm
        rcases List.mem_cons.mp hm with hm | hm
        · cases hm
        · rcases List.mem_cons.mp hm with hm | hm
          · cases hm
            exact ⟨rfl, hle⟩
          · exact hall _ _ _ hm

theorem run_rgb_led_gate {E : LedEnv} (s : LedState E) (fired : Bool) :
    ∃ now period, (led_calls s (run_rgb_led { s with systime := now })).head? =
      some (LedCall.check_timetag period fired) := by
  have hpos : 0 < (if s.bright ≤ s.min_bright then 150
      else if s.bright ≥ s.max_bright then 250 else 50 : Nat) := by
    split
    · decide
    · split <;> decide
  generalize hper : (if s.bright ≤ s.min_bright then 150
      else if s.bright ≥ s.max_bright then 250 else 50 : Nat) = per at hpos
  cases fired
  · have hf : (check_timetag 0 { s.timetag_rgb_led with period := per }).1 = false := by
      unfold check_timetag
      rw [if_neg]
      show ¬ (0 - s.timetag_rgb_led.tag ≥ per)
      omega
    have e := run_rgb_led_eq { s with systime := 0 } false per hper.symm hf _ rfl
    refine ⟨0, per, ?_⟩
    rw [led_calls_append s _ [LedCall.check_timetag per false] (by rw [e]; rfl)]
    rfl
  · have hf : (check_timetag (s.timetag_rgb_led.tag + per)
        { s.timetag_rgb_led with period := per }).1 = true := by
      unfold check_timetag
      rw [if_pos]
      show s.timetag_rgb_led.tag + per - s.timetag_rgb_led.tag ≥ per
      omega
    have e := run_rgb_led_eq { s with systime := s.timetag_rgb_led.tag + per } true per
      hper.symm hf _ rfl
    refine ⟨s.timetag_rgb_led.tag + per, per, ?_⟩
    rw [led_calls_append s _ _ (by rw [e]; rfl)]
    rfl

/-- Claim C16.  From the static initialisers (`bright = 0`, `inc = 0`,
`max_bright = 16`, `min_bright = 0`), after any number of `run_rgb_led` calls at
any clock values: `0 ≤ bright ≤ 16`, and every `rt_device_control` call made so
far is a set-brightness command whose argument is at most 16.  A further call
either finds the gate closed, makes no device call and leaves `bright` and
`inc` alone, or finds it open and makes one set-brightness call whose argument
is the new `bright`, a non-negative `int`; the new `bright` is 1 when it was 0,
15 when it was 16, and `bright + inc` otherwise with `inc` kept, so it differs
from the old one by exactly 1.  Both gate outcomes occur at some clock value. -/
theorem breathing_led_in_range {E : LedEnv} (s0 : LedState E) (h : s0.initial) :
    (∀ clocks : List Nat,
      0 ≤ (rgb_led_runs clocks s0).bright ∧ (rgb_led_runs clocks s0).bright ≤ 16 ∧
      ∀ cmd arg ret,
        LedCall.rt_device_control cmd arg ret ∈ led_calls s0 (rgb_led_runs clocks s0) →
          cmd = E.NCP5623_CMD_SET_BRIGHT ∧ arg ≤ 16) ∧
    (∀ (clocks : List Nat) (now : Nat),
      (∃ period,
        led_calls (rgb_led_runs clocks s0)
            (run_rgb_led { rgb_led_runs clocks s0 with systime := now }) =
          [LedCall.check_timetag period false] ∧
        (run_rgb_led { rgb_led_runs clocks s0 with systime := now }).bright =
          (rgb_led_runs clocks s0).bright ∧
        (run_rgb_led { rgb_led_runs clocks s0 with systime := now }).inc =
          (rgb_led_runs clocks s0).inc) ∨
      (∃ period ret,
        led_calls (rgb_led_runs clocks s0)
            (run_rgb_led { rgb_led_runs clocks s0 with systime := now }) =
          [LedCall.check_timetag period true,
           LedCall.rt_device_control E.NCP5623_CMD_SET_BRIGHT
             (run_rgb_led { rgb_led_runs clocks s0 with systime := now }).bright.toNat ret] ∧
        (((run_rgb_led { rgb_led_runs clocks s0 with systime := now }).bright.toNat : Nat)
            : Int) =
          (run_rgb_led { rgb_led_runs clocks s0 with systime := now }).bright ∧
        (run_rgb_led { rgb_led_runs clocks s0 with systime := now }).bright.toNat ≤ 16 ∧
        (run_rgb_led { rgb_led_runs clocks s0 with systime := now }).bright =
          (if (rgb_led_runs clocks s0).bright = 0 then 1
           else if (rgb_led_runs clocks s0).bright = 16 then 15
           else (rgb_led_runs clocks s0).bright + (rgb_led_runs clocks s0).inc) ∧
        ((run_rgb_led { rgb_led_runs clocks s0 with systime := now }).bright =
            (rgb_led_runs clocks s0).bright + 1 ∨
          (run_rgb_led { rgb_led_runs clocks s0 with systime := now }).bright =
            (rgb_led_runs clocks s0).bright - 1) ∧
        (0 < (rgb_led_runs clocks s0).bright → (rgb_led_runs clocks s0).bright < 16 →
          (run_rgb_led { rgb_led_runs clocks s0 with systime := now }).inc =
            (rgb_led_runs clocks s0).inc))) ∧
    (∀ (clocks : List Nat) (fired : Bool), ∃ now period,
      (led_calls (rgb_led_runs clocks s0)
          (run_rgb_led { rgb_led_runs clocks s0 with systime := now })).head? =
        some (LedCall.check_timetag period fired)) := by
  have hb0 := initial_breathing s0 h
  refine ⟨?_, ?_, ?_⟩
  · intro clocks
    obtain ⟨hb, cs, hcs, hall⟩ := rgb_led_runs_breathing clocks s0 hb0
    refine ⟨hb.2.2.1, hb.2.2.2.1, ?_⟩
    rw [led_calls_append s0 _ cs hcs]
    exact hall
  · intro clocks now
    have hb := (rgb_led_runs_breathing clocks s0 hb0).1
    have hb1 : LedState.breathing { rgb_led_runs clocks s0 with systime := now } := hb
    rcases (run_rgb_led_step _ hb1).2 with ⟨per, htr, h1, h2⟩ | ⟨per, ret, htr, h1, h2, h3, h4, h5⟩
    · exact Or.inl ⟨per, led_calls_append _ _ _ htr, h1, h2⟩
    · exact Or.inr ⟨per, ret, led_calls_append _ _ _ htr, h1, h2, h3, h4, h5⟩
  · intro clocks fired
    exact run_rgb_led_gate _ fired

theorem breathing_led_in_range_witness :
    L0.initial ∧
    (rgb_led_runs [0, 150, 200] L0).bright = 2 ∧
    led_calls L0 (rgb_led_runs [0, 150, 200] L0) =
      [LedCall.check_timetag 150 false,
       LedCall.check_timetag 150 true, LedCall.rt_device_control 2 1 0,
       LedCall.check_timetag 50 true, LedCall.rt_device_control 2 2 0] ∧
    0 ≤ (rgb_led_runs [0, 150, 200] L0).bright ∧
    (rgb_led_runs [0, 150, 200] L0).bright ≤ 16 :=
  ⟨by decide, by rfl, by rfl,
    ((breathing_led_in_range L0 (by decide)).1 [0, 150, 200]).1,
    ((breathing_led_in_range L0 (by decide)).1 [0, 150, 200]).2.1⟩


theorem led_calls_set_color {E : LedEnv} (color : Nat) (s : LedState E) :
    led_calls s (rgb_led_set_color color s).2 =
      [LedCall.rt_device_control E.NCP5623_CMD_SET_COLOR color
        (E.rt_device_control s.hw E.NCP5623_CMD_SET_COLOR color).1] :=
  led_calls_append _ _ _ (by rw [rgb_led_set_color_snd])

/-- Claim C17.  The function `led_toggle(pin)` first reads the pin device.  It
returns `FMT_EOK` exactly when the read and the write that follows both report
`sizeof(&pin_sta)` bytes, and `FMT_ERROR` otherwise.  When the read reports
another count, the read is the only device call: no write is issued.  When the
read reports the expected count, exactly one write follows, for the same pin,
carrying 1 if the status read was 0 and 0 otherwise.  (The read is taken to
fill in the `status` field of the record and to leave `pin` alone.) -/
theorem led_toggle_read_then_negated_write {E : LedEnv} (pin : Nat) (s : LedState E) :
    ((led_toggle pin s).1 = fmt_err_t.FMT_EOK ↔
      (E.pin_read s.hw pin E.sizeof_ptr).1 = E.sizeof_ptr ∧
      (E.pin_write (E.pin_read s.hw pin E.sizeof_ptr).2.2
        { pin := pin,
          status := if (E.pin_read s.hw pin E.sizeof_ptr).2.1 = 0 then 1 else 0 }
        E.sizeof_ptr).1 = E.sizeof_ptr) ∧
    ((led_toggle pin s).1 ≠ fmt_err_t.FMT_EOK → (led_toggle pin s).1 = fmt_err_t.FMT_ERROR) ∧
    ((E.pin_read s.hw pin E.sizeof_ptr).1 ≠ E.sizeof_ptr →
      (led_toggle pin s).1 = fmt_err_t.FMT_ERROR ∧
      led_calls s (led_toggle pin s).2 =
        [LedCall.pin_read pin E.sizeof_ptr (E.pin_read s.hw pin E.sizeof_ptr).1
          (E.pin_read s.hw pin E.sizeof_ptr).2.1] ∧
      (led_toggle pin s).2.hw = (E.pin_read s.hw pin E.sizeof_ptr).2.2) ∧
    ((E.pin_read s.hw pin E.sizeof_ptr).1 = E.sizeof_ptr →
      led_calls s (led_toggle pin s).2 =
        [LedCall.pin_read pin E.sizeof_ptr (E.pin_read s.hw pin E.sizeof_ptr).1
          (E.pin_read s.hw pin E.sizeof_ptr).2.1,
         LedCall.pin_write
          { pin := pin,
            status := if (E.pin_read s.hw pin E.sizeof_ptr).2.1 = 0 then 1 else 0 }
          E.sizeof_ptr
          (E.pin_write (E.pin_read s.hw pin E.sizeof_ptr).2.2
            { pin := pin,
              status := if (E.pin_read s.hw pin E.sizeof_ptr).2.1 = 0 then 1 else 0 }
            E.sizeof_ptr).1] ∧
      (led_toggle pin s).2.hw =
        (E.pin_write (E.pin_read s.hw pin E.sizeof_ptr).2.2
          { pin := pin,
            status := if (E.pin_read s.hw pin E.sizeof_ptr).2.1 = 0 then 1 else 0 }
          E.sizeof_ptr).2) := by
  unfold led_toggle
  simp only [LedState.emit, led_calls]
  by_cases hr : (E.pin_read s.hw pin E.sizeof_ptr).1 = E.sizeof_ptr
  · by_cases hw : (E.pin_write (E.pin_read s.hw pin E.sizeof_ptr).2.2
        { pin := pin,
          status := if (E.pin_read s.hw pin E.sizeof_ptr).2.1 = 0 then 1 else 0 }
        E.sizeof_ptr).1 = E.sizeof_ptr
    · simp [hr, hw]
    · simp [hr, hw]
  · simp [hr]

/-- Claim C18.  With the case labels of the `switch` distinct, as C requires,
`vehicle_status_change_cb(status)` makes exactly one device call for every
`status`: a set-colour command, with blue for `VehicleStatus_Disarm`, green for
`VehicleStatus_Standby` and `VehicleStatus_Arm`, and red for every other value.
`vehicle_state_change_cb(mode)` makes one set-colour command with red when
`mode` is `VehicleState_None`, and otherwise makes no call and changes
nothing. -/
theorem status_colour_mapping {E : LedEnv} (s : LedState E) (status mode : Nat)
    (hd1 : E.VehicleStatus_Disarm ≠ E.VehicleStatus_Standby)
    (hd2 : E.VehicleStatus_Disarm ≠ E.VehicleStatus_Arm) :
    (∃ colour ret,
      led_calls s (vehicle_status_change_cb status s) =
        [LedCall.rt_device_control E.NCP5623_CMD_SET_COLOR colour ret] ∧
      (status = E.VehicleStatus_Disarm → colour = E.NCP5623_LED_BLUE) ∧
      (status = E.VehicleStatus_Standby ∨ status = E.VehicleStatus_Arm →
        colour = E.NCP5623_LED_GREEN) ∧
      (status ≠ E.VehicleStatus_Disarm → status ≠ E.VehicleStatus_Standby →
        status ≠ E.VehicleStatus_Arm → colour = E.NCP5623_LED_RED)) ∧
    (mode = E.VehicleState_None →
      ∃ ret, led_calls s (vehicle_state_change_cb mode s) =
        [LedCall.rt_device_control E.NCP5623_CMD_SET_COLOR E.NCP5623_LED_RED ret]) ∧
    (mode ≠ E.VehicleState_None →
      led_calls s (vehicle_state_change_cb mode s) = [] ∧
      vehicle_state_change_cb mode s = s) := by
  refine ⟨?_, ?_, ?_⟩
  · unfold vehicle_status_change_cb
    by_cases c1 : status = E.VehicleStatus_Disarm
    · rw [if_pos c1]
      refine ⟨E.NCP5623_LED_BLUE, _, led_calls_set_color _ _, fun _ => rfl, ?_, ?_⟩
      · rintro (h | h)
        · exact absurd (c1.symm.trans h) hd1
        · exact absurd (c1.symm.trans h) hd2
      · intro h
        exact absurd c1 h
    · rw [if_neg c1]
      by_cases c2 : status = E.VehicleStatus_Standby
      · rw [if_pos c2]
        refine ⟨E.NCP5623_LED_GREEN, _, led_calls_set_color _ _,
          fun h => absurd h c1, fun _ => rfl, fun _ h => absurd c2 h⟩
      · rw [if_neg c2]
        by_cases c3 : status = E.VehicleStatus_Arm
        · rw [if_pos c3]
          refine ⟨E.NCP5623_LED_GREEN, _, led_calls_set_color _ _,
            fun h => absurd h c1, fun _ => rfl, fun _ _ h => absurd c3 h⟩
        · rw [if_neg c3]
          refine ⟨E.NCP5623_LED_RED, _, led_calls_set_color _ _,
            fun h => absurd h c1, ?_, fun _ _ _ => rfl⟩
          rintro (h | h)
          · exact absurd h c2
          · exact absurd h c3
  · intro hm
    unfold vehicle_state_change_cb
    rw [if_pos hm]
    exact ⟨_, led_calls_set_color _ _⟩
  · intro hm
    unfold vehicle_state_change_cb
    rw [if_neg hm]
    exact ⟨by simp [led_calls], rfl⟩

theorem status_colour_mapping_witness :
    E0.VehicleStatus_Disarm ≠ E0.VehicleStatus_Standby ∧
    E0.VehicleStatus_Disarm ≠ E0.VehicleStatus_Arm ∧
    led_calls L0 (vehicle_status_change_cb 1 L0) = [LedCall.rt_device_control 1 1 0] ∧
    led_calls L0 (vehicle_status_change_cb 3 L0) = [LedCall.rt_device_control 1 2 0] ∧
    led_calls L0 (vehicle_status_change_cb 7 L0) = [LedCall.rt_device_control 1 4 0] ∧
    (∃ colour ret,
      led_calls L0 (vehicle_status_change_cb 3 L0) =
        [LedCall.rt_device_control E0.NCP5623_CMD_SET_COLOR colour ret] ∧
      (3 = E0.VehicleStatus_Disarm → colour = E0.NCP5623_LED_BLUE) ∧
      (3 = E0.VehicleStatus_Standby ∨ 3 = E0.VehicleStatus_Arm →
        colour = E0.NCP5623_LED_GREEN) ∧
      (3 ≠ E0.VehicleStatus_Disarm → 3 ≠ E0.VehicleStatus_Standby →
        3 ≠ E0.VehicleStatus_Arm → colour = E0.NCP5623_LED_RED)) :=
  ⟨by decide, by decide, by rfl, by rfl, by rfl,
    (status_colour_mapping L0 3 0 (by decide) (by decide)).1⟩


/-! ## The scheduler -/

theorem dispatch_single_due (cost : WorkItem → Nat → Nat) (item : WorkItem) (now : Nat)
    (h : item.schedule_time ≤ now) :
    dispatch_items cost [item] now =
      ([{ item with schedule_time := item.schedule_time + item.period }],
        now + cost item now, [(item.name, now)]) := by
  simp [dispatch_items, h]

theorem dispatch_single_not_due (cost : WorkItem → Nat → Nat) (item : WorkItem) (now : Nat)
    (h : ¬ item.schedule_time ≤ now) :
    dispatch_items cost [item] now = ([item], now, []) := by
  simp [dispatch_items, h]

theorem Scheduler.run_add (step : Nat) (cost : WorkItem → Nat → Nat) (a b : Nat) :
    ∀ s : Scheduler,
      Scheduler.run step cost (a + b) s = Scheduler.run step cost b (Scheduler.run step cost a s) := by
  induction a with
  | zero =>
    intro s
    rw [Nat.zero_add]
    rfl
  | succ a ih =>
    intro s
    rw [Nat.add_right_comm]
    exact ih _

theorem Scheduler.run_one (step : Nat) (cost : WorkItem → Nat → Nat) (s : Scheduler) :
    Scheduler.run step cost 1 s = s.tick step cost := rfl

/-- A queue with one item of period 100 whose next-due time `100 * c` is the
first multiple of 100 not before the clock `10 * k`, with callbacks that return
at once during these ticks: `n` ticks dispatch the item at the multiples of 100 from
`100 * c` up to the last tick, and leave the next-due time at the following
multiple. -/
theorem Scheduler.run_regular (cost : WorkItem → Nat → Nat) (nm : String) (r : RunCb) (n : Nat) :
    ∀ (k c : Nat) (pre : List (String × Nat)), k ≤ 10 * c → 10 * c < k + 10 →
      (∀ it t, 10 * k ≤ t → t < 10 * (k + n) → cost it t = 0) →
      Scheduler.run 10 cost n
          { now := 10 * k,
            queue := [{ name := nm, period := 100, schedule_time := 100 * c, run := r }],
            dispatched := pre } =
        { now := 10 * (k + n),
          queue := [{ name := nm, period := 100,
                      schedule_time := 100 * (c + ((k + n + 9) / 10 - c)), run := r }],
          dispatched := pre ++
            (List.range' c ((k + n + 9) / 10 - c)).map (fun j => (nm, 100 * j)) } := by
  induction n with
  | zero =>
    intro k c pre h1 h2 hc
    have hd : (k + 0 + 9) / 10 - c = 0 := by omega
    rw [hd]
    simp [Scheduler.run]
  | succ n ih =>
    intro k c pre h1 h2 hc
    rw [Scheduler.run]
    by_cases hk : k = 10 * c
    · have ht : Scheduler.tick 10 cost
            { now := 10 * k,
              queue := [{ name := nm, period := 100, schedule_time := 100 * c, run := r }],
              dispatched := pre } =
          { now := 10 * (k + 1),
            queue := [{ name := nm, period := 100, schedule_time := 100 * (c + 1), run := r }],
            dispatched := pre ++ [(nm, 100 * c)] } := by
        unfold Scheduler.tick
        rw [dispatch_single_due cost _ _ (by show 100 * c ≤ 10 * k; omega)]
        simp only [hc _ (10 * k) (Nat.le_refl _) (by omega)]
        have e1 : 10 * k + 0 + 10 = 10 * (k + 1) := by omega
        have e2 : 100 * c + 100 = 100 * (c + 1) := by omega
        have e3 : 10 * k = 100 * c := by omega
        rw [e1, e2, e3]
      rw [ht, ih (k + 1) (c + 1) _ (by omega) (by omega)
        (fun it t h h3 => hc it t (by omega) (by omega))]
      have e1 : k + 1 + n = k + (n + 1) := by omega
      have hd : (k + (n + 1) + 9) / 10 - c = ((k + (n + 1) + 9) / 10 - (c + 1)) + 1 := by omega
      have e2 : c + 1 + ((k + (n + 1) + 9) / 10 - (c + 1)) =
          c + ((k + (n + 1) + 9) / 10 - (c + 1) + 1) := by omega
      rw [e1, hd, List.range'_succ, e2]
      simp
    · have ht : Scheduler.tick 10 cost
            { now := 10 * k,
              queue := [{ name := nm, period := 100, schedule_time := 100 * c, run := r }],
              dispatched := pre } =
          { now := 10 * (k + 1),
            queue := [{ name := nm, period := 100, schedule_time := 100 * c, run := r }],
            dispatched := pre } := by
        unfold Scheduler.tick
        rw [dispatch_single_not_due cost _ _ (by show ¬ (100 * c ≤ 10 * k); omega)]
        have e1 : 10 * k + 10 = 10 * (k + 1) := by omega
        simp only [List.append_nil]
        rw [e1]
      rw [ht, ih (k + 1) c _ (by omega) (by omega)
        (fun it t h h3 => hc it t (by omega) (by omega))]
      have e1 : k + 1 + n = k + (n + 1) := by omega
      rw [e1]

/-- The first ten ticks under `overrun_at_100`: one dispatch, at time 0. -/
theorem overrun_first_ten (item : WorkItem) :
    Scheduler.run 10 overrun_at_100 10 (Scheduler.start { item with period := 100 }) =
      { now := 100,
        queue := [{ name := item.name, period := 100, schedule_time := 100, run := item.run }],
        dispatched := [(item.name, 0)] } := by
  have e : Scheduler.start { item with period := 100 } =
      { now := 10 * 0,
        queue := [{ name := item.name, period := 100, schedule_time := 100 * 0,
                    run := item.run }],
        dispatched := [] } := rfl
  rw [e, Scheduler.run_regular overrun_at_100 item.name item.run 10 0 0 [] (by omega) (by omega)
    (fun _ t _ h => by
      show (if t = 100 then 250 else 0) = 0
      rw [if_neg (by omega)])]
  rfl

/-- The tick at time 100 under `overrun_at_100`: the callback takes 250 time
units, so the next tick is at 360. -/
theorem overrun_tick_100 (nm : String) (r : RunCb) (pre : List (String × Nat)) :
    Scheduler.tick 10 overrun_at_100
        { now := 100,
          queue := [{ name := nm, period := 100, schedule_time := 100, run := r }],
          dispatched := pre } =
      { now := 360,
        queue := [{ name := nm, period := 100, schedule_time := 200, run := r }],
        dispatched := pre ++ [(nm, 100)] } := by
  unfold Scheduler.tick
  rw [dispatch_single_due _ _ _ (by show 100 ≤ 100; decide)]
  rfl

/-- The two ticks after the overrun, at 360 and 370, each dispatch the item. -/
theorem overrun_catch_up (nm : String) (r : RunCb) (pre : List (String × Nat)) :
    Scheduler.run 10 overrun_at_100 2
        { now := 360,
          queue := [{ name := nm, period := 100, schedule_time := 200, run := r }],
          dispatched := pre } =
      { now := 380,
        queue := [{ name := nm, period := 100, schedule_time := 400, run := r }],
        dispatched := pre ++ [(nm, 360), (nm, 370)] } := by
  have t1 : Scheduler.tick 10 overrun_at_100
        { now := 360,
          queue := [{ name := nm, period := 100, schedule_time := 200, run := r }],
          dispatched := pre } =
      { now := 370,
        queue := [{ name := nm, period := 100, schedule_time := 300, run := r }],
        dispatched := pre ++ [(nm, 360)] } := by
    unfold Scheduler.tick
    rw [dispatch_single_due _ _ _ (by show 200 ≤ 360; decide)]
    rfl
  have t2 : Scheduler.tick 10 overrun_at_100
        { now := 370,
          queue := [{ name := nm, period := 100, schedule_time := 300, run := r }],
          dispatched := pre ++ [(nm, 360)] } =
      { now := 380,
        queue := [{ name := nm, period := 100, schedule_time := 400, run := r }],
        dispatched := pre ++ [(nm, 360), (nm, 370)] } := by
    unfold Scheduler.tick
    rw [dispatch_single_due _ _ _ (by show 300 ≤ 370; decide)]
    simp
    rfl
  show Scheduler.run 10 overrun_at_100 0 (Scheduler.tick 10 overrun_at_100
    (Scheduler.tick 10 overrun_at_100 _)) = _
  rw [t1, t2]
  rfl

/-- Claim C11.  A work item with period 100 scheduled at time 0, under a clock
advancing in steps of 10.  A due item is dispatched and re-armed at its old
next-due time plus its period, whatever the time its callback takes.  When
every callback returns at once, after `n` ticks the item has been dispatched
at 0, 100, 200, ... (every multiple of 100 reached by a tick) and at no other
time.  When the invocation at time 100 takes 250 time units, it returns at 350;
the item is dispatched at the next tick, 360, not at 400, again at 370 for the
cycle of 300, and from 400 on at every multiple of 100, so no cycle is
dropped. -/
theorem scheduler_cadence (item : WorkItem) :
    (∀ (cost : WorkItem → Nat → Nat) (it : WorkItem) (now : Nat), it.schedule_time ≤ now →
      dispatch_items cost [it] now =
        ([{ it with schedule_time := it.schedule_time + it.period }],
          now + cost it now, [(it.name, now)])) ∧
    (Scheduler.start { item with period := 100 }).queue =
      [{ item with period := 100, schedule_time := 0 }] ∧
    (∀ n : Nat,
      (Scheduler.run 10 no_cost n (Scheduler.start { item with period := 100 })).dispatched =
          (List.range ((n + 9) / 10)).map (fun j => (item.name, 100 * j)) ∧
      (Scheduler.run 10 no_cost n (Scheduler.start { item with period := 100 })).now = 10 * n ∧
      (Scheduler.run 10 no_cost n (Scheduler.start { item with period := 100 })).queue =
          [{ item with period := 100, schedule_time := 100 * ((n + 9) / 10) }]) ∧
    (Scheduler.run 10 overrun_at_100 11 (Scheduler.start { item with period := 100 })) =
      { now := 360,
        queue := [{ item with period := 100, schedule_time := 200 }],
        dispatched := [(item.name, 0), (item.name, 100)] } ∧
    (∀ n : Nat,
      (Scheduler.run 10 overrun_at_100 (13 + n)
          (Scheduler.start { item with period := 100 })).dispatched =
        [(item.name, 0), (item.name, 100), (item.name, 360), (item.name, 370)] ++
          (List.range' 4 ((n + 7) / 10)).map (fun j => (item.name, 100 * j))) ∧
    (Scheduler.run 10 overrun_at_100 26 (Scheduler.start { led_item with period := 100 })).dispatched =
      [("led", 0), ("led", 100), ("led", 360), ("led", 370), ("led", 400), ("led", 500)] := by
  refine ⟨dispatch_single_due, rfl, ?_, ?_, ?_, ?_⟩
  · intro n
    have h := Scheduler.run_regular no_cost item.name item.run n 0 0 [] (by omega) (by omega)
      (fun _ _ _ _ => rfl)
    have e : Scheduler.start { item with period := 100 } =
        { now := 10 * 0,
          queue := [{ name := item.name, period := 100, schedule_time := 100 * 0,
                      run := item.run }],
          dispatched := [] } := rfl
    rw [e, h]
    refine ⟨?_, ?_, ?_⟩
    · simp [List.range_eq_range']
    · simp
    · simp
  · show Scheduler.run 10 overrun_at_100 (10 + 1) _ = _
    rw [Scheduler.run_add, overrun_first_ten, Scheduler.run_one, overrun_tick_100]
    rfl
  · intro n
    have e : Scheduler.run 10 overrun_at_100 13 (Scheduler.start { item with period := 100 }) =
        { now := 10 * 38,
          queue := [{ name := item.name, period := 100, schedule_time := 100 * 4,
                      run := item.run }],
          dispatched := [(item.name, 0), (item.name, 100), (item.name, 360),
            (item.name, 370)] } := by
      show Scheduler.run 10 overrun_at_100 (10 + (1 + 2)) _ = _
      rw [Scheduler.run_add, overrun_first_ten, Scheduler.run_add, Scheduler.run_one,
        overrun_tick_100, overrun_catch_up]
      rfl
    rw [Scheduler.run_add, e,
      Scheduler.run_regular overrun_at_100 item.name item.run n 38 4 _ (by omega) (by omega)
        (fun _ t h _ => by
          show (if t = 100 then 250 else 0) = 0
          rw [if_neg (by omega)])]
    have hd : (38 + n + 9) / 10 - 4 = (n + 7) / 10 := by omega
    rw [hd]
  · rfl


/-! ## The later claims at concrete states -/

/-- C13 at `W_fed` with `timestamp = 77`: the pilot command was published with
timestamp 9 and fields 3; `FMS_step` sees timestamp 77 and fields 3. -/
theorem fms_step_stamps_commands_witness :
    (W_fed.fms.pilot_cmd_nod = some { last_read := 0 } ∧
      W_fed.fms.gcs_cmd_nod = some { last_read := 0 } ∧
      W_fed.fms.ins_out_nod = some { last_read := 0 } ∧
      W_fed.fms.control_out_nod = some { last_read := 0 }) ∧
    W_fed.bus.pilot_cmd.payload = some { timestamp := 9, fields := (3 : Nat) } ∧
    mcn_poll W_fed.bus.pilot_cmd { last_read := 0 } = true ∧
    mcn_poll W_fed.bus.gcs_cmd { last_read := 0 } = false ∧
    ∃ w1 u, fms_interface_step G0 77 W_fed = some w1 ∧
      (call_events W_fed w1).filter Event.isModelStep = [Event.FMS_step u] ∧
      u.Pilot_Cmd.timestamp = 77 ∧ u.Pilot_Cmd.fields = (3 : Nat) ∧
      u.GCS_Cmd = W_fed.fms.FMS_U.GCS_Cmd := by
  refine ⟨⟨rfl, rfl, rfl, rfl⟩, rfl, rfl, rfl, ?_⟩
  obtain ⟨w1, u, hs, hf, hp, _, _, hg, _⟩ :=
    fms_step_stamps_commands G0 77 W_fed { last_read := 0 } { last_read := 0 }
      { last_read := 0 } { last_read := 0 } rfl rfl rfl rfl
  exact ⟨w1, u, hs, hf, (hp rfl).1, (hp rfl).2.2 _ rfl, hg rfl⟩

/-- C14 at `W_fed`: the controller's `fms_output` input and the FMS's
`pilot_cmd` input are dirty on entry; no copy of either step is stale and no
input node is dirty when the step returns. -/
theorem copy_status_can_be_ignored_witness :
    (W_fed.bus.pilot_cmd.wf ∧ W_fed.bus.gcs_cmd.wf ∧ W_fed.bus.ins_output.wf ∧
      W_fed.bus.fms_output.wf ∧ W_fed.bus.control_output.wf) ∧
    mcn_poll W_fed.bus.fms_output { last_read := 0 } = true ∧
    mcn_poll W_fed.bus.pilot_cmd { last_read := 0 } = true ∧
    (∃ w1 a b, control_interface_step G0 0 W_fed = some w1 ∧
      (call_events W_fed w1).any Event.isStaleCopy = false ∧
      w1.controller.fms_out_nod = some a ∧ w1.controller.ins_out_nod = some b ∧
      mcn_poll w1.bus.fms_output a = false ∧ mcn_poll w1.bus.ins_output b = false) ∧
    (∃ w1 a b c d, fms_interface_step G0 0 W_fed = some w1 ∧
      (call_events W_fed w1).any Event.isStaleCopy = false ∧
      w1.fms.pilot_cmd_nod = some a ∧ w1.fms.gcs_cmd_nod = some b ∧
      w1.fms.ins_out_nod = some c ∧ w1.fms.control_out_nod = some d ∧
      mcn_poll w1.bus.pilot_cmd a = false ∧ mcn_poll w1.bus.gcs_cmd b = false ∧
      mcn_poll w1.bus.ins_output c = false ∧ mcn_poll w1.bus.control_output d = false) := by
  have wf1 : W_fed.bus.pilot_cmd.wf := wf_mcn_publish _ _
  have wf2 : W_fed.bus.gcs_cmd.wf := fun _ => rfl
  have wf3 : W_fed.bus.ins_output.wf := fun _ => rfl
  have wf4 : W_fed.bus.fms_output.wf := wf_mcn_publish _ _
  have wf5 : W_fed.bus.control_output.wf := fun _ => rfl
  have h := copy_status_can_be_ignored G0 0 W_fed { last_read := 0 } { last_read := 0 }
    { last_read := 0 } { last_read := 0 } { last_read := 0 } { last_read := 0 }
    { last_read := 0 } rfl rfl rfl rfl rfl rfl rfl wf1 wf2 wf3 wf4 wf5
  exact ⟨⟨wf1, wf2, wf3, wf4, wf5⟩, rfl, rfl, h.2.1, h.2.2.1⟩

end FMT
